import Mathlib

/-!
Verification of pce: the softfloat extension, the recompiler thunks, the cycle
groups, the VGA base device and the IBM XT system.

Shallow embedding of `dep/softfloat/src/softfloat-compare.h`,
`dep/softfloat/src/softfloatx80.cc`, `pce/cpu_x86/recompiler_thunks.cpp`,
`pce/cpu_x86/cycles.h`, `pce/hw/vgabase.cpp` and `pce/systems/ibmxt.cpp`.

Conventions of the embedding:
* C unsigned integers are `Nat` with an explicit `% 2 ^ w` where a shift or a
  sum can leave the width; C `int` / `int32_t` values are `Int`.
* A function taking `float_status_t &status` returns the new status next to
  its result; a function taking `floatx80 &a` returns the new operand too.  A
  method of a device takes the device and returns the device afterwards.
* Functions, constants, macros and types that the files use but that are
  declared in headers absent from the sources are either parameters of the
  definitions that call them, or definitions marked `Modelled from the spec:`.
  Sample instances of the parameters serve to run the definitions on concrete
  inputs.
-/

set_option autoImplicit false

namespace SoftFloat

/-! ## Status word and flags -/

/-- Modelled from the spec: the status structure `float_status_t` is declared in
softfloat.h, which is absent.  The spec gives it sticky exception flags and a
rounding mode; the sources only ever touch `float_exception_flags`. -/
structure float_status_t where
  float_rounding_mode : Nat
  float_exception_flags : Nat
deriving DecidableEq, Repr

/-- Modelled from the spec: invalid-operation flag (softfloat.h is absent). -/
def float_flag_invalid : Nat := 0x01
/-- Modelled from the spec: denormal-operand flag (softfloat.h is absent). -/
def float_flag_denormal : Nat := 0x02
/-- Modelled from the spec: divide-by-zero flag (softfloat.h is absent). -/
def float_flag_divbyzero : Nat := 0x04
/-- Modelled from the spec: overflow flag (softfloat.h is absent). -/
def float_flag_overflow : Nat := 0x08
/-- Modelled from the spec: underflow flag (softfloat.h is absent). -/
def float_flag_underflow : Nat := 0x10
/-- Modelled from the spec: inexact flag (softfloat.h is absent). -/
def float_flag_inexact : Nat := 0x20

/-- Modelled from the spec: `float_raise` (softfloat.h is absent) sets sticky
flags, that is, it ORs the given flags into `float_exception_flags`. -/
def float_raise (status : float_status_t) (flags : Nat) : float_status_t :=
  { status with float_exception_flags := status.float_exception_flags ||| flags }

/-- Flag `flag` (a one-bit mask) is set in `status`. -/
def flagSet (status : float_status_t) (flag : Nat) : Prop :=
  status.float_exception_flags &&& flag ≠ 0

instance (status : float_status_t) (flag : Nat) : Decidable (flagSet status flag) := by
  unfold flagSet; infer_instance

/-- No exception flag set in `s` is cleared in `t`: bit by bit, `s ⊆ t`. -/
def flagsKept (s t : float_status_t) : Prop :=
  ∀ i, s.float_exception_flags.testBit i = true → t.float_exception_flags.testBit i = true

/-! ## The three-way relation -/

/-- Modelled from the spec: the enumeration of relations returned by the base
compares (`float_relation_*`, declared in softfloat.h, which is absent).  The
spec names exactly the four relations less, equal, greater, unordered. -/
inductive float_relation where
  | float_relation_less
  | float_relation_equal
  | float_relation_greater
  | float_relation_unordered
deriving DecidableEq, Repr

open float_relation

/-- The C conversion of a truth value to `int`. -/
def boolToInt (p : Bool) : Int := if p then 1 else 0

/-- Storage type of a single-precision value (`typedef uint32_t float32`). -/
abbrev float32 := Nat
/-- Storage type of a double-precision value (`typedef uint64_t float64`). -/
abbrev float64 := Nat

/-! ## softfloat-compare.h, float32 -/

section compare_predicates

/- Every predicate receives both base compares and calls one of them. -/
set_option linter.unusedVariables false

/-- Type of the two base compares `float32_compare` and `float32_compare_quiet`.
They live in softfloat.cc, absent from the sources, so every predicate takes
both as parameters, in this order. -/
abbrev float32_base_compare :=
  float32 → float32 → float_status_t → float_relation × float_status_t

/-- Predicate 0x00: float32_eq_ordered_quiet. -/
def float32_eq_ordered_quiet (float32_compare float32_compare_quiet : float32_base_compare)
    (a b : float32) (status : float_status_t) : Int × float_status_t :=
  let (relation, status) := float32_compare_quiet a b status
  (boolToInt ((relation == float_relation_equal)), status)

/-- Predicate 0x01: float32_lt_ordered_signalling. -/
def float32_lt_ordered_signalling (float32_compare float32_compare_quiet : float32_base_compare)
    (a b : float32) (status : float_status_t) : Int × float_status_t :=
  let (relation, status) := float32_compare a b status
  (boolToInt ((relation == float_relation_less)), status)

/-- Predicate 0x02: float32_le_ordered_signalling. -/
def float32_le_ordered_signalling (float32_compare float32_compare_quiet : float32_base_compare)
    (a b : float32) (status : float_status_t) : Int × float_status_t :=
  let (relation, status) := float32_compare a b status
  (boolToInt ((relation == float_relation_less) || (relation == float_relation_equal)), status)

/-- Predicate 0x03: float32_unordered_quiet. -/
def float32_unordered_quiet (float32_compare float32_compare_quiet : float32_base_compare)
    (a b : float32) (status : float_status_t) : Int × float_status_t :=
  let (relation, status) := float32_compare_quiet a b status
  (boolToInt ((relation == float_relation_unordered)), status)

/-- Predicate 0x04: float32_neq_unordered_quiet. -/
def float32_neq_unordered_quiet (float32_compare float32_compare_quiet : float32_base_compare)
    (a b : float32) (status : float_status_t) : Int × float_status_t :=
  let (relation, status) := float32_compare_quiet a b status
  (boolToInt ((relation != float_relation_equal)), status)

/-- Predicate 0x05: float32_nlt_unordered_signalling. -/
def float32_nlt_unordered_signalling (float32_compare float32_compare_quiet : float32_base_compare)
    (a b : float32) (status : float_status_t) : Int × float_status_t :=
  let (relation, status) := float32_compare a b status
  (boolToInt ((relation != float_relation_less)), status)

/-- Predicate 0x06: float32_nle_unordered_signalling. -/
def float32_nle_unordered_signalling (float32_compare float32_compare_quiet : float32_base_compare)
    (a b : float32) (status : float_status_t) : Int × float_status_t :=
  let (relation, status) := float32_compare a b status
  (boolToInt ((relation != float_relation_less) && (relation != float_relation_equal)), status)

/-- Predicate 0x07: float32_ordered_quiet. -/
def float32_ordered_quiet (float32_compare float32_compare_quiet : float32_base_compare)
    (a b : float32) (status : float_status_t) : Int × float_status_t :=
  let (relation, status) := float32_compare_quiet a b status
  (boolToInt ((relation != float_relation_unordered)), status)

/-- Predicate 0x08: float32_eq_unordered_quiet. -/
def float32_eq_unordered_quiet (float32_compare float32_compare_quiet : float32_base_compare)
    (a b : float32) (status : float_status_t) : Int × float_status_t :=
  let (relation, status) := float32_compare_quiet a b status
  (boolToInt ((relation == float_relation_equal) || (relation == float_relation_unordered)), status)

/-- Predicate 0x09: float32_nge_unordered_signalling. -/
def float32_nge_unordered_signalling (float32_compare float32_compare_quiet : float32_base_compare)
    (a b : float32) (status : float_status_t) : Int × float_status_t :=
  let (relation, status) := float32_compare a b status
  (boolToInt ((relation == float_relation_less) || (relation == float_relation_unordered)), status)

/-- Predicate 0x0a: float32_ngt_unordered_signalling. -/
def float32_ngt_unordered_signalling (float32_compare float32_compare_quiet : float32_base_compare)
    (a b : float32) (status : float_status_t) : Int × float_status_t :=
  let (relation, status) := float32_compare a b status
  (boolToInt ((relation != float_relation_greater)), status)

/-- Predicate 0x0b: float32_false_quiet. -/
def float32_false_quiet (float32_compare float32_compare_quiet : float32_base_compare)
    (a b : float32) (status : float_status_t) : Int × float_status_t :=
  let (_, status) := float32_compare_quiet a b status
  (0, status)

/-- Predicate 0x0c: float32_neq_ordered_quiet. -/
def float32_neq_ordered_quiet (float32_compare float32_compare_quiet : float32_base_compare)
    (a b : float32) (status : float_status_t) : Int × float_status_t :=
  let (relation, status) := float32_compare_quiet a b status
  (boolToInt ((relation != float_relation_equal) && (relation != float_relation_unordered)), status)

/-- Predicate 0x0d: float32_ge_ordered_signalling. -/
def float32_ge_ordered_signalling (float32_compare float32_compare_quiet : float32_base_compare)
    (a b : float32) (status : float_status_t) : Int × float_status_t :=
  let (relation, status) := float32_compare a b status
  (boolToInt ((relation == float_relation_greater) || (relation == float_relation_equal)), status)

/-- Predicate 0x0e: float32_gt_ordered_signalling. -/
def float32_gt_ordered_signalling (float32_compare float32_compare_quiet : float32_base_compare)
    (a b : float32) (status : float_status_t) : Int × float_status_t :=
  let (relation, status) := float32_compare a b status
  (boolToInt ((relation == float_relation_greater)), status)

/-- Predicate 0x0f: float32_true_quiet. -/
def float32_true_quiet (float32_compare float32_compare_quiet : float32_base_compare)
    (a b : float32) (status : float_status_t) : Int × float_status_t :=
  let (_, status) := float32_compare_quiet a b status
  (1, status)

/-- Predicate 0x10: float32_eq_ordered_signalling. -/
def float32_eq_ordered_signalling (float32_compare float32_compare_quiet : float32_base_compare)
    (a b : float32) (status : float_status_t) : Int × float_status_t :=
  let (relation, status) := float32_compare a b status
  (boolToInt ((relation == float_relation_equal)), status)

/-- Predicate 0x11: float32_lt_ordered_quiet. -/
def float32_lt_ordered_quiet (float32_compare float32_compare_quiet : float32_base_compare)
    (a b : float32) (status : float_status_t) : Int × float_status_t :=
  let (relation, status) := float32_compare_quiet a b status
  (boolToInt ((relation == float_relation_less)), status)

/-- Predicate 0x12: float32_le_ordered_quiet. -/
def float32_le_ordered_quiet (float32_compare float32_compare_quiet : float32_base_compare)
    (a b : float32) (status : float_status_t) : Int × float_status_t :=
  let (relation, status) := float32_compare_quiet a b status
  (boolToInt ((relation == float_relation_less) || (relation == float_relation_equal)), status)

/-- Predicate 0x13: float32_unordered_signalling. -/
def float32_unordered_signalling (float32_compare float32_compare_quiet : float32_base_compare)
    (a b : float32) (status : float_status_t) : Int × float_status_t :=
  let (relation, status) := float32_compare a b status
  (boolToInt ((relation == float_relation_unordered)), status)

/-- Predicate 0x14: float32_neq_unordered_signalling. -/
def float32_neq_unordered_signalling (float32_compare float32_compare_quiet : float32_base_compare)
    (a b : float32) (status : float_status_t) : Int × float_status_t :=
  let (relation, status) := float32_compare a b status
  (boolToInt ((relation != float_relation_equal)), status)

/-- Predicate 0x15: float32_nlt_unordered_quiet. -/
def float32_nlt_unordered_quiet (float32_compare float32_compare_quiet : float32_base_compare)
    (a b : float32) (status : float_status_t) : Int × float_status_t :=
  let (relation, status) := float32_compare_quiet a b status
  (boolToInt ((relation != float_relation_less)), status)

/-- Predicate 0x16: float32_nle_unordered_quiet. -/
def float32_nle_unordered_quiet (float32_compare float32_compare_quiet : float32_base_compare)
    (a b : float32) (status : float_status_t) : Int × float_status_t :=
  let (relation, status) := float32_compare_quiet a b status
  (boolToInt ((relation != float_relation_less) && (relation != float_relation_equal)), status)

/-- Predicate 0x17: float32_ordered_signalling. -/
def float32_ordered_signalling (float32_compare float32_compare_quiet : float32_base_compare)
    (a b : float32) (status : float_status_t) : Int × float_status_t :=
  let (relation, status) := float32_compare a b status
  (boolToInt ((relation != float_relation_unordered)), status)

/-- Predicate 0x18: float32_eq_unordered_signalling. -/
def float32_eq_unordered_signalling (float32_compare float32_compare_quiet : float32_base_compare)
    (a b : float32) (status : float_status_t) : Int × float_status_t :=
  let (relation, status) := float32_compare a b status
  (boolToInt ((relation == float_relation_equal) || (relation == float_relation_unordered)), status)

/-- Predicate 0x19: float32_nge_unordered_quiet. -/
def float32_nge_unordered_quiet (float32_compare float32_compare_quiet : float32_base_compare)
    (a b : float32) (status : float_status_t) : Int × float_status_t :=
  let (relation, status) := float32_compare_quiet a b status
  (boolToInt ((relation == float_relation_less) || (relation == float_relation_unordered)), status)

/-- Predicate 0x1a: float32_ngt_unordered_quiet. -/
def float32_ngt_unordered_quiet (float32_compare float32_compare_quiet : float32_base_compare)
    (a b : float32) (status : float_status_t) : Int × float_status_t :=
  let (relation, status) := float32_compare_quiet a b status
  (boolToInt ((relation != float_relation_greater)), status)

/-- Predicate 0x1b: float32_false_signalling. -/
def float32_false_signalling (float32_compare float32_compare_quiet : float32_base_compare)
    (a b : float32) (status : float_status_t) : Int × float_status_t :=
  let (_, status) := float32_compare a b status
  (0, status)

/-- Predicate 0x1c: float32_neq_ordered_signalling. -/
def float32_neq_ordered_signalling (float32_compare float32_compare_quiet : float32_base_compare)
    (a b : float32) (status : float_status_t) : Int × float_status_t :=
  let (relation, status) := float32_compare a b status
  (boolToInt ((relation != float_relation_equal) && (relation != float_relation_unordered)), status)

/-- Predicate 0x1d: float32_ge_ordered_quiet. -/
def float32_ge_ordered_quiet (float32_compare float32_compare_quiet : float32_base_compare)
    (a b : float32) (status : float_status_t) : Int × float_status_t :=
  let (relation, status) := float32_compare_quiet a b status
  (boolToInt ((relation == float_relation_greater) || (relation == float_relation_equal)), status)

/-- Predicate 0x1e: float32_gt_ordered_quiet. -/
def float32_gt_ordered_quiet (float32_compare float32_compare_quiet : float32_base_compare)
    (a b : float32) (status : float_status_t) : Int × float_status_t :=
  let (relation, status) := float32_compare_quiet a b status
  (boolToInt ((relation == float_relation_greater)), status)

/-- Predicate 0x1f: float32_true_signalling. -/
def float32_true_signalling (float32_compare float32_compare_quiet : float32_base_compare)
    (a b : float32) (status : float_status_t) : Int × float_status_t :=
  let (_, status) := float32_compare a b status
  (1, status)

/-! ## softfloat-compare.h, float64 -/

/-- Type of the two base compares `float64_compare` and `float64_compare_quiet`.
They live in softfloat.cc, absent from the sources, so every predicate takes
both as parameters, in this order. -/
abbrev float64_base_compare :=
  float64 → float64 → float_status_t → float_relation × float_status_t

/-- Predicate 0x00: float64_eq_ordered_quiet. -/
def float64_eq_ordered_quiet (float64_compare float64_compare_quiet : float64_base_compare)
    (a b : float64) (status : float_status_t) : Int × float_status_t :=
  let (relation, status) := float64_compare_quiet a b status
  (boolToInt ((relation == float_relation_equal)), status)

/-- Predicate 0x01: float64_lt_ordered_signalling. -/
def float64_lt_ordered_signalling (float64_compare float64_compare_quiet : float64_base_compare)
    (a b : float64) (status : float_status_t) : Int × float_status_t :=
  let (relation, status) := float64_compare a b status
  (boolToInt ((relation == float_relation_less)), status)

/-- Predicate 0x02: float64_le_ordered_signalling. -/
def float64_le_ordered_signalling (float64_compare float64_compare_quiet : float64_base_compare)
    (a b : float64) (status : float_status_t) : Int × float_status_t :=
  let (relation, status) := float64_compare a b status
  (boolToInt ((relation == float_relation_less) || (relation == float_relation_equal)), status)

/-- Predicate 0x03: float64_unordered_quiet. -/
def float64_unordered_quiet (float64_compare float64_compare_quiet : float64_base_compare)
    (a b : float64) (status : float_status_t) : Int × float_status_t :=
  let (relation, status) := float64_compare_quiet a b status
  (boolToInt ((relation == float_relation_unordered)), status)

/-- Predicate 0x04: float64_neq_unordered_quiet. -/
def float64_neq_unordered_quiet (float64_compare float64_compare_quiet : float64_base_compare)
    (a b : float64) (status : float_status_t) : Int × float_status_t :=
  let (relation, status) := float64_compare_quiet a b status
  (boolToInt ((relation != float_relation_equal)), status)

/-- Predicate 0x05: float64_nlt_unordered_signalling. -/
def float64_nlt_unordered_signalling (float64_compare float64_compare_quiet : float64_base_compare)
    (a b : float64) (status : float_status_t) : Int × float_status_t :=
  let (relation, status) := float64_compare a b status
  (boolToInt ((relation != float_relation_less)), status)

/-- Predicate 0x06: float64_nle_unordered_signalling. -/
def float64_nle_unordered_signalling (float64_compare float64_compare_quiet : float64_base_compare)
    (a b : float64) (status : float_status_t) : Int × float_status_t :=
  let (relation, status) := float64_compare a b status
  (boolToInt ((relation != float_relation_less) && (relation != float_relation_equal)), status)

/-- Predicate 0x07: float64_ordered_quiet. -/
def float64_ordered_quiet (float64_compare float64_compare_quiet : float64_base_compare)
    (a b : float64) (status : float_status_t) : Int × float_status_t :=
  let (relation, status) := float64_compare_quiet a b status
  (boolToInt ((relation != float_relation_unordered)), status)

/-- Predicate 0x08: float64_eq_unordered_quiet. -/
def float64_eq_unordered_quiet (float64_compare float64_compare_quiet : float64_base_compare)
    (a b : float64) (status : float_status_t) : Int × float_status_t :=
  let (relation, status) := float64_compare_quiet a b status
  (boolToInt ((relation == float_relation_equal) || (relation == float_relation_unordered)), status)

/-- Predicate 0x09: float64_nge_unordered_signalling. -/
def float64_nge_unordered_signalling (float64_compare float64_compare_quiet : float64_base_compare)
    (a b : float64) (status : float_status_t) : Int × float_status_t :=
  let (relation, status) := float64_compare a b status
  (boolToInt ((relation == float_relation_less) || (relation == float_relation_unordered)), status)

/-- Predicate 0x0a: float64_ngt_unordered_signalling. -/
def float64_ngt_unordered_signalling (float64_compare float64_compare_quiet : float64_base_compare)
    (a b : float64) (status : float_status_t) : Int × float_status_t :=
  let (relation, status) := float64_compare a b status
  (boolToInt ((relation != float_relation_greater)), status)

/-- Predicate 0x0b: float64_false_quiet. -/
def float64_false_quiet (float64_compare float64_compare_quiet : float64_base_compare)
    (a b : float64) (status : float_status_t) : Int × float_status_t :=
  let (_, status) := float64_compare_quiet a b status
  (0, status)

/-- Predicate 0x0c: float64_neq_ordered_quiet. -/
def float64_neq_ordered_quiet (float64_compare float64_compare_quiet : float64_base_compare)
    (a b : float64) (status : float_status_t) : Int × float_status_t :=
  let (relation, status) := float64_compare_quiet a b status
  (boolToInt ((relation != float_relation_equal) && (relation != float_relation_unordered)), status)

/-- Predicate 0x0d: float64_ge_ordered_signalling. -/
def float64_ge_ordered_signalling (float64_compare float64_compare_quiet : float64_base_compare)
    (a b : float64) (status : float_status_t) : Int × float_status_t :=
  let (relation, status) := float64_compare a b status
  (boolToInt ((relation == float_relation_greater) || (relation == float_relation_equal)), status)

/-- Predicate 0x0e: float64_gt_ordered_signalling. -/
def float64_gt_ordered_signalling (float64_compare float64_compare_quiet : float64_base_compare)
    (a b : float64) (status : float_status_t) : Int × float_status_t :=
  let (relation, status) := float64_compare a b status
  (boolToInt ((relation == float_relation_greater)), status)

/-- Predicate 0x0f: float64_true_quiet. -/
def float64_true_quiet (float64_compare float64_compare_quiet : float64_base_compare)
    (a b : float64) (status : float_status_t) : Int × float_status_t :=
  let (_, status) := float64_compare_quiet a b status
  (1, status)

/-- Predicate 0x10: float64_eq_ordered_signalling. -/
def float64_eq_ordered_signalling (float64_compare float64_compare_quiet : float64_base_compare)
    (a b : float64) (status : float_status_t) : Int × float_status_t :=
  let (relation, status) := float64_compare a b status
  (boolToInt ((relation == float_relation_equal)), status)

/-- Predicate 0x11: float64_lt_ordered_quiet. -/
def float64_lt_ordered_quiet (float64_compare float64_compare_quiet : float64_base_compare)
    (a b : float64) (status : float_status_t) : Int × float_status_t :=
  let (relation, status) := float64_compare_quiet a b status
  (boolToInt ((relation == float_relation_less)), status)

/-- Predicate 0x12: float64_le_ordered_quiet. -/
def float64_le_ordered_quiet (float64_compare float64_compare_quiet : float64_base_compare)
    (a b : float64) (status : float_status_t) : Int × float_status_t :=
  let (relation, status) := float64_compare_quiet a b status
  (boolToInt ((relation == float_relation_less) || (relation == float_relation_equal)), status)

/-- Predicate 0x13: float64_unordered_signalling. -/
def float64_unordered_signalling (float64_compare float64_compare_quiet : float64_base_compare)
    (a b : float64) (status : float_status_t) : Int × float_status_t :=
  let (relation, status) := float64_compare a b status
  (boolToInt ((relation == float_relation_unordered)), status)

/-- Predicate 0x14: float64_neq_unordered_signalling. -/
def float64_neq_unordered_signalling (float64_compare float64_compare_quiet : float64_base_compare)
    (a b : float64) (status : float_status_t) : Int × float_status_t :=
  let (relation, status) := float64_compare a b status
  (boolToInt ((relation != float_relation_equal)), status)

/-- Predicate 0x15: float64_nlt_unordered_quiet. -/
def float64_nlt_unordered_quiet (float64_compare float64_compare_quiet : float64_base_compare)
    (a b : float64) (status : float_status_t) : Int × float_status_t :=
  let (relation, status) := float64_compare_quiet a b status
  (boolToInt ((relation != float_relation_less)), status)

/-- Predicate 0x16: float64_nle_unordered_quiet. -/
def float64_nle_unordered_quiet (float64_compare float64_compare_quiet : float64_base_compare)
    (a b : float64) (status : float_status_t) : Int × float_status_t :=
  let (relation, status) := float64_compare_quiet a b status
  (boolToInt ((relation != float_relation_less) && (relation != float_relation_equal)), status)

/-- Predicate 0x17: float64_ordered_signalling. -/
def float64_ordered_signalling (float64_compare float64_compare_quiet : float64_base_compare)
    (a b : float64) (status : float_status_t) : Int × float_status_t :=
  let (relation, status) := float64_compare a b status
  (boolToInt ((relation != float_relation_unordered)), status)

/-- Predicate 0x18: float64_eq_unordered_signalling. -/
def float64_eq_unordered_signalling (float64_compare float64_compare_quiet : float64_base_compare)
    (a b : float64) (status : float_status_t) : Int × float_status_t :=
  let (relation, status) := float64_compare a b status
  (boolToInt ((relation == float_relation_equal) || (relation == float_relation_unordered)), status)

/-- Predicate 0x19: float64_nge_unordered_quiet. -/
def float64_nge_unordered_quiet (float64_compare float64_compare_quiet : float64_base_compare)
    (a b : float64) (status : float_status_t) : Int × float_status_t :=
  let (relation, status) := float64_compare_quiet a b status
  (boolToInt ((relation == float_relation_less) || (relation == float_relation_unordered)), status)

/-- Predicate 0x1a: float64_ngt_unordered_quiet. -/
def float64_ngt_unordered_quiet (float64_compare float64_compare_quiet : float64_base_compare)
    (a b : float64) (status : float_status_t) : Int × float_status_t :=
  let (relation, status) := float64_compare_quiet a b status
  (boolToInt ((relation != float_relation_greater)), status)

/-- Predicate 0x1b: float64_false_signalling. -/
def float64_false_signalling (float64_compare float64_compare_quiet : float64_base_compare)
    (a b : float64) (status : float_status_t) : Int × float_status_t :=
  let (_, status) := float64_compare a b status
  (0, status)

/-- Predicate 0x1c: float64_neq_ordered_signalling. -/
def float64_neq_ordered_signalling (float64_compare float64_compare_quiet : float64_base_compare)
    (a b : float64) (status : float_status_t) : Int × float_status_t :=
  let (relation, status) := float64_compare a b status
  (boolToInt ((relation != float_relation_equal) && (relation != float_relation_unordered)), status)

/-- Predicate 0x1d: float64_ge_ordered_quiet. -/
def float64_ge_ordered_quiet (float64_compare float64_compare_quiet : float64_base_compare)
    (a b : float64) (status : float_status_t) : Int × float_status_t :=
  let (relation, status) := float64_compare_quiet a b status
  (boolToInt ((relation == float_relation_greater) || (relation == float_relation_equal)), status)

/-- Predicate 0x1e: float64_gt_ordered_quiet. -/
def float64_gt_ordered_quiet (float64_compare float64_compare_quiet : float64_base_compare)
    (a b : float64) (status : float_status_t) : Int × float_status_t :=
  let (relation, status) := float64_compare_quiet a b status
  (boolToInt ((relation == float_relation_greater)), status)

/-- Predicate 0x1f: float64_true_signalling. -/
def float64_true_signalling (float64_compare float64_compare_quiet : float64_base_compare)
    (a b : float64) (status : float_status_t) : Int × float_status_t :=
  let (_, status) := float64_compare a b status
  (1, status)

end compare_predicates

/-! ## softfloat-compare.h, the predicates by code -/

/-- The float32 predicate that the header numbers `code` (the comment `// 0x..`
above each definition), for the codes 0x00..0x1f. -/
def float32_predicate (code : Fin 32) :
    float32_base_compare → float32_base_compare → float32 → float32 → float_status_t →
      Int × float_status_t :=
  match code with
  | ⟨0x00, _⟩ => float32_eq_ordered_quiet
  | ⟨0x01, _⟩ => float32_lt_ordered_signalling
  | ⟨0x02, _⟩ => float32_le_ordered_signalling
  | ⟨0x03, _⟩ => float32_unordered_quiet
  | ⟨0x04, _⟩ => float32_neq_unordered_quiet
  | ⟨0x05, _⟩ => float32_nlt_unordered_signalling
  | ⟨0x06, _⟩ => float32_nle_unordered_signalling
  | ⟨0x07, _⟩ => float32_ordered_quiet
  | ⟨0x08, _⟩ => float32_eq_unordered_quiet
  | ⟨0x09, _⟩ => float32_nge_unordered_signalling
  | ⟨0x0a, _⟩ => float32_ngt_unordered_signalling
  | ⟨0x0b, _⟩ => float32_false_quiet
  | ⟨0x0c, _⟩ => float32_neq_ordered_quiet
  | ⟨0x0d, _⟩ => float32_ge_ordered_signalling
  | ⟨0x0e, _⟩ => float32_gt_ordered_signalling
  | ⟨0x0f, _⟩ => float32_true_quiet
  | ⟨0x10, _⟩ => float32_eq_ordered_signalling
  | ⟨0x11, _⟩ => float32_lt_ordered_quiet
  | ⟨0x12, _⟩ => float32_le_ordered_quiet
  | ⟨0x13, _⟩ => float32_unordered_signalling
  | ⟨0x14, _⟩ => float32_neq_unordered_signalling
  | ⟨0x15, _⟩ => float32_nlt_unordered_quiet
  | ⟨0x16, _⟩ => float32_nle_unordered_quiet
  | ⟨0x17, _⟩ => float32_ordered_signalling
  | ⟨0x18, _⟩ => float32_eq_unordered_signalling
  | ⟨0x19, _⟩ => float32_nge_unordered_quiet
  | ⟨0x1a, _⟩ => float32_ngt_unordered_quiet
  | ⟨0x1b, _⟩ => float32_false_signalling
  | ⟨0x1c, _⟩ => float32_neq_ordered_signalling
  | ⟨0x1d, _⟩ => float32_ge_ordered_quiet
  | ⟨0x1e, _⟩ => float32_gt_ordered_quiet
  | ⟨0x1f, _⟩ => float32_true_signalling
  | ⟨_ + 32, h⟩ => absurd h (by omega)

/-- The float64 predicate that the header numbers `code` (the comment `// 0x..`
above each definition), for the codes 0x00..0x1f. -/
def float64_predicate (code : Fin 32) :
    float64_base_compare → float64_base_compare → float64 → float64 → float_status_t →
      Int × float_status_t :=
  match code with
  | ⟨0x00, _⟩ => float64_eq_ordered_quiet
  | ⟨0x01, _⟩ => float64_lt_ordered_signalling
  | ⟨0x02, _⟩ => float64_le_ordered_signalling
  | ⟨0x03, _⟩ => float64_unordered_quiet
  | ⟨0x04, _⟩ => float64_neq_unordered_quiet
  | ⟨0x05, _⟩ => float64_nlt_unordered_signalling
  | ⟨0x06, _⟩ => float64_nle_unordered_signalling
  | ⟨0x07, _⟩ => float64_ordered_quiet
  | ⟨0x08, _⟩ => float64_eq_unordered_quiet
  | ⟨0x09, _⟩ => float64_nge_unordered_signalling
  | ⟨0x0a, _⟩ => float64_ngt_unordered_signalling
  | ⟨0x0b, _⟩ => float64_false_quiet
  | ⟨0x0c, _⟩ => float64_neq_ordered_quiet
  | ⟨0x0d, _⟩ => float64_ge_ordered_signalling
  | ⟨0x0e, _⟩ => float64_gt_ordered_signalling
  | ⟨0x0f, _⟩ => float64_true_quiet
  | ⟨0x10, _⟩ => float64_eq_ordered_signalling
  | ⟨0x11, _⟩ => float64_lt_ordered_quiet
  | ⟨0x12, _⟩ => float64_le_ordered_quiet
  | ⟨0x13, _⟩ => float64_unordered_signalling
  | ⟨0x14, _⟩ => float64_neq_unordered_signalling
  | ⟨0x15, _⟩ => float64_nlt_unordered_quiet
  | ⟨0x16, _⟩ => float64_nle_unordered_quiet
  | ⟨0x17, _⟩ => float64_ordered_signalling
  | ⟨0x18, _⟩ => float64_eq_unordered_signalling
  | ⟨0x19, _⟩ => float64_nge_unordered_quiet
  | ⟨0x1a, _⟩ => float64_ngt_unordered_quiet
  | ⟨0x1b, _⟩ => float64_false_signalling
  | ⟨0x1c, _⟩ => float64_neq_ordered_signalling
  | ⟨0x1d, _⟩ => float64_ge_ordered_quiet
  | ⟨0x1e, _⟩ => float64_gt_ordered_quiet
  | ⟨0x1f, _⟩ => float64_true_signalling
  | ⟨_ + 32, h⟩ => absurd h (by omega)

/-! ## Extended double precision: data model -/

/-- Modelled from the spec: the class enumeration `float_class_t` (softfloat.h is
absent); its enumerators are the ones `floatx80_class` returns. -/
inductive float_class_t where
  | float_zero
  | float_SNaN
  | float_QNaN
  | float_negative_inf
  | float_positive_inf
  | float_denormal
  | float_normalized
deriving DecidableEq, Repr

open float_class_t

/-- Modelled from the spec: the 80-bit storage type `floatx80` (softfloat.h is
absent): a 64-bit significand `fraction` and a 16-bit `exp` holding the sign in
bit 15 and the exponent field in bits 14..0. -/
structure floatx80 where
  fraction : Nat
  exp : Nat
deriving DecidableEq, Repr

/-- An 80-bit encoding: the two fields fit their C types. -/
def floatx80.wf (a : floatx80) : Prop := a.fraction < 2 ^ 64 ∧ a.exp < 2 ^ 16

instance (a : floatx80) : Decidable a.wf := by
  unfold floatx80.wf; infer_instance

/-- Modelled from the spec: `extractFloatx80Frac` (softfloat.h is absent), the
significand of `a`. -/
def extractFloatx80Frac (a : floatx80) : Nat := a.fraction

/-- Modelled from the spec: `extractFloatx80Exp` (softfloat.h is absent), the
exponent field of `a` as an `int32_t`. -/
def extractFloatx80Exp (a : floatx80) : Int := ((a.exp &&& 0x7FFF : Nat) : Int)

/-- Modelled from the spec: `extractFloatx80Sign` (softfloat.h is absent), the
sign bit of `a`. -/
def extractFloatx80Sign (a : floatx80) : Nat := a.exp >>> 15

/-- Modelled from the spec: `packFloatx80` (softfloat.h is absent) packs sign,
exponent field and significand into an encoding. -/
def packFloatx80 (zSign : Nat) (zExp : Nat) (zSig : Nat) : floatx80 :=
  { fraction := zSig, exp := ((zSign <<< 15) + zExp) % 2 ^ 16 }

/-- Modelled from the spec: `floatx80_is_unsupported` (softfloat.h is absent): a
non-zero exponent field with bit 63 of the significand clear. -/
def floatx80_is_unsupported (a : floatx80) : Bool :=
  (a.exp &&& 0x7FFF) != 0 && (a.fraction &&& 0x8000000000000000) == 0

/-- Number of leading zero bits of `a` among its low `w` bits (`w` when none of
them is set): bit `w - 1` is looked at first, then the bits below it. -/
def countLeadingZerosBelow : Nat → Nat → Nat
  | 0, _ => 0
  | w + 1, a => if a < 2 ^ w then 1 + countLeadingZerosBelow w a else 0

/-- Modelled from the spec: `countLeadingZeros64` (softfloat-macros.h is absent),
the number of leading zero bits of a 64-bit value, 64 for zero. -/
def countLeadingZeros64 (a : Nat) : Nat := countLeadingZerosBelow 64 a

/-- Modelled from the spec: `normalizeFloatx80Subnormal` (softfloat-macros.h is
absent) shifts a non-zero significand left until bit 63 is set and returns the
exponent `1 - shiftCount` with the shifted significand. -/
def normalizeFloatx80Subnormal (aSig : Nat) : Int × Nat :=
  let shiftCount := countLeadingZeros64 aSig
  (1 - (shiftCount : Int), (aSig <<< shiftCount) % 2 ^ 64)

/-- Modelled from the spec: the default NaN `floatx80_default_nan`
(softfloat-specialize.h is absent), the negative quiet NaN with fraction
0xC000000000000000. -/
def floatx80_default_nan : floatx80 :=
  { fraction := 0xC000000000000000, exp := 0xFFFF }

/-- Modelled from the spec: the 16-bit integer indefinite `int16_indefinite`
(softfloat.h is absent), bit pattern 0x8000, as an `int16_t` value. -/
def int16_indefinite : Int := -32768

/-- Modelled from the spec: the 32-bit integer indefinite `int32_indefinite`
(softfloat.h is absent), bit pattern 0x80000000, as an `int32_t` value. -/
def int32_indefinite : Int := -2147483648

/-! ## softfloatx80.cc -/

section to_int16

/- The 32-bit conversions live in softfloat.cc, absent from the sources: parameters. -/
variable (floatx80_to_int32 floatx80_to_int32_round_to_zero :
  floatx80 → float_status_t → Int × float_status_t)

/-- Conversion of `a` to a 16-bit integer, rounded by the current mode. -/
def floatx80_to_int16 (a : floatx80) (status : float_status_t) : Int × float_status_t :=
  if floatx80_is_unsupported a then
    let status := float_raise status float_flag_invalid
    (int16_indefinite, status)
  else
    let (v32, status) := floatx80_to_int32 a status
    if (v32 > 32767) || (v32 < -32768) then
      let status := { status with float_exception_flags := float_flag_invalid }
      (int16_indefinite, status)
    else
      (v32, status)

/-- Conversion of `a` to a 16-bit integer, rounded toward zero. -/
def floatx80_to_int16_round_to_zero (a : floatx80) (status : float_status_t) :
    Int × float_status_t :=
  if floatx80_is_unsupported a then
    let status := float_raise status float_flag_invalid
    (int16_indefinite, status)
  else
    let (v32, status) := floatx80_to_int32_round_to_zero a status
    if (v32 > 32767) || (v32 < -32768) then
      let status := { status with float_exception_flags := float_flag_invalid }
      (int16_indefinite, status)
    else
      (v32, status)

end to_int16

section extract

/- `propagateFloatx80NaN` (softfloat-specialize.h) and `int32_to_floatx80`
(softfloat.cc) are absent from the sources: parameters. -/
variable (propagateFloatx80NaN : floatx80 → float_status_t → floatx80 × float_status_t)
variable (int32_to_floatx80 : Int → floatx80)

/-- Separation of `a` into exponent and significand.  Returns the result
(the exponent), the operand stored back through the reference `a`, and the
status.  The source returns early for a zero and falls through after
normalising a denormal; here the zero is tested first and the denormal branch
updates `(aExp, aSig, status)` before the common tail. -/
def floatx80_extract (a : floatx80) (status : float_status_t) :
    floatx80 × floatx80 × float_status_t :=
  let aSig := extractFloatx80Frac a
  let aExp := extractFloatx80Exp a
  let aSign := extractFloatx80Sign a
  if floatx80_is_unsupported a then
    let status := float_raise status float_flag_invalid
    let a := floatx80_default_nan
    (a, a, status)
  else if aExp == 0x7FFF then
    if (aSig <<< 1) % 2 ^ 64 != 0 then
      let (a, status) := propagateFloatx80NaN a status
      (a, a, status)
    else
      (packFloatx80 0 0x7FFF 0x8000000000000000, a, status)
  else if aExp == 0 && aSig == 0 then
    let status := float_raise status float_flag_divbyzero
    let a := packFloatx80 aSign 0 0
    (packFloatx80 1 0x7FFF 0x8000000000000000, a, status)
  else
    let (aExp, aSig, status) :=
      if aExp == 0 then
        let status := float_raise status float_flag_denormal
        let (aExp, aSig) := normalizeFloatx80Subnormal aSig
        (aExp, aSig, status)
      else (aExp, aSig, status)
    let a := { a with exp := ((aSign <<< 15) + 0x3FFF) % 2 ^ 16 }
    let a := { a with fraction := aSig }
    (int32_to_floatx80 (aExp - 0x3FFF), a, status)

end extract

/-- The C conversion `(int32_t) x` of an unsigned 64-bit value. -/
def toInt32 (x : Nat) : Int :=
  if x % 2 ^ 32 < 2 ^ 31 then ((x % 2 ^ 32 : Nat) : Int) else ((x % 2 ^ 32 : Nat) : Int) - 2 ^ 32

section scale

/- The two-operand `propagateFloatx80NaN` (softfloat-specialize.h) and the
rounding routines `normalizeRoundAndPackFloatx80`, `roundAndPackFloatx80`
(softfloat-round-pack.cc) are absent from the sources: parameters.  The
rounding routines take the rounding precision, sign, exponent, the two
significand words and the status. -/
variable (propagateFloatx80NaN2 :
  floatx80 → floatx80 → float_status_t → floatx80 × float_status_t)
variable (normalizeRoundAndPackFloatx80 roundAndPackFloatx80 :
  Nat → Nat → Int → Nat → Nat → float_status_t → floatx80 × float_status_t)

/-- The part of `floatx80_scale` from the test `if (bExp == 0)` to the end, with
the exponent and significand of `a` as the preceding block left them. -/
def floatx80_scale_tail (a b : floatx80) (aExp : Int) (aSig : Nat)
    (status : float_status_t) : floatx80 × float_status_t :=
  let aSign := extractFloatx80Sign a
  let bSig := extractFloatx80Frac b
  let bExp := extractFloatx80Exp b
  let bSign := extractFloatx80Sign b
  if bExp == 0 && bSig == 0 then (a, status)
  else
    let (bExp, bSig, status) :=
      if bExp == 0 then
        let status := float_raise status float_flag_denormal
        let (bExp, bSig) := normalizeFloatx80Subnormal bSig
        (bExp, bSig, status)
      else (bExp, bSig, status)
    if bExp > 0x400E then
      /- generate appropriate overflow/underflow -/
      roundAndPackFloatx80 80 aSign (if bSign != 0 then -0x3FFF else 0x7FFF) aSig 0 status
    else if bExp < 0x3FFF then (a, status)
    else
      let shiftCount := 0x403E - bExp
      let bSig := bSig >>> shiftCount.toNat
      let scale := toInt32 bSig
      let scale := if bSign != 0 then -scale else scale
      roundAndPackFloatx80 80 aSign (aExp + scale) aSig 0 status

/-- Scaling of `a` by two to the power of `b` truncated to an integer.  The
source returns early inside the blocks for a zero-exponent `a` and `b`; here
each early return is a branch and the code after the block for `a` is
`floatx80_scale_tail`. -/
def floatx80_scale (a b : floatx80) (status : float_status_t) : floatx80 × float_status_t :=
  /- handle unsupported extended double-precision floating encodings -/
  if floatx80_is_unsupported a || floatx80_is_unsupported b then
    let status := float_raise status float_flag_invalid
    (floatx80_default_nan, status)
  else
    let aSig := extractFloatx80Frac a
    let aExp := extractFloatx80Exp a
    let aSign := extractFloatx80Sign a
    let bSig := extractFloatx80Frac b
    let bExp := extractFloatx80Exp b
    let bSign := extractFloatx80Sign b
    if aExp == 0x7FFF then
      if (aSig <<< 1) % 2 ^ 64 != 0 || (bExp == 0x7FFF && (bSig <<< 1) % 2 ^ 64 != 0) then
        propagateFloatx80NaN2 a b status
      else if bExp == 0x7FFF && bSign != 0 then
        let status := float_raise status float_flag_invalid
        (floatx80_default_nan, status)
      else
        let status :=
          if bSig != 0 && bExp == 0 then float_raise status float_flag_denormal else status
        (a, status)
    else if bExp == 0x7FFF then
      if (bSig <<< 1) % 2 ^ 64 != 0 then propagateFloatx80NaN2 a b status
      else if (aExp.toNat ||| aSig) == 0 then
        if bSign == 0 then
          let status := float_raise status float_flag_invalid
          (floatx80_default_nan, status)
        else (a, status)
      else
        let status :=
          if aSig != 0 && aExp == 0 then float_raise status float_flag_denormal else status
        if bSign != 0 then (packFloatx80 aSign 0 0, status)
        else (packFloatx80 aSign 0x7FFF 0x8000000000000000, status)
    else if aExp == 0 then
      let status :=
        if bSig != 0 && bExp == 0 then float_raise status float_flag_denormal else status
      if aSig == 0 then (a, status)
      else
        let status := float_raise status float_flag_denormal
        let (aExp, aSig) := normalizeFloatx80Subnormal aSig
        if bExp < 0x3FFF then
          normalizeRoundAndPackFloatx80 80 aSign aExp aSig 0 status
        else
          floatx80_scale_tail roundAndPackFloatx80 a b aExp aSig status
    else
      floatx80_scale_tail roundAndPackFloatx80 a b aExp aSig status

end scale

/-- Class of an extended-precision encoding. -/
def floatx80_class (a : floatx80) : float_class_t :=
  let aExp := extractFloatx80Exp a
  let aSig := extractFloatx80Frac a
  if aExp == 0 then
    if aSig == 0 then float_zero
    else float_denormal
  else if (aSig &&& 0x8000000000000000) == 0 then float_SNaN
  else if aExp == 0x7fff then
    let aSign := extractFloatx80Sign a
    if (aSig <<< 1) % 2 ^ 64 == 0 then
      if aSign != 0 then float_negative_inf else float_positive_inf
    else if (aSig &&& 0x4000000000000000) != 0 then float_QNaN else float_SNaN
  else float_normalized

/-- Three-way comparison of two extended-precision encodings. -/
def floatx80_compare (a b : floatx80) (quiet : Int) (status : float_status_t) :
    float_relation × float_status_t :=
  let aClass := floatx80_class a
  let bClass := floatx80_class b
  if aClass == float_SNaN || bClass == float_SNaN then
    let status := float_raise status float_flag_invalid
    (float_relation_unordered, status)
  else if aClass == float_QNaN || bClass == float_QNaN then
    let status := if quiet == 0 then float_raise status float_flag_invalid else status
    (float_relation_unordered, status)
  else
    let status :=
      if aClass == float_denormal || bClass == float_denormal then
        float_raise status float_flag_denormal
      else status
    let aSign := extractFloatx80Sign a
    let bSign := extractFloatx80Sign b
    if aClass == float_zero then
      if bClass == float_zero then (float_relation_equal, status)
      else (if bSign != 0 then float_relation_greater else float_relation_less, status)
    else if bClass == float_zero || aSign != bSign then
      (if aSign != 0 then float_relation_less else float_relation_greater, status)
    else
      let aSig := extractFloatx80Frac a
      let aExp := extractFloatx80Exp a
      let bSig := extractFloatx80Frac b
      let bExp := extractFloatx80Exp b
      let (aExp, aSig) :=
        if aClass == float_denormal then normalizeFloatx80Subnormal aSig else (aExp, aSig)
      let (bExp, bSig) :=
        if bClass == float_denormal then normalizeFloatx80Subnormal bSig else (bExp, bSig)
      if aExp == bExp && aSig == bSig then (float_relation_equal, status)
      else
        let less_than :=
          if aSign != 0 then (decide (bExp < aExp) || (bExp == aExp && decide (bSig < aSig)))
          else (decide (aExp < bExp) || (aExp == bExp && decide (aSig < bSig)))
        if less_than then (float_relation_less, status)
        else (float_relation_greater, status)

/-! ## Specification-side vocabulary -/

/-- Modelled from the spec: the one-operand `propagateFloatx80NaN`
(softfloat-specialize.h is absent): it raises invalid when the NaN operand is a
signalling one and returns the operand with its quiet bits set. -/
def propagateFloatx80NaN_model (a : floatx80) (status : float_status_t) :
    floatx80 × float_status_t :=
  let status :=
    if floatx80_class a == float_SNaN then float_raise status float_flag_invalid else status
  ({ a with fraction := a.fraction ||| 0xC000000000000000 }, status)

/-- Modelled from the spec: `int32_to_floatx80` (softfloat.cc is absent), the
exact conversion of a 32-bit integer to extended precision. -/
def int32_to_floatx80_model (a : Int) : floatx80 :=
  if a == 0 then packFloatx80 0 0 0
  else
    let zSign := if a < 0 then 1 else 0
    let absA := a.natAbs
    let shiftCount := countLeadingZeros64 absA
    packFloatx80 zSign (0x403E - shiftCount) (absA <<< shiftCount)

/-- Modelled from the spec: rounding step shared by the two 32-bit conversions
of softfloat.cc (absent).  `q` is the integer part and `r` the remainder of
the magnitude over `2 ^ shift`; the result is the rounded magnitude.  Modes:
0 nearest-even, 1 down, 2 up, 3 toward zero. -/
def roundMagnitude (mode : Nat) (negative : Bool) (q r shift : Nat) : Nat :=
  if r = 0 then q
  else if mode = 0 then
    if 2 * r > 2 ^ shift || (2 * r == 2 ^ shift && q % 2 == 1) then q + 1 else q
  else if mode = 1 then (if negative then q + 1 else q)
  else if mode = 2 then (if negative then q else q + 1)
  else q

/-- Modelled from the spec: conversion of an extended-precision value to a
32-bit integer under rounding mode `mode` (softfloat.cc is absent).  By the
documentation of the 16-bit conversions, a NaN or an overflowing conversion
raises invalid and gives the integer indefinite; otherwise the value is
rounded, and inexact is raised when the rounding changed it.  Magnitudes below
one half all round alike, so the shift is capped at 65 bits. -/
def floatx80_to_int32_mode (mode : Nat) (a : floatx80) (status : float_status_t) :
    Int × float_status_t :=
  if floatx80_is_unsupported a || (a.exp % 2 ^ 15 == 0x7FFF) then
    (int32_indefinite, float_raise status float_flag_invalid)
  else
    let e := max (a.exp % 2 ^ 15) 1
    let negative := a.exp >>> 15 != 0
    let shift := min (16446 - e) 65
    let q := a.fraction / 2 ^ shift
    let r := a.fraction % 2 ^ shift
    let m := roundMagnitude mode negative q r shift
    let z : Int := if negative then -(m : Int) else (m : Int)
    if z > 2147483647 || z < -2147483648 then
      (int32_indefinite, float_raise status float_flag_invalid)
    else if r != 0 then (z, float_raise status float_flag_inexact)
    else (z, status)

/-- Modelled from the spec: `floatx80_to_int32` (softfloat.cc is absent), the
conversion rounded by the current rounding mode. -/
def floatx80_to_int32_model (a : floatx80) (status : float_status_t) :
    Int × float_status_t :=
  floatx80_to_int32_mode status.float_rounding_mode a status

/-- Modelled from the spec: `floatx80_to_int32_round_to_zero` (softfloat.cc is
absent), the conversion rounded toward zero. -/
def floatx80_to_int32_round_to_zero_model (a : floatx80) (status : float_status_t) :
    Int × float_status_t :=
  floatx80_to_int32_mode 3 a status

/-- Exponent field of an encoding: bits 14..0 of `exp`. -/
def floatx80.expField (a : floatx80) : Nat := a.exp % 2 ^ 15

/-- Sign bit of an encoding: bit 15 of `exp`. -/
def floatx80.signBit (a : floatx80) : Bool := a.exp.testBit 15

/-- Bit `i` of the significand. -/
def floatx80.sigBit (a : floatx80) (i : Nat) : Bool := a.fraction.testBit i

/-- The class is one of the two NaN classes. -/
def float_class_t.isNaN (c : float_class_t) : Bool :=
  c == float_QNaN || c == float_SNaN

/-- The class is one of the two infinities. -/
def float_class_t.isInf (c : float_class_t) : Bool :=
  c == float_negative_inf || c == float_positive_inf

/-- The extended-real value an encoding denotes: 0 for a zero, the infinities
for the two infinity classes, and otherwise
`(-1)^sign * significand * 2^(max(exponent field, 1) - 16383 - 63)`. -/
def floatx80.val (a : floatx80) : WithBot (WithTop ℚ) :=
  match floatx80_class a with
  | float_zero => (((0 : ℚ) : WithTop ℚ) : WithBot (WithTop ℚ))
  | float_negative_inf => ⊥
  | float_positive_inf => ((⊤ : WithTop ℚ) : WithBot (WithTop ℚ))
  | _ =>
    ((((if a.signBit then -1 else 1) * (a.fraction : ℚ) *
      2 ^ (((max a.expField 1 : Nat) : Int) - 16383 - 63) : ℚ) : WithTop ℚ) :
      WithBot (WithTop ℚ))

/-- Exponent and significand that `floatx80_compare` orders a non-zero operand
by: the fields themselves, or their normalisation when the exponent field is 0. -/
def floatx80.key (a : floatx80) : Int × Nat :=
  if a.exp % 2 ^ 15 = 0 then normalizeFloatx80Subnormal a.fraction
  else (((a.exp % 2 ^ 15 : Nat) : Int), a.fraction)

/-- Lexicographic order on (exponent, significand) pairs. -/
def keyLt (k l : Int × Nat) : Prop := k.1 < l.1 ∨ (k.1 = l.1 ∧ k.2 < l.2)

instance (k l : Int × Nat) : Decidable (keyLt k l) := by
  unfold keyLt; infer_instance

/-- Magnitude denoted by an (exponent, significand) pair: infinite for the
exponent 0x7FFF, else `significand * 2^(exponent - 16383 - 63)`. -/
def keyMagnitude (k : Int × Nat) : WithTop ℚ :=
  if k.1 = 0x7FFF then ⊤ else (((k.2 : ℚ) * 2 ^ (k.1 - 16383 - 63) : ℚ) : WithTop ℚ)

/-- A magnitude with a sign, as an extended rational. -/
def signedValue (negative : Bool) (m : WithTop ℚ) : WithBot (WithTop ℚ) :=
  match m with
  | none => if negative then ⊥ else ((⊤ : WithTop ℚ) : WithBot (WithTop ℚ))
  | some q => (((if negative then -q else q : ℚ) : WithTop ℚ) : WithBot (WithTop ℚ))

/-- Shape of the pair of a non-zero operand that is not a NaN: bit 63 of the
significand is set, and the exponent 0x7FFF comes with the significand 2^63. -/
def keyRange (k : Int × Nat) : Prop :=
  2 ^ 63 ≤ k.2 ∧ k.2 < 2 ^ 64 ∧ k.1 ≤ 0x7FFF ∧ (k.1 = 0x7FFF → k.2 = 2 ^ 63)

/-- The value 1 when relation `r` lies in the documented set `l`, else 0. -/
def relationIn (r : float_relation) (l : List float_relation) : Int :=
  if r ∈ l then 1 else 0

end SoftFloat

/-! ## cpu_x86/recompiler_thunks.cpp -/

namespace CPU_X86

/-- Modelled from the spec: the access kinds of `AccessType` (cpu.h is absent). -/
inductive AccessType where
  | Read
  | Write
  | Execute
deriving DecidableEq, Repr

/-- Segment register number (`Segment`, declared in an absent header). -/
abbrev Segment := Nat
/-- Segment-relative address (`VirtualMemoryAddress`, a `u32`). -/
abbrev VirtualMemoryAddress := Nat
/-- Address after segmentation (`LinearMemoryAddress`, a `u32`). -/
abbrev LinearMemoryAddress := Nat

/-- Modelled from the spec: how a CPU method called from a thunk ends.  It
either returns a value, or raises a processor exception; by the spec a fault in
a thunk call unwinds to the host `Step()` call, so nothing after the faulting
call runs.  Both carry the CPU state the call left. -/
inductive Outcome (S F α : Type) where
  | returned (value : α) (cpu : S)
  | unwound (fault : F) (cpu : S)

/-- Sequencing of C++ statements: the second runs only if the first returned. -/
def Outcome.andThen {S F α β : Type} (x : Outcome S F α) (f : α → S → Outcome S F β) :
    Outcome S F β :=
  match x with
  | Outcome.returned v s => f v s
  | Outcome.unwound e s => Outcome.unwound e s

/-- The methods of `CPU` that the memory thunks call.  cpu.h and cpu.cpp are
absent from the sources, so they are parameters.  `CheckSegmentAccess` takes the
template arguments (access size in bytes, access type) first. -/
structure CPU (S F : Type) where
  CalculateLinearAddress : S → Segment → VirtualMemoryAddress → LinearMemoryAddress
  CheckSegmentAccess :
    Nat → AccessType → Segment → VirtualMemoryAddress → Bool → S → Outcome S F Bool
  ReadMemoryByte : LinearMemoryAddress → S → Outcome S F Nat
  ReadMemoryWord : LinearMemoryAddress → S → Outcome S F Nat
  ReadMemoryDWord : LinearMemoryAddress → S → Outcome S F Nat
  WriteMemoryByte : LinearMemoryAddress → Nat → S → Outcome S F Unit
  WriteMemoryWord : LinearMemoryAddress → Nat → S → Outcome S F Unit
  WriteMemoryDWord : LinearMemoryAddress → Nat → S → Outcome S F Unit

namespace Thunks

variable {S F : Type}

/-- Thunk `ReadSegmentMemoryByte`; `sizeof(u8)` is 1. -/
def ReadSegmentMemoryByte (cpu : CPU S F) (segment : Segment)
    (address : VirtualMemoryAddress) (s : S) : Outcome S F Nat :=
  let linear_address := cpu.CalculateLinearAddress s segment address
  (cpu.CheckSegmentAccess 1 AccessType.Read segment address true s).andThen fun _ s =>
  cpu.ReadMemoryByte linear_address s

/-- Thunk `ReadSegmentMemoryWord`; `sizeof(u16)` is 2. -/
def ReadSegmentMemoryWord (cpu : CPU S F) (segment : Segment)
    (address : VirtualMemoryAddress) (s : S) : Outcome S F Nat :=
  let linear_address := cpu.CalculateLinearAddress s segment address
  (cpu.CheckSegmentAccess 2 AccessType.Read segment address true s).andThen fun _ s =>
  cpu.ReadMemoryWord linear_address s

/-- Thunk `ReadSegmentMemoryDWord`; `sizeof(u32)` is 4. -/
def ReadSegmentMemoryDWord (cpu : CPU S F) (segment : Segment)
    (address : VirtualMemoryAddress) (s : S) : Outcome S F Nat :=
  let linear_address := cpu.CalculateLinearAddress s segment address
  (cpu.CheckSegmentAccess 4 AccessType.Read segment address true s).andThen fun _ s =>
  cpu.ReadMemoryDWord linear_address s

/-- Thunk `WriteSegmentMemoryByte`. -/
def WriteSegmentMemoryByte (cpu : CPU S F) (segment : Segment)
    (address : VirtualMemoryAddress) (value : Nat) (s : S) : Outcome S F Unit :=
  let linear_address := cpu.CalculateLinearAddress s segment address
  (cpu.CheckSegmentAccess 1 AccessType.Write segment address true s).andThen fun _ s =>
  cpu.WriteMemoryByte linear_address value s

/-- Thunk `WriteSegmentMemoryWord`. -/
def WriteSegmentMemoryWord (cpu : CPU S F) (segment : Segment)
    (address : VirtualMemoryAddress) (value : Nat) (s : S) : Outcome S F Unit :=
  let linear_address := cpu.CalculateLinearAddress s segment address
  (cpu.CheckSegmentAccess 2 AccessType.Write segment address true s).andThen fun _ s =>
  cpu.WriteMemoryWord linear_address value s

/-- Thunk `WriteSegmentMemoryDWord`. -/
def WriteSegmentMemoryDWord (cpu : CPU S F) (segment : Segment)
    (address : VirtualMemoryAddress) (value : Nat) (s : S) : Outcome S F Unit :=
  let linear_address := cpu.CalculateLinearAddress s segment address
  (cpu.CheckSegmentAccess 4 AccessType.Write segment address true s).andThen fun _ s =>
  cpu.WriteMemoryDWord linear_address value s

end Thunks

/-- State of a small machine used to run the thunks on concrete inputs: a byte
memory and the record of the memory operations performed. -/
structure SampleMachine where
  memory : List Nat
  accesses : List (AccessType × LinearMemoryAddress)
deriving DecidableEq, Repr

/-- CPU methods over `SampleMachine`: flat addressing, a segment check that
faults (fault 13) when the access ends beyond `limit`, and memory operations
that log themselves; reads beyond the memory fault with 14. -/
def sampleCPU (limit : Nat) : CPU SampleMachine Nat where
  CalculateLinearAddress := fun _ _ address => address
  CheckSegmentAccess := fun size _ _ address _ s =>
    if address + size ≤ limit + 1 then Outcome.returned true s else Outcome.unwound 13 s
  ReadMemoryByte := fun la s =>
    if la < s.memory.length then
      Outcome.returned (s.memory.getD la 0)
        { s with accesses := s.accesses ++ [(AccessType.Read, la)] }
    else Outcome.unwound 14 s
  ReadMemoryWord := fun la s =>
    if la + 1 < s.memory.length then
      Outcome.returned (s.memory.getD la 0 + 256 * s.memory.getD (la + 1) 0)
        { s with accesses := s.accesses ++ [(AccessType.Read, la)] }
    else Outcome.unwound 14 s
  ReadMemoryDWord := fun la s =>
    if la + 3 < s.memory.length then
      Outcome.returned
        (s.memory.getD la 0 + 256 * s.memory.getD (la + 1) 0 +
          65536 * s.memory.getD (la + 2) 0 + 16777216 * s.memory.getD (la + 3) 0)
        { s with accesses := s.accesses ++ [(AccessType.Read, la)] }
    else Outcome.unwound 14 s
  WriteMemoryByte := fun la v s =>
    if la < s.memory.length then
      Outcome.returned ()
        { memory := s.memory.set la (v % 256),
          accesses := s.accesses ++ [(AccessType.Write, la)] }
    else Outcome.unwound 14 s
  WriteMemoryWord := fun la v s =>
    if la + 1 < s.memory.length then
      Outcome.returned ()
        { memory := (s.memory.set la (v % 256)).set (la + 1) (v / 256 % 256),
          accesses := s.accesses ++ [(AccessType.Write, la)] }
    else Outcome.unwound 14 s
  WriteMemoryDWord := fun la v s =>
    if la + 3 < s.memory.length then
      Outcome.returned ()
        { memory :=
            (((s.memory.set la (v % 256)).set (la + 1) (v / 256 % 256)).set (la + 2)
              (v / 65536 % 256)).set (la + 3) (v / 16777216 % 256),
          accesses := s.accesses ++ [(AccessType.Write, la)] }
    else Outcome.unwound 14 s

/-! ## cpu_x86/cycles.h -/

/-- The enumeration `CYCLE_GROUP` of cycles.h, enumerators in source order, so
that the index of an enumerator is its C value. -/
inductive CYCLE_GROUP where
  | CYCLES_MOV_RM_MEM_REG
  | CYCLES_MOV_RM_REG_REG
  | CYCLES_MOV_REG_RM_MEM
  | CYCLES_MOV_REG_RM_REG
  | CYCLES_MOV_REG_IMM
  | CYCLES_MOV_REG_MEM
  | CYCLES_MOV_SREG_RM_MEM
  | CYCLES_MOV_SREG_RM_MEM_PMODE
  | CYCLES_MOV_SREG_RM_REG
  | CYCLES_MOV_SREG_RM_REG_PMODE
  | CYCLES_MOV_RM_MEM_SREG
  | CYCLES_MOV_RM_REG_SREG
  | CYCLES_MOVSX_REG_RM_MEM
  | CYCLES_MOVSX_REG_RM_REG
  | CYCLES_MOVZX_REG_RM_REG
  | CYCLES_MOVZX_REG_RM_MEM
  | CYCLES_XCHG_REG_RM_MEM
  | CYCLES_XCHG_REG_RM_REG
  | CYCLES_IN_IMM
  | CYCLES_IN_IMM_PMODE
  | CYCLES_IN_EDX
  | CYCLES_IN_EDX_PMODE
  | CYCLES_OUT_IMM
  | CYCLES_OUT_IMM_PMODE
  | CYCLES_OUT_EDX
  | CYCLES_OUT_EDX_PMODE
  | CYCLES_LEA
  | CYCLES_LxS
  | CYCLES_LxS_PMODE
  | CYCLES_CLEAR_SET_FLAG
  | CYCLES_CLI
  | CYCLES_CLTS
  | CYCLES_LAHF
  | CYCLES_SAHF
  | CYCLES_PUSHF
  | CYCLES_POPF
  | CYCLES_PUSHA
  | CYCLES_POPA
  | CYCLES_PUSH_MEM
  | CYCLES_PUSH_REG
  | CYCLES_PUSH_SREG
  | CYCLES_PUSH_IMM
  | CYCLES_POP_MEM
  | CYCLES_POP_REG
  | CYCLES_POP_SREG
  | CYCLES_POP_SREG_PMODE
  | CYCLES_BCD_ADDSUB
  | CYCLES_AAD
  | CYCLES_AAM
  | CYCLES_CBW
  | CYCLES_CWD
  | CYCLES_XLAT
  | CYCLES_ALU_REG_IMM
  | CYCLES_ALU_REG_RM_MEM
  | CYCLES_ALU_REG_RM_REG
  | CYCLES_ALU_RM_MEM_REG
  | CYCLES_ALU_RM_REG_REG
  | CYCLES_CMP_REG_IMM
  | CYCLES_CMP_REG_RM_MEM
  | CYCLES_CMP_REG_RM_REG
  | CYCLES_CMP_RM_MEM_REG
  | CYCLES_CMP_RM_REG_REG
  | CYCLES_INC_RM_MEM
  | CYCLES_INC_RM_REG
  | CYCLES_NEG_RM_MEM
  | CYCLES_NEG_RM_REG
  | CYCLES_TEST_REG_RM_MEM
  | CYCLES_TEST_REG_RM_REG
  | CYCLES_TEST_RM_MEM_REG
  | CYCLES_TEST_RM_REG_REG
  | CYCLES_MUL_8_RM_MEM
  | CYCLES_MUL_8_RM_REG
  | CYCLES_MUL_16_RM_MEM
  | CYCLES_MUL_16_RM_REG
  | CYCLES_MUL_32_RM_MEM
  | CYCLES_MUL_32_RM_REG
  | CYCLES_IMUL_8_RM_MEM
  | CYCLES_IMUL_8_RM_REG
  | CYCLES_IMUL_16_RM_MEM
  | CYCLES_IMUL_16_RM_REG
  | CYCLES_IMUL_16_REG_RM_MEM
  | CYCLES_IMUL_16_REG_RM_REG
  | CYCLES_IMUL_32_RM_MEM
  | CYCLES_IMUL_32_RM_REG
  | CYCLES_IMUL_32_REG_RM_MEM
  | CYCLES_IMUL_32_REG_RM_REG
  | CYCLES_DIV_8_RM_MEM
  | CYCLES_DIV_8_RM_REG
  | CYCLES_DIV_16_RM_MEM
  | CYCLES_DIV_16_RM_REG
  | CYCLES_DIV_32_RM_MEM
  | CYCLES_DIV_32_RM_REG
  | CYCLES_IDIV_8_RM_MEM
  | CYCLES_IDIV_8_RM_REG
  | CYCLES_IDIV_16_RM_MEM
  | CYCLES_IDIV_16_RM_REG
  | CYCLES_IDIV_32_RM_MEM
  | CYCLES_IDIV_32_RM_REG
  | CYCLES_ROL_RM_MEM
  | CYCLES_ROL_RM_REG
  | CYCLES_RCL_RM_MEM
  | CYCLES_RCL_RM_REG
  | CYCLES_SHLD_RM_MEM
  | CYCLES_SHLD_RM_REG
  | CYCLES_CMPS
  | CYCLES_INS
  | CYCLES_INS_PMODE
  | CYCLES_LODS
  | CYCLES_MOVS
  | CYCLES_OUTS
  | CYCLES_OUTS_PMODE
  | CYCLES_SCAS
  | CYCLES_STOS
  | CYCLES_REP_CMPS_BASE
  | CYCLES_REP_INS_BASE
  | CYCLES_REP_INS_PMODE_BASE
  | CYCLES_REP_LODS_BASE
  | CYCLES_REP_MOVS_BASE
  | CYCLES_REP_OUTS_BASE
  | CYCLES_REP_OUTS_PMODE_BASE
  | CYCLES_REP_SCAS_BASE
  | CYCLES_REP_STOS_BASE
  | CYCLES_REP_CMPS_N
  | CYCLES_REP_INS_N
  | CYCLES_REP_INS_PMODE_N
  | CYCLES_REP_LODS_N
  | CYCLES_REP_MOVS_N
  | CYCLES_REP_OUTS_N
  | CYCLES_REP_OUTS_PMODE_N
  | CYCLES_REP_SCAS_N
  | CYCLES_REP_STOS_N
  | CYCLES_BOUND_FAIL
  | CYCLES_BOUND_SUCCESS
  | CYCLES_BSWAP
  | CYCLES_CMPXCHG
  | CYCLES_CMPXCHG8B
  | CYCLES_CMOV
  | CYCLES_XADD
  | CYCLES_INVD
  | CYCLES_INVLPG
  | CYCLES_CPUID
  | CYCLES_RDTSC
  | CYCLES_RSM
  | CYCLES_RDMSR
  | CYCLES_BSF_BASE
  | CYCLES_BSF_N
  | CYCLES_BT_RM_MEM_REG
  | CYCLES_BT_RM_REG_REG
  | CYCLES_BT_RM_MEM_IMM
  | CYCLES_BT_RM_REG_IMM
  | CYCLES_BTx_RM_MEM_REG
  | CYCLES_BTx_RM_REG_REG
  | CYCLES_BTx_RM_MEM_IMM
  | CYCLES_BTx_RM_REG_IMM
  | CYCLES_Jcc_NOT_TAKEN
  | CYCLES_Jcc_TAKEN
  | CYCLES_JCXZ_NOT_TAKEN
  | CYCLES_JCXZ_TAKEN
  | CYCLES_LOOP
  | CYCLES_LOOPZ
  | CYCLES_SETcc_RM_MEM
  | CYCLES_SETcc_RM_REG
  | CYCLES_ENTER
  | CYCLES_LEAVE
  | CYCLES_CALL_NEAR
  | CYCLES_CALL_NEAR_RM_MEM
  | CYCLES_CALL_NEAR_RM_REG
  | CYCLES_JMP_NEAR
  | CYCLES_JMP_NEAR_RM_MEM
  | CYCLES_JMP_NEAR_RM_REG
  | CYCLES_CALL_FAR
  | CYCLES_CALL_FAR_PMODE
  | CYCLES_CALL_FAR_PTR
  | CYCLES_CALL_FAR_PTR_PMODE
  | CYCLES_JMP_FAR
  | CYCLES_JMP_FAR_PMODE
  | CYCLES_JMP_FAR_PTR
  | CYCLES_JMP_FAR_PTR_PMODE
  | CYCLES_RET_NEAR
  | CYCLES_RET_FAR
  | CYCLES_RET_FAR_PMODE
  | CYCLES_INT
  | CYCLES_INT3
  | CYCLES_INTO_FALSE
  | CYCLES_INTO_TRUE
  | CYCLES_IRET
  | CYCLES_IRET_PMODE
  | CYCLES_HLT
  | CYCLES_NOP
  | CYCLES_WAIT
  | CYCLES_MOV_CR0_REG
  | CYCLES_MOV_CR2_REG
  | CYCLES_MOV_CR3_REG
  | CYCLES_MOV_REG_CR
  | CYCLES_MOV_DR0_3_REG
  | CYCLES_MOV_DR6_7_REG
  | CYCLES_MOV_REG_DR0_3
  | CYCLES_MOV_REG_DR6_7
  | CYCLES_ARPL_RM_MEM
  | CYCLES_ARPL_RM_REG
  | CYCLES_LAR_RM_MEM
  | CYCLES_LAR_RM_REG
  | CYCLES_LSL_RM_MEM
  | CYCLES_LSL_RM_REG
  | CYCLES_LTR_RM_MEM
  | CYCLES_LTR_RM_REG
  | CYCLES_LGDT
  | CYCLES_LLDT_RM_MEM
  | CYCLES_LLDT_RM_REG
  | CYCLES_LMSW_RM_MEM
  | CYCLES_LMSW_RM_REG
  | CYCLES_SMSW_RM_MEM
  | CYCLES_SMSW_RM_REG
  | CYCLES_SGDT
  | CYCLES_SLDT_RM_MEM
  | CYCLES_SLDT_RM_REG
  | CYCLES_STR_RM_MEM
  | CYCLES_STR_RM_REG
  | CYCLES_VERR_RM_MEM
  | CYCLES_VERR_RM_REG
  | CYCLES_VERW_RM_MEM
  | CYCLES_VERW_RM_REG
  | CYCLES_F2XM1
  | CYCLES_FABS
  | CYCLES_FADD
  | CYCLES_FBLD
  | CYCLES_FBSTP
  | CYCLES_FCHS
  | CYCLES_FCOM
  | CYCLES_FDECSTP
  | CYCLES_FDIV
  | CYCLES_FFREE
  | CYCLES_FIADD
  | CYCLES_FICOM
  | CYCLES_FIDIV
  | CYCLES_FILD
  | CYCLES_FIMUL
  | CYCLES_FINCSTP
  | CYCLES_FIST
  | CYCLES_FISUB
  | CYCLES_FLD
  | CYCLES_FLD_CONSTANT
  | CYCLES_FLD_LONG_CONSTANT
  | CYCLES_FLDCW
  | CYCLES_FLDENV
  | CYCLES_FMUL
  | CYCLES_FNCLEX
  | CYCLES_FNDISI
  | CYCLES_FNENI
  | CYCLES_FNINIT
  | CYCLES_FNSAVE
  | CYCLES_FNSTCW
  | CYCLES_FNSTENV
  | CYCLES_FNSTSW
  | CYCLES_FNOP
  | CYCLES_FPATAN
  | CYCLES_FPREM
  | CYCLES_FPTAN
  | CYCLES_FRNDINT
  | CYCLES_FRSTOR
  | CYCLES_FSCALE
  | CYCLES_FSQRT
  | CYCLES_FST
  | CYCLES_FSUB
  | CYCLES_FTST
  | CYCLES_FXAM
  | CYCLES_FXCH
  | CYCLES_FXTRACT
  | CYCLES_FYL2X
  | CYCLES_FYL2XP1
  | CYCLES_FSETPM
  | CYCLES_FCOS
  | CYCLES_FPREM1
  | CYCLES_FSIN
  | CYCLES_FSINCOS
  | CYCLES_FUCOM
  | NUM_CYCLE_GROUPS
deriving DecidableEq, Repr

open CYCLE_GROUP

/-- The C value of an enumerator: its position in the enumeration. -/
def CYCLE_GROUP.index (g : CYCLE_GROUP) : Nat := g.toCtorIdx

/-- Every pair (memory group, register group) of enumerators whose names differ
only in `RM_MEM` versus `RM_REG`, or in `_MEM` versus `_REG` for PUSH and POP. -/
def rmGroupPairs : List (CYCLE_GROUP × CYCLE_GROUP) :=
  [
    (CYCLES_MOV_RM_MEM_REG, CYCLES_MOV_RM_REG_REG),
    (CYCLES_MOV_REG_RM_MEM, CYCLES_MOV_REG_RM_REG),
    (CYCLES_MOV_SREG_RM_MEM, CYCLES_MOV_SREG_RM_REG),
    (CYCLES_MOV_SREG_RM_MEM_PMODE, CYCLES_MOV_SREG_RM_REG_PMODE),
    (CYCLES_MOV_RM_MEM_SREG, CYCLES_MOV_RM_REG_SREG),
    (CYCLES_MOVSX_REG_RM_MEM, CYCLES_MOVSX_REG_RM_REG),
    (CYCLES_MOVZX_REG_RM_MEM, CYCLES_MOVZX_REG_RM_REG),
    (CYCLES_XCHG_REG_RM_MEM, CYCLES_XCHG_REG_RM_REG),
    (CYCLES_PUSH_MEM, CYCLES_PUSH_REG),
    (CYCLES_POP_MEM, CYCLES_POP_REG),
    (CYCLES_ALU_REG_RM_MEM, CYCLES_ALU_REG_RM_REG),
    (CYCLES_ALU_RM_MEM_REG, CYCLES_ALU_RM_REG_REG),
    (CYCLES_CMP_REG_RM_MEM, CYCLES_CMP_REG_RM_REG),
    (CYCLES_CMP_RM_MEM_REG, CYCLES_CMP_RM_REG_REG),
    (CYCLES_INC_RM_MEM, CYCLES_INC_RM_REG),
    (CYCLES_NEG_RM_MEM, CYCLES_NEG_RM_REG),
    (CYCLES_TEST_REG_RM_MEM, CYCLES_TEST_REG_RM_REG),
    (CYCLES_TEST_RM_MEM_REG, CYCLES_TEST_RM_REG_REG),
    (CYCLES_MUL_8_RM_MEM, CYCLES_MUL_8_RM_REG),
    (CYCLES_MUL_16_RM_MEM, CYCLES_MUL_16_RM_REG),
    (CYCLES_MUL_32_RM_MEM, CYCLES_MUL_32_RM_REG),
    (CYCLES_IMUL_8_RM_MEM, CYCLES_IMUL_8_RM_REG),
    (CYCLES_IMUL_16_RM_MEM, CYCLES_IMUL_16_RM_REG),
    (CYCLES_IMUL_16_REG_RM_MEM, CYCLES_IMUL_16_REG_RM_REG),
    (CYCLES_IMUL_32_RM_MEM, CYCLES_IMUL_32_RM_REG),
    (CYCLES_IMUL_32_REG_RM_MEM, CYCLES_IMUL_32_REG_RM_REG),
    (CYCLES_DIV_8_RM_MEM, CYCLES_DIV_8_RM_REG),
    (CYCLES_DIV_16_RM_MEM, CYCLES_DIV_16_RM_REG),
    (CYCLES_DIV_32_RM_MEM, CYCLES_DIV_32_RM_REG),
    (CYCLES_IDIV_8_RM_MEM, CYCLES_IDIV_8_RM_REG),
    (CYCLES_IDIV_16_RM_MEM, CYCLES_IDIV_16_RM_REG),
    (CYCLES_IDIV_32_RM_MEM, CYCLES_IDIV_32_RM_REG),
    (CYCLES_ROL_RM_MEM, CYCLES_ROL_RM_REG),
    (CYCLES_RCL_RM_MEM, CYCLES_RCL_RM_REG),
    (CYCLES_SHLD_RM_MEM, CYCLES_SHLD_RM_REG),
    (CYCLES_BT_RM_MEM_REG, CYCLES_BT_RM_REG_REG),
    (CYCLES_BT_RM_MEM_IMM, CYCLES_BT_RM_REG_IMM),
    (CYCLES_BTx_RM_MEM_REG, CYCLES_BTx_RM_REG_REG),
    (CYCLES_BTx_RM_MEM_IMM, CYCLES_BTx_RM_REG_IMM),
    (CYCLES_SETcc_RM_MEM, CYCLES_SETcc_RM_REG),
    (CYCLES_CALL_NEAR_RM_MEM, CYCLES_CALL_NEAR_RM_REG),
    (CYCLES_JMP_NEAR_RM_MEM, CYCLES_JMP_NEAR_RM_REG),
    (CYCLES_ARPL_RM_MEM, CYCLES_ARPL_RM_REG),
    (CYCLES_LAR_RM_MEM, CYCLES_LAR_RM_REG),
    (CYCLES_LSL_RM_MEM, CYCLES_LSL_RM_REG),
    (CYCLES_LTR_RM_MEM, CYCLES_LTR_RM_REG),
    (CYCLES_LLDT_RM_MEM, CYCLES_LLDT_RM_REG),
    (CYCLES_LMSW_RM_MEM, CYCLES_LMSW_RM_REG),
    (CYCLES_SMSW_RM_MEM, CYCLES_SMSW_RM_REG),
    (CYCLES_SLDT_RM_MEM, CYCLES_SLDT_RM_REG),
    (CYCLES_STR_RM_MEM, CYCLES_STR_RM_REG),
    (CYCLES_VERR_RM_MEM, CYCLES_VERR_RM_REG),
    (CYCLES_VERW_RM_MEM, CYCLES_VERW_RM_REG)]

/-- The pairs of the MOV to segment register groups, which the enumeration
lists as memory, memory in protected mode, register, register in protected
mode. -/
def sregGroupPairs : List (CYCLE_GROUP × CYCLE_GROUP) :=
  [
    (CYCLES_MOV_SREG_RM_MEM, CYCLES_MOV_SREG_RM_REG),
    (CYCLES_MOV_SREG_RM_MEM_PMODE, CYCLES_MOV_SREG_RM_REG_PMODE)]

/-- The pair of the MOVZX groups. -/
def movzxGroupPair : CYCLE_GROUP × CYCLE_GROUP :=
  (CYCLES_MOVZX_REG_RM_MEM, CYCLES_MOVZX_REG_RM_REG)

end CPU_X86

/-! ## hw/vgabase.cpp: state and `LoadState` -/

namespace HW

/-- The operations of YBaseLib `BinaryReader` that `VGABase::LoadState` calls.
The library is absent from the sources, so they are parameters over a reader
state `R`.  A `SafeRead` operation receives the current content of its
destination and gives back the content afterwards (the truth value it returns
in C++ is ignored by `LoadState`). -/
structure BinaryReader (R : Type) where
  ReadUInt32 : R → Nat × R
  SafeReadUInt32 : R → Nat → Nat × R
  SafeReadUInt8 : R → Nat → Nat × R
  SafeReadBool : R → Bool → Bool × R
  SafeReadBytes : R → List Nat → Nat → List Nat × R
  GetErrorState : R → Bool

/-- The fields of `VGABase` that `LoadState`, `Reset`, `CRTCTimingChanged`, the
register data ports and the VRAM handlers touch.  Byte arrays are lists of
bytes; the two palettes, arrays of `u32`, are held as the bytes `SafeReadBytes`
fills.  The display event, a timing event declared in an absent header, is
reduced to its activity and its frequency in Hz.  `Initialize` sets
`m_vram_mask` to `m_vram_size - 1`, the size being a power of two. -/
structure VGABase where
  m_latch : Nat
  m_vram : List Nat
  m_vram_size : Nat
  m_vram_mask : Nat
  m_crtc_registers : List Nat
  m_crtc_register_mask : List Nat
  m_crtc_index_register : Nat
  m_graphics_registers : List Nat
  m_graphics_register_mask : List Nat
  m_graphics_index_register : Nat
  m_misc_output_register : Nat
  m_feature_control_register : Nat
  m_attribute_registers : List Nat
  m_attribute_register_mask : List Nat
  m_attribute_index_register : Nat
  m_attribute_register_flipflop : Bool
  m_sequencer_registers : List Nat
  m_sequencer_register_mask : List Nat
  m_sequencer_index_register : Nat
  m_dac_palette : List Nat
  m_dac_state_register : Nat
  m_dac_write_address : Nat
  m_dac_read_address : Nat
  m_dac_color_index : Nat
  m_output_palette : List Nat
  m_cursor_counter : Nat
  m_cursor_state : Bool
  m_crtc_timing_changed : Bool
  m_display_event_active : Bool
  m_display_event_frequency : Nat
deriving DecidableEq, Repr

/-- The C++ `Truncate32` of a size. -/
def Truncate32 (n : Nat) : Nat := n % 2 ^ 32

/-- Method `VGABase::CRTCTimingChanged`. -/
def VGABase.CRTCTimingChanged (this : VGABase) : VGABase :=
  let this :=
    if !this.m_display_event_active then
      let this := { this with m_display_event_frequency := 60 }
      { this with m_display_event_active := true }
    else this
  { this with m_crtc_timing_changed := true }

/-- One `SafeRead` call of `LoadState`: `op` reads from the reader into the
field accessed by `get` and stored by `set`. -/
def readInto {R X : Type} (op : R → X → X × R) (get : VGABase → X)
    (set : VGABase → X → VGABase) (p : VGABase × R) : VGABase × R :=
  let r := op p.2 (get p.1)
  (set p.1 r.1, r.2)

/-- Method `VGABase::LoadState`: the result, the device afterwards and the reader
afterwards.  The pair `p` is the device and the reader between two reads. -/
def VGABase.LoadState {R : Type} (rd : BinaryReader R) (SERIALIZATION_ID : Nat)
    (reader : R) (this : VGABase) : Bool × VGABase × R :=
  let r := rd.ReadUInt32 reader
  if r.1 != SERIALIZATION_ID then (false, this, r.2)
  else
    let p := (this, r.2)
    let p := readInto rd.SafeReadUInt32 VGABase.m_latch (fun t v => { t with m_latch := v }) p
    let p := readInto (fun rr buf => rd.SafeReadBytes rr buf p.1.m_vram_size)
      VGABase.m_vram (fun t v => { t with m_vram := v }) p
    let p := readInto (fun rr buf => rd.SafeReadBytes rr buf (p.1.m_crtc_registers.length % 2 ^ 32))
      VGABase.m_crtc_registers (fun t v => { t with m_crtc_registers := v }) p
    let p := readInto (fun rr buf => rd.SafeReadBytes rr buf (p.1.m_crtc_register_mask.length % 2 ^ 32))
      VGABase.m_crtc_register_mask (fun t v => { t with m_crtc_register_mask := v }) p
    let p := readInto rd.SafeReadUInt8 VGABase.m_crtc_index_register (fun t v => { t with m_crtc_index_register := v }) p
    let p := readInto (fun rr buf => rd.SafeReadBytes rr buf (p.1.m_graphics_registers.length % 2 ^ 32))
      VGABase.m_graphics_registers (fun t v => { t with m_graphics_registers := v }) p
    let p := readInto (fun rr buf => rd.SafeReadBytes rr buf (p.1.m_graphics_register_mask.length % 2 ^ 32))
      VGABase.m_graphics_register_mask (fun t v => { t with m_graphics_register_mask := v }) p
    let p := readInto rd.SafeReadUInt8 VGABase.m_graphics_index_register (fun t v => { t with m_graphics_index_register := v }) p
    let p := readInto rd.SafeReadUInt8 VGABase.m_misc_output_register (fun t v => { t with m_misc_output_register := v }) p
    let p := readInto rd.SafeReadUInt8 VGABase.m_feature_control_register (fun t v => { t with m_feature_control_register := v }) p
    let p := readInto (fun rr buf => rd.SafeReadBytes rr buf (p.1.m_attribute_registers.length % 2 ^ 32))
      VGABase.m_attribute_registers (fun t v => { t with m_attribute_registers := v }) p
    let p := readInto (fun rr buf => rd.SafeReadBytes rr buf (p.1.m_attribute_register_mask.length % 2 ^ 32))
      VGABase.m_attribute_register_mask (fun t v => { t with m_attribute_register_mask := v }) p
    let p := readInto rd.SafeReadUInt8 VGABase.m_attribute_index_register (fun t v => { t with m_attribute_index_register := v }) p
    let p := readInto rd.SafeReadBool VGABase.m_attribute_register_flipflop (fun t v => { t with m_attribute_register_flipflop := v }) p
    let p := readInto (fun rr buf => rd.SafeReadBytes rr buf (p.1.m_sequencer_registers.length % 2 ^ 32))
      VGABase.m_sequencer_registers (fun t v => { t with m_sequencer_registers := v }) p
    let p := readInto (fun rr buf => rd.SafeReadBytes rr buf (p.1.m_sequencer_register_mask.length % 2 ^ 32))
      VGABase.m_sequencer_register_mask (fun t v => { t with m_sequencer_register_mask := v }) p
    let p := readInto rd.SafeReadUInt8 VGABase.m_sequencer_index_register (fun t v => { t with m_sequencer_index_register := v }) p
    let p := readInto (fun rr buf => rd.SafeReadBytes rr buf (Truncate32 p.1.m_dac_palette.length))
      VGABase.m_dac_palette (fun t v => { t with m_dac_palette := v }) p
    let p := readInto rd.SafeReadUInt8 VGABase.m_dac_state_register (fun t v => { t with m_dac_state_register := v }) p
    let p := readInto rd.SafeReadUInt8 VGABase.m_dac_write_address (fun t v => { t with m_dac_write_address := v }) p
    let p := readInto rd.SafeReadUInt8 VGABase.m_dac_read_address (fun t v => { t with m_dac_read_address := v }) p
    let p := readInto rd.SafeReadUInt8 VGABase.m_dac_color_index (fun t v => { t with m_dac_color_index := v }) p
    let p := readInto (fun rr buf => rd.SafeReadBytes rr buf (Truncate32 p.1.m_output_palette.length))
      VGABase.m_output_palette (fun t v => { t with m_output_palette := v }) p
    let p := readInto rd.SafeReadUInt8 VGABase.m_cursor_counter (fun t v => { t with m_cursor_counter := v }) p
    let p := readInto rd.SafeReadBool VGABase.m_cursor_state (fun t v => { t with m_cursor_state := v }) p
    let this := p.1.CRTCTimingChanged
    (!rd.GetErrorState p.2, this, p.2)

/-- Modelled from the spec: a byte stream being read, as the persisted state
layout of the spec describes it: the bytes not yet consumed and the error
state of the reader. -/
structure ByteStream where
  data : List Nat
  error : Bool
deriving DecidableEq, Repr

/-- Takes `n` bytes off the stream; when fewer are left nothing is consumed and
the error state is set. -/
def ByteStream.take (s : ByteStream) (n : Nat) : Option (List Nat) × ByteStream :=
  if n ≤ s.data.length then (some (s.data.take n), { s with data := s.data.drop n })
  else (none, { s with error := true })

/-- Value of a little-endian byte sequence. -/
def fromLittleEndian : List Nat → Nat
  | [] => 0
  | b :: bs => b + 256 * fromLittleEndian bs

/-- Modelled from the spec: the reader operations over `ByteStream` (YBaseLib
is absent).  A read that succeeds stores the bytes taken; a read that fails
leaves its destination as it was and sets the error state. -/
def streamReader : BinaryReader ByteStream where
  ReadUInt32 := fun s =>
    match s.take 4 with
    | (some bs, s) => (fromLittleEndian bs, s)
    | (none, s) => (0, s)
  SafeReadUInt32 := fun s old =>
    match s.take 4 with
    | (some bs, s) => (fromLittleEndian bs, s)
    | (none, s) => (old, s)
  SafeReadUInt8 := fun s old =>
    match s.take 1 with
    | (some bs, s) => (fromLittleEndian bs, s)
    | (none, s) => (old, s)
  SafeReadBool := fun s old =>
    match s.take 1 with
    | (some bs, s) => (fromLittleEndian bs != 0, s)
    | (none, s) => (old, s)
  SafeReadBytes := fun s old n =>
    match s.take n with
    | (some bs, s) => (bs ++ old.drop n, s)
    | (none, s) => (old, s)
  GetErrorState := fun s => s.error

/-- A small device state for running `LoadState` on concrete streams: two
bytes of VRAM, one register of each kind, one palette entry each. -/
def sampleVGA : VGABase where
  m_latch := 0
  m_vram := [0, 0]
  m_vram_size := 2
  m_vram_mask := 1
  m_crtc_registers := [0]
  m_crtc_register_mask := [0xFF]
  m_crtc_index_register := 0
  m_graphics_registers := [0]
  m_graphics_register_mask := [0x0F]
  m_graphics_index_register := 0
  m_misc_output_register := 0
  m_feature_control_register := 0
  m_attribute_registers := [0]
  m_attribute_register_mask := [0x3F]
  m_attribute_index_register := 0
  m_attribute_register_flipflop := false
  m_sequencer_registers := [0]
  m_sequencer_register_mask := [0x03]
  m_sequencer_index_register := 0
  m_dac_palette := [0xFF, 0xFF, 0xFF, 0xFF]
  m_dac_state_register := 0
  m_dac_write_address := 0
  m_dac_read_address := 0
  m_dac_color_index := 0
  m_output_palette := [0, 0, 0, 0]
  m_cursor_counter := 0
  m_cursor_state := false
  m_crtc_timing_changed := false
  m_display_event_active := true
  m_display_event_frequency := 60

/-! ## hw/vgabase.cpp: register files and VRAM handlers -/

/-- The constants and macros of `vgabase.h` and `vgahelpers.h` that `Reset`, the
register data ports and the VRAM handlers use.  Both headers are absent from
the sources, so they are parameters: array bounds and register counts,
register numbers, field masks, the macros that extract a field of a register
value, and the bit positions of the bit-fields of the miscellaneous output
register. -/
structure VGAHelpers where
  MAX_VGA_CRTC_REGISTER : Nat
  MAX_VGA_GRAPHICS_REGISTER : Nat
  MAX_VGA_SEQUENCER_REGISTER : Nat
  MAX_VGA_ATTRIBUTE_REGISTER : Nat
  NUM_CRTC_REGISTERS : Nat
  NUM_GRAPHICS_REGISTERS : Nat
  NUM_ATTRIBUTE_REGISTERS : Nat
  NUM_SEQUENCER_REGISTERS : Nat
  CRTC_REGISTER_HORIZONTAL_TOTAL : Nat
  CRTC_REGISTER_HORIZONTAL_DISPLAY_END : Nat
  CRTC_REGISTER_HORIZONTAL_BLANKING_START : Nat
  CRTC_REGISTER_HORIZONTAL_BLANKING_END : Nat
  CRTC_REGISTER_HORIZONTAL_SYNC_START : Nat
  CRTC_REGISTER_HORIZONTAL_SYNC_END : Nat
  CRTC_REGISTER_VERTICAL_TOTAL : Nat
  CRTC_REGISTER_OVERFLOW : Nat
  CRTC_REGISTER_VERTICAL_SYNC_START : Nat
  CRTC_REGISTER_VERTICAL_SYNC_END : Nat
  CRTC_REGISTER_VERTICAL_DISPLAY_END : Nat
  CRTC_REGISTER_VERTICAL_BLANK_START : Nat
  CRTC_REGISTER_VERTICAL_BLANK_END : Nat
  ATTRIBUTE_REGISTER_PALETTE : Nat
  SEQUENCER_REGISTER_CLOCKING_MODE : Nat
  SEQUENCER_REGISTER_PLANE_MASK : Nat
  SEQUENCER_REGISTER_MEMORY_MODE : Nat
  SEQUENCER_REGISTER_MEMORY_MODE_CHAIN_4 : Nat → Bool
  SEQUENCER_REGISTER_MEMORY_MODE_HOST_ODD_EVEN : Nat → Bool
  GRAPHICS_REGISTER_SET_RESET : Nat
  GRAPHICS_REGISTER_SET_RESET_MASK : Nat
  GRAPHICS_REGISTER_SET_RESET_ENABLE : Nat
  GRAPHICS_REGISTER_SET_RESET_ENABLE_MASK : Nat
  GRAPHICS_REGISTER_COLOR_COMPARE : Nat
  GRAPHICS_REGISTER_COLOR_COMPARE_MASK : Nat
  GRAPHICS_REGISTER_DATA_ROTATE : Nat
  GRAPHICS_REGISTER_DATA_ROTATE_COUNT : Nat → Nat
  GRAPHICS_REGISTER_DATA_ROTATE_LOGIC_OP : Nat → Nat
  GRAPHICS_REGISTER_READ_MAP_SELECT : Nat
  GRAPHICS_REGISTER_READ_MAP_SELECT_MASK : Nat
  GRAPHICS_REGISTER_MODE : Nat
  GRAPHICS_REGISTER_MODE_READ_MODE : Nat → Nat
  GRAPHICS_REGISTER_MODE_WRITE_MODE : Nat → Nat
  GRAPHICS_REGISTER_MISCELLANEOUS : Nat
  GRAPHICS_REGISTER_MISCELLANEOUS_CHAIN_ODD_EVEN_ENABLE : Nat → Bool
  GRAPHICS_REGISTER_MISCELLANEOUS_MEMORY_MAP_SELECT : Nat → Nat
  GRAPHICS_REGISTER_COLOR_DONT_CARE : Nat
  GRAPHICS_REGISTER_COLOR_DONT_CARE_MASK : Nat
  GRAPHICS_REGISTER_BIT_MASK : Nat
  io_address_select : Nat
  ram_enable : Nat
  clock_select : Nat
  odd_even_page : Nat
  hsync_polarity : Nat
  vsync_polarity : Nat

/-- The C++ `Truncate8`. -/
def Truncate8 (n : Nat) : Nat := n % 2 ^ 8

/-- The low eight bits of the C `~x`.  Every use ANDs it with a byte or converts
it to `u8`, so the bits above are never seen. -/
def complement8 (x : Nat) : Nat := 0xFF ^^^ x

/-- The C `~x` of a `u32`. -/
def complement32 (x : Nat) : Nat := 0xFFFFFFFF ^^^ x

/-- Element `i` of a byte array.  An index past the end, which C++ does not
define, reads 0. -/
def byteAt (l : List Nat) (i : Nat) : Nat := l.getD i 0

/-- The assignments `l[i] = v` for `lo ≤ i < hi`, in order. -/
def assignRange (l : List Nat) (lo hi v : Nat) : List Nat :=
  (List.range' lo (hi - lo)).foldl (fun l i => l.set i v) l

/-- The assignments `l[i] = src[i]` for `i < countof(src)`, in order. -/
def assignFrom (l src : List Nat) : List Nat :=
  (List.range src.length).foldl (fun l i => l.set i (byteAt src i)) l

/-- Assignment of `value` to the bit-field of `width` bits at bit `pos` of a byte. -/
def assignBitField (reg pos width value : Nat) : Nat :=
  ((reg &&& complement8 (((2 ^ width - 1) <<< pos) % 2 ^ 8)) |||
    (((value % 2 ^ width) <<< pos) % 2 ^ 8))

/-- The `memcpy` of four bytes at `l[i]` into a `u32`, on a little-endian host. -/
def loadLE32 (l : List Nat) (i : Nat) : Nat :=
  byteAt l i + 2 ^ 8 * byteAt l (i + 1) + 2 ^ 16 * byteAt l (i + 2) + 2 ^ 24 * byteAt l (i + 3)

/-- The `memcpy` of a `u32` to the four bytes at `l[i]`, on a little-endian host. -/
def storeLE32 (l : List Nat) (i v : Nat) : List Nat :=
  (((l.set i (v % 2 ^ 8)).set (i + 1) (v / 2 ^ 8 % 2 ^ 8)).set (i + 2)
    (v / 2 ^ 16 % 2 ^ 8)).set (i + 3) (v / 2 ^ 24 % 2 ^ 8)

/-- Method `VGABase::UpdateVGAMemoryMapping`, whose body is empty in this class. -/
def VGABase.UpdateVGAMemoryMapping (this : VGABase) : VGABase := this

/-- Method `VGABase::UpdateDisplayTiming`.  The class `DisplayTiming` is absent
from the sources; `newFrequency` stands for the timing computed from the
registers: `none` when it matches the current one or is not valid, else the
vertical frequency the display event is restarted with. -/
def VGABase.UpdateDisplayTiming (newFrequency : VGABase → Option Nat) (this : VGABase) :
    VGABase :=
  match newFrequency this with
  | none => this
  | some f => { this with m_display_event_frequency := f, m_display_event_active := true }

/-- Method `VGABase::Reset`.  The assignments do not read what an earlier one
wrote, so they are one update, followed by `UpdateDisplayTiming`. -/
def VGABase.Reset (h : VGAHelpers) (newFrequency : VGABase → Option Nat) (this : VGABase) :
    VGABase :=
  let gr_mask := [0x0f, 0x0f, 0x0f, 0x1f, 0x03, 0x7b, 0x0f, 0x0f, 0xff]
  let sr_mask := [0x03, 0x3d, 0x0f, 0x3f, 0x0e]
  let this : VGABase :=
    { this with
      -- Reset masks, since these can be affected by save states.
      m_crtc_register_mask := assignRange this.m_crtc_register_mask 0 h.MAX_VGA_CRTC_REGISTER 0xFF
      m_graphics_register_mask := assignFrom this.m_graphics_register_mask gr_mask
      m_sequencer_register_mask := assignFrom this.m_sequencer_register_mask sr_mask
      m_attribute_register_mask :=
        assignRange
          (assignRange this.m_attribute_register_mask h.ATTRIBUTE_REGISTER_PALETTE 16 0x3F)
          16 h.MAX_VGA_ATTRIBUTE_REGISTER 0xFF
      -- Zero all registers.
      m_crtc_registers := assignRange this.m_crtc_registers 0 h.MAX_VGA_CRTC_REGISTER 0
      m_graphics_registers :=
        assignRange this.m_graphics_registers 0 h.MAX_VGA_GRAPHICS_REGISTER 0
      m_sequencer_registers :=
        assignRange this.m_sequencer_registers 0 h.MAX_VGA_SEQUENCER_REGISTER 0
      m_attribute_registers :=
        assignRange this.m_attribute_registers 0 h.MAX_VGA_ATTRIBUTE_REGISTER 0
      m_attribute_register_flipflop := false
      m_crtc_timing_changed := true
      m_misc_output_register :=
        assignBitField
          (assignBitField
            (assignBitField
              (assignBitField
                (assignBitField
                  (assignBitField this.m_misc_output_register h.io_address_select 1 0)
                  h.ram_enable 1 1)
                h.odd_even_page 1 0)
              h.clock_select 2 0)
            h.hsync_polarity 1 1)
          h.vsync_polarity 1 1
      m_dac_state_register := 0
      m_dac_read_address := 0
      m_dac_write_address := 0
      m_dac_color_index := 0
      m_dac_palette := assignRange this.m_dac_palette 0 this.m_dac_palette.length 0xFF
      m_cursor_counter := 0
      m_cursor_state := false }
  this.UpdateDisplayTiming newFrequency

/-- Method `VGABase::IOGraphicsRegisterWrite`. -/
def VGABase.IOGraphicsRegisterWrite (h : VGAHelpers) (this : VGABase) (value : Nat) : VGABase :=
  if this.m_graphics_index_register ≥ h.NUM_GRAPHICS_REGISTERS then this
  else
    let mask := byteAt this.m_graphics_register_mask this.m_graphics_index_register
    let new_value := Truncate8 ((value &&& mask) |||
      (byteAt this.m_graphics_registers this.m_graphics_index_register &&& complement8 mask))
    let changed_bits :=
      Truncate8 (byteAt this.m_graphics_registers this.m_graphics_index_register ^^^ new_value)
    let this :=
      { this with
        m_graphics_registers := this.m_graphics_registers.set this.m_graphics_index_register value }
    if h.GRAPHICS_REGISTER_MISCELLANEOUS_MEMORY_MAP_SELECT changed_bits != 0 then
      this.UpdateVGAMemoryMapping
    else this

/-- Method `VGABase::IOSequencerDataRegisterWrite`. -/
def VGABase.IOSequencerDataRegisterWrite (h : VGAHelpers) (this : VGABase) (value : Nat) :
    VGABase :=
  if this.m_sequencer_index_register ≥ h.NUM_SEQUENCER_REGISTERS then this
  else
    let mask := byteAt this.m_sequencer_register_mask this.m_sequencer_index_register
    let value := Truncate8 ((value &&& mask) |||
      (byteAt this.m_sequencer_registers this.m_sequencer_index_register &&& complement8 mask))
    let this :=
      { this with
        m_sequencer_registers := this.m_sequencer_registers.set this.m_sequencer_index_register value }
    if this.m_sequencer_index_register == h.SEQUENCER_REGISTER_CLOCKING_MODE then
      this.CRTCTimingChanged
    else this

/-- Values of 4-bit registers containing the plane mask expanded to 8 bits per plane. -/
def mask16 : List Nat :=
  [0x00000000, 0x000000ff, 0x0000ff00, 0x0000ffff, 0x00ff0000, 0x00ff00ff, 0x00ffff00, 0x00ffffff,
   0xff000000, 0xff0000ff, 0xff00ff00, 0xff00ffff, 0xffff0000, 0xffff00ff, 0xffffff00, 0xffffffff]

/-- Method `VGABase::HandleVGAVRAMRead`: the byte stored through `value` and the
device afterwards.  Addresses are `u32`, so sums and shifts are taken modulo
2^32. -/
def VGABase.HandleVGAVRAMRead (h : VGAHelpers) (this : VGABase) (segment_base offset : Nat) :
    Nat × VGABase :=
  if h.SEQUENCER_REGISTER_MEMORY_MODE_CHAIN_4
      (byteAt this.m_sequencer_registers h.SEQUENCER_REGISTER_MEMORY_MODE) then
    -- Chain4 mode - access all four planes as a series of linear bytes
    let read_plane := Truncate8 (offset &&& 3)
    let latch_linear_address :=
      ((segment_base + ((offset &&& complement32 3) <<< 2) % 2 ^ 32) % 2 ^ 32) &&& this.m_vram_mask
    let this := { this with m_latch := loadLE32 this.m_vram latch_linear_address }
    (Truncate8 (this.m_latch >>> (8 * read_plane)), this)
  else
    let (read_plane, latch_planar_address) :=
      if !h.GRAPHICS_REGISTER_MISCELLANEOUS_CHAIN_ODD_EVEN_ENABLE
          (byteAt this.m_graphics_registers h.GRAPHICS_REGISTER_MISCELLANEOUS) then
        -- By default we use the read map select register for the plane to return.
        (byteAt this.m_graphics_registers h.GRAPHICS_REGISTER_READ_MAP_SELECT &&&
            h.GRAPHICS_REGISTER_READ_MAP_SELECT_MASK,
          (segment_base + offset) % 2 ^ 32)
      else
        -- Except for odd/even addressing, only access planes 0/1.
        ((byteAt this.m_graphics_registers h.GRAPHICS_REGISTER_READ_MAP_SELECT &&& 0x02) |||
            Truncate8 (offset &&& 0x01),
          (segment_base + (offset &&& complement32 1)) % 2 ^ 32)
    -- Use the offset to load the latches with all 4 planes.
    let latch_linear_address :=
      ((segment_base + (latch_planar_address <<< 2) % 2 ^ 32) % 2 ^ 32) &&& this.m_vram_mask
    let this := { this with m_latch := loadLE32 this.m_vram latch_linear_address }
    -- Compare value/mask mode?
    if h.GRAPHICS_REGISTER_MODE_READ_MODE
        (byteAt this.m_graphics_registers h.GRAPHICS_REGISTER_MODE) != 0 then
      -- Read mode 1 - compare value/mask
      let compare_result :=
        (this.m_latch ^^^
          byteAt mask16 (byteAt this.m_graphics_registers h.GRAPHICS_REGISTER_COLOR_COMPARE &&&
            h.GRAPHICS_REGISTER_COLOR_COMPARE_MASK)) &&&
        byteAt mask16 (byteAt this.m_graphics_registers h.GRAPHICS_REGISTER_COLOR_DONT_CARE &&&
          h.GRAPHICS_REGISTER_COLOR_DONT_CARE_MASK)
      let ret := Truncate8 compare_result ||| Truncate8 (compare_result >>> 8) |||
        Truncate8 (compare_result >>> 16) ||| Truncate8 (compare_result >>> 24)
      (complement8 ret, this)
    else
      -- Read mode 0 - return specified plane
      (Truncate8 (this.m_latch >>> (8 * read_plane)), this)

/-- The ALU operation of the write path. -/
def VGALogicOp (logic_op latch value : Nat) : Nat :=
  match logic_op with
  | 0 => value
  | 1 => value &&& latch
  | 2 => value ||| latch
  | 3 => value ^^^ latch
  | _ => value

/-- A byte replicated into the four bytes of a `u32`. -/
def VGAExpandMask (mask : Nat) : Nat :=
  mask ||| (mask <<< 8) % 2 ^ 32 ||| (mask <<< 16) % 2 ^ 32 ||| (mask <<< 24) % 2 ^ 32

/-- Method `VGABase::HandleVGAVRAMWrite`. -/
def VGABase.HandleVGAVRAMWrite (h : VGAHelpers) (this : VGABase)
    (segment_base offset value : Nat) : VGABase :=
  if h.SEQUENCER_REGISTER_MEMORY_MODE_CHAIN_4
      (byteAt this.m_sequencer_registers h.SEQUENCER_REGISTER_MEMORY_MODE) then
    let plane := Truncate8 (offset &&& 3)
    if byteAt this.m_sequencer_registers h.SEQUENCER_REGISTER_PLANE_MASK &&& (1 <<< plane) != 0 then
      let linear_address :=
        ((segment_base + ((((offset &&& complement32 3) <<< 2) % 2 ^ 32) ||| plane)) % 2 ^ 32) &&&
          this.m_vram_mask
      { this with m_vram := this.m_vram.set linear_address value }
    else this
  else if !h.SEQUENCER_REGISTER_MEMORY_MODE_HOST_ODD_EVEN
      (byteAt this.m_sequencer_registers h.SEQUENCER_REGISTER_MEMORY_MODE) then
    let plane := Truncate8 (offset &&& 1)
    if byteAt this.m_sequencer_registers h.SEQUENCER_REGISTER_PLANE_MASK &&& (1 <<< plane) != 0 then
      let linear_address :=
        ((segment_base + ((((offset &&& complement32 1) <<< 2) % 2 ^ 32) ||| plane)) % 2 ^ 32) &&&
          this.m_vram_mask
      { this with m_vram := this.m_vram.set linear_address value }
    else this
  else
    let set_reset := byteAt this.m_graphics_registers h.GRAPHICS_REGISTER_SET_RESET &&&
      h.GRAPHICS_REGISTER_SET_RESET_MASK
    let enable_set_reset :=
      byteAt this.m_graphics_registers h.GRAPHICS_REGISTER_SET_RESET_ENABLE &&&
        h.GRAPHICS_REGISTER_SET_RESET_ENABLE_MASK
    let bit_mask_index := byteAt this.m_graphics_registers h.GRAPHICS_REGISTER_BIT_MASK
    let rotate_count := Truncate8 (h.GRAPHICS_REGISTER_DATA_ROTATE_COUNT
      (byteAt this.m_graphics_registers h.GRAPHICS_REGISTER_DATA_ROTATE))
    let logic_op := Truncate8 (h.GRAPHICS_REGISTER_DATA_ROTATE_LOGIC_OP
      (byteAt this.m_graphics_registers h.GRAPHICS_REGISTER_DATA_ROTATE))
    let all_planes_value :=
      match h.GRAPHICS_REGISTER_MODE_WRITE_MODE
          (byteAt this.m_graphics_registers h.GRAPHICS_REGISTER_MODE) with
      | 0 =>
        let rotated := Truncate8 ((value >>> rotate_count) ||| (value <<< (8 - rotate_count)))
        let all_planes_value := VGAExpandMask rotated
        let all_planes_value :=
          (all_planes_value &&& complement32 (byteAt mask16 enable_set_reset)) |||
            (byteAt mask16 set_reset &&& byteAt mask16 enable_set_reset)
        let all_planes_value := VGALogicOp logic_op this.m_latch all_planes_value
        let bit_mask := VGAExpandMask bit_mask_index
        (all_planes_value &&& bit_mask) ||| (this.m_latch &&& complement32 bit_mask)
      | 1 => this.m_latch
      | 2 =>
        let all_planes_value := byteAt mask16 (value &&& 0x0F)
        let all_planes_value := VGALogicOp logic_op this.m_latch all_planes_value
        let bit_mask := VGAExpandMask bit_mask_index
        (all_planes_value &&& bit_mask) ||| (this.m_latch &&& complement32 bit_mask)
      | 3 =>
        let set_reset_data := byteAt mask16 set_reset
        let rotated := Truncate8 ((value >>> rotate_count) ||| (value <<< (8 - rotate_count)))
        let temp_bit_mask := bit_mask_index &&& rotated
        let all_planes_value := VGALogicOp logic_op this.m_latch set_reset_data
        let bit_mask := VGAExpandMask temp_bit_mask
        (all_planes_value &&& bit_mask) ||| (this.m_latch &&& complement32 bit_mask)
      | _ => 0
    -- Finally, only the bit planes enabled by the Memory Plane Write Enable field are written.
    let linear_address := ((segment_base + (offset <<< 2) % 2 ^ 32) % 2 ^ 32) &&& this.m_vram_mask
    let write_mask :=
      byteAt mask16 (byteAt this.m_sequencer_registers h.SEQUENCER_REGISTER_PLANE_MASK &&& 0xF)
    let current_value := loadLE32 this.m_vram linear_address
    let all_planes_value :=
      (all_planes_value &&& write_mask) ||| (current_value &&& complement32 write_mask)
    { this with m_vram := storeLE32 this.m_vram linear_address all_planes_value }

/-- Model of the absent headers for running the handlers on concrete states:
the register numbers and bit positions of the VGA register set, with 25 CRTC,
9 graphics, 5 sequencer and 21 attribute registers (the mask tables of `Reset`
have 9 graphics and 5 sequencer entries) and the array bounds equal to the
counts. -/
def vgaHelpers : VGAHelpers where
  MAX_VGA_CRTC_REGISTER := 25
  MAX_VGA_GRAPHICS_REGISTER := 9
  MAX_VGA_SEQUENCER_REGISTER := 5
  MAX_VGA_ATTRIBUTE_REGISTER := 21
  NUM_CRTC_REGISTERS := 25
  NUM_GRAPHICS_REGISTERS := 9
  NUM_ATTRIBUTE_REGISTERS := 21
  NUM_SEQUENCER_REGISTERS := 5
  CRTC_REGISTER_HORIZONTAL_TOTAL := 0x00
  CRTC_REGISTER_HORIZONTAL_DISPLAY_END := 0x01
  CRTC_REGISTER_HORIZONTAL_BLANKING_START := 0x02
  CRTC_REGISTER_HORIZONTAL_BLANKING_END := 0x03
  CRTC_REGISTER_HORIZONTAL_SYNC_START := 0x04
  CRTC_REGISTER_HORIZONTAL_SYNC_END := 0x05
  CRTC_REGISTER_VERTICAL_TOTAL := 0x06
  CRTC_REGISTER_OVERFLOW := 0x07
  CRTC_REGISTER_VERTICAL_SYNC_START := 0x10
  CRTC_REGISTER_VERTICAL_SYNC_END := 0x11
  CRTC_REGISTER_VERTICAL_DISPLAY_END := 0x12
  CRTC_REGISTER_VERTICAL_BLANK_START := 0x15
  CRTC_REGISTER_VERTICAL_BLANK_END := 0x16
  ATTRIBUTE_REGISTER_PALETTE := 0
  SEQUENCER_REGISTER_CLOCKING_MODE := 1
  SEQUENCER_REGISTER_PLANE_MASK := 2
  SEQUENCER_REGISTER_MEMORY_MODE := 4
  SEQUENCER_REGISTER_MEMORY_MODE_CHAIN_4 := fun v => v.testBit 3
  SEQUENCER_REGISTER_MEMORY_MODE_HOST_ODD_EVEN := fun v => v.testBit 2
  GRAPHICS_REGISTER_SET_RESET := 0
  GRAPHICS_REGISTER_SET_RESET_MASK := 0x0F
  GRAPHICS_REGISTER_SET_RESET_ENABLE := 1
  GRAPHICS_REGISTER_SET_RESET_ENABLE_MASK := 0x0F
  GRAPHICS_REGISTER_COLOR_COMPARE := 2
  GRAPHICS_REGISTER_COLOR_COMPARE_MASK := 0x0F
  GRAPHICS_REGISTER_DATA_ROTATE := 3
  GRAPHICS_REGISTER_DATA_ROTATE_COUNT := fun v => v &&& 0x07
  GRAPHICS_REGISTER_DATA_ROTATE_LOGIC_OP := fun v => (v >>> 3) &&& 0x03
  GRAPHICS_REGISTER_READ_MAP_SELECT := 4
  GRAPHICS_REGISTER_READ_MAP_SELECT_MASK := 0x03
  GRAPHICS_REGISTER_MODE := 5
  GRAPHICS_REGISTER_MODE_READ_MODE := fun v => (v >>> 3) &&& 0x01
  GRAPHICS_REGISTER_MODE_WRITE_MODE := fun v => v &&& 0x03
  GRAPHICS_REGISTER_MISCELLANEOUS := 6
  GRAPHICS_REGISTER_MISCELLANEOUS_CHAIN_ODD_EVEN_ENABLE := fun v => v.testBit 1
  GRAPHICS_REGISTER_MISCELLANEOUS_MEMORY_MAP_SELECT := fun v => (v >>> 2) &&& 0x03
  GRAPHICS_REGISTER_COLOR_DONT_CARE := 7
  GRAPHICS_REGISTER_COLOR_DONT_CARE_MASK := 0x0F
  GRAPHICS_REGISTER_BIT_MASK := 8
  io_address_select := 0
  ram_enable := 1
  clock_select := 2
  odd_even_page := 5
  hsync_polarity := 6
  vsync_polarity := 7

/-- A device as constructed, before `Reset`: register files of the sizes of
`vgaHelpers`, every byte 0xAA so that what `Reset` writes is visible, 64 bytes
of VRAM and one palette entry each. -/
def constructedVGA : VGABase where
  m_latch := 0
  m_vram := List.replicate 64 0
  m_vram_size := 64
  m_vram_mask := 63
  m_crtc_registers := List.replicate 25 0xAA
  m_crtc_register_mask := List.replicate 25 0xAA
  m_crtc_index_register := 0
  m_graphics_registers := List.replicate 9 0xAA
  m_graphics_register_mask := List.replicate 9 0xAA
  m_graphics_index_register := 0
  m_misc_output_register := 0
  m_feature_control_register := 0
  m_attribute_registers := List.replicate 21 0xAA
  m_attribute_register_mask := List.replicate 21 0xAA
  m_attribute_index_register := 0
  m_attribute_register_flipflop := false
  m_sequencer_registers := List.replicate 5 0xAA
  m_sequencer_register_mask := List.replicate 5 0xAA
  m_sequencer_index_register := 0
  m_dac_palette := [0, 0, 0, 0]
  m_dac_state_register := 0
  m_dac_write_address := 0
  m_dac_read_address := 0
  m_dac_color_index := 0
  m_output_palette := [0, 0, 0, 0]
  m_cursor_counter := 0
  m_cursor_state := false
  m_crtc_timing_changed := false
  m_display_event_active := true
  m_display_event_frequency := 60

/-- The device after `Reset`, with registers programmed for planar access in
write mode 0 and read mode 0: all four planes enabled (sequencer plane mask
0x0F), chain-4 off and host odd/even addressing off (sequencer memory mode
0x06), bit mask 0xFF, no set/reset, no rotate, logic op 0, and the bytes
0x11, 0x22, 0x33, 0x44 in VRAM at 20..23. -/
def planarVGA : VGABase :=
  let this := constructedVGA.Reset vgaHelpers (fun _ => none)
  { this with
    m_sequencer_registers := [0x00, 0x00, 0x0F, 0x00, 0x06]
    m_graphics_registers := [0x00, 0x00, 0x00, 0x00, 0x00, 0x00, 0x00, 0x00, 0xFF]
    m_vram := storeLE32 this.m_vram 20 0x44332211 }

end HW

/-! ## systems/ibmxt.cpp -/

namespace Systems

/-- The machine object as `IBMXT::Initialize` sees it: the configured RAM size
(`m_ram_size`, a `u32`) and everything else, which `Initialize` reaches only
through methods absent from the sources. -/
structure IBMXT (S : Type) where
  m_ram_size : Nat
  rest : S

/-- The calls made by `IBMXT::Initialize`; their bodies are absent from the
sources (base class, bus, logging), so they are parameters.
`CreateROMRegionFromFile` stands for the call on `m_bus` with the BIOS path,
offset 0, `BIOS_ROM_ADDRESS_8K` and size 8192. -/
structure IBMXT.Methods (S : Type) where
  Log_ErrorPrintf : IBMXT S → IBMXT S
  BaseClass_Initialize : IBMXT S → Bool × IBMXT S
  AllocatePhysicalMemory : Nat → Bool → Bool → Bool → IBMXT S → IBMXT S
  CreateROMRegionFromFile : IBMXT S → Bool × IBMXT S
  ConnectSystemIOPorts : IBMXT S → IBMXT S
  SetSwitches : IBMXT S → IBMXT S

/-- Initialisation of the IBM XT system: result and the machine afterwards. -/
def IBMXT.Initialize {S : Type} (m : IBMXT.Methods S) (this : IBMXT S) : Bool × IBMXT S :=
  if this.m_ram_size < 64 * 1024 then
    let this := m.Log_ErrorPrintf this
    (false, this)
  else
    let (ok, this) := m.BaseClass_Initialize this
    if !ok then (false, this)
    else
      let this := m.AllocatePhysicalMemory this.m_ram_size true true true this
      let (ok, this) := m.CreateROMRegionFromFile this
      if !ok then (false, this)
      else
        let this := m.ConnectSystemIOPorts this
        let this := m.SetSwitches this
        (true, this)

/-- The steps of `Initialize`, for recording which of them ran. -/
inductive InitStep where
  | LogError
  | BaseInitialize
  | AllocateMemory
  | LoadBIOS
  | ConnectPorts
  | SetSwitches
deriving DecidableEq, Repr

/-- Methods that only record themselves in `rest`, every fallible one
succeeding. -/
def recordingMethods : IBMXT.Methods (List InitStep) where
  Log_ErrorPrintf := fun x => { x with rest := x.rest ++ [InitStep.LogError] }
  BaseClass_Initialize := fun x => (true, { x with rest := x.rest ++ [InitStep.BaseInitialize] })
  AllocatePhysicalMemory := fun _ _ _ _ x =>
    { x with rest := x.rest ++ [InitStep.AllocateMemory] }
  CreateROMRegionFromFile := fun x => (true, { x with rest := x.rest ++ [InitStep.LoadBIOS] })
  ConnectSystemIOPorts := fun x => { x with rest := x.rest ++ [InitStep.ConnectPorts] }
  SetSwitches := fun x => { x with rest := x.rest ++ [InitStep.SetSwitches] }

end Systems

namespace SoftFloat

open float_relation float_class_t

/-! ## Theorems: comparison predicates -/

/-- C1: each of the 32 float32 and 32 float64 comparison predicates returns 1
exactly when the relation returned by the base compare it calls lies in the set
its name documents, and 0 otherwise. -/
theorem predicates_return_documented_set
    (float32_compare float32_compare_quiet : float32_base_compare)
    (float64_compare float64_compare_quiet : float64_base_compare)
    (a32 b32 : float32) (a64 b64 : float64) (status : float_status_t) :
    (float32_eq_ordered_quiet float32_compare float32_compare_quiet a32 b32 status).1 =
      relationIn (float32_compare_quiet a32 b32 status).1 [float_relation_equal] ∧
    (float32_lt_ordered_signalling float32_compare float32_compare_quiet a32 b32 status).1 =
      relationIn (float32_compare a32 b32 status).1 [float_relation_less] ∧
    (float32_le_ordered_signalling float32_compare float32_compare_quiet a32 b32 status).1 =
      relationIn (float32_compare a32 b32 status).1 [float_relation_less, float_relation_equal] ∧
    (float32_unordered_quiet float32_compare float32_compare_quiet a32 b32 status).1 =
      relationIn (float32_compare_quiet a32 b32 status).1 [float_relation_unordered] ∧
    (float32_neq_unordered_quiet float32_compare float32_compare_quiet a32 b32 status).1 =
      relationIn (float32_compare_quiet a32 b32 status).1 [float_relation_less, float_relation_greater, float_relation_unordered] ∧
    (float32_nlt_unordered_signalling float32_compare float32_compare_quiet a32 b32 status).1 =
      relationIn (float32_compare a32 b32 status).1 [float_relation_equal, float_relation_greater, float_relation_unordered] ∧
    (float32_nle_unordered_signalling float32_compare float32_compare_quiet a32 b32 status).1 =
      relationIn (float32_compare a32 b32 status).1 [float_relation_greater, float_relation_unordered] ∧
    (float32_ordered_quiet float32_compare float32_compare_quiet a32 b32 status).1 =
      relationIn (float32_compare_quiet a32 b32 status).1 [float_relation_less, float_relation_equal, float_relation_greater] ∧
    (float32_eq_unordered_quiet float32_compare float32_compare_quiet a32 b32 status).1 =
      relationIn (float32_compare_quiet a32 b32 status).1 [float_relation_equal, float_relation_unordered] ∧
    (float32_nge_unordered_signalling float32_compare float32_compare_quiet a32 b32 status).1 =
      relationIn (float32_compare a32 b32 status).1 [float_relation_less, float_relation_unordered] ∧
    (float32_ngt_unordered_signalling float32_compare float32_compare_quiet a32 b32 status).1 =
      relationIn (float32_compare a32 b32 status).1 [float_relation_less, float_relation_equal, float_relation_unordered] ∧
    (float32_false_quiet float32_compare float32_compare_quiet a32 b32 status).1 =
      relationIn (float32_compare_quiet a32 b32 status).1 [] ∧
    (float32_neq_ordered_quiet float32_compare float32_compare_quiet a32 b32 status).1 =
      relationIn (float32_compare_quiet a32 b32 status).1 [float_relation_less, float_relation_greater] ∧
    (float32_ge_ordered_signalling float32_compare float32_compare_quiet a32 b32 status).1 =
      relationIn (float32_compare a32 b32 status).1 [float_relation_greater, float_relation_equal] ∧
    (float32_gt_ordered_signalling float32_compare float32_compare_quiet a32 b32 status).1 =
      relationIn (float32_compare a32 b32 status).1 [float_relation_greater] ∧
    (float32_true_quiet float32_compare float32_compare_quiet a32 b32 status).1 =
      relationIn (float32_compare_quiet a32 b32 status).1 [float_relation_less, float_relation_equal, float_relation_greater, float_relation_unordered] ∧
    (float32_eq_ordered_signalling float32_compare float32_compare_quiet a32 b32 status).1 =
      relationIn (float32_compare a32 b32 status).1 [float_relation_equal] ∧
    (float32_lt_ordered_quiet float32_compare float32_compare_quiet a32 b32 status).1 =
      relationIn (float32_compare_quiet a32 b32 status).1 [float_relation_less] ∧
    (float32_le_ordered_quiet float32_compare float32_compare_quiet a32 b32 status).1 =
      relationIn (float32_compare_quiet a32 b32 status).1 [float_relation_less, float_relation_equal] ∧
    (float32_unordered_signalling float32_compare float32_compare_quiet a32 b32 status).1 =
      relationIn (float32_compare a32 b32 status).1 [float_relation_unordered] ∧
    (float32_neq_unordered_signalling float32_compare float32_compare_quiet a32 b32 status).1 =
      relationIn (float32_compare a32 b32 status).1 [float_relation_less, float_relation_greater, float_relation_unordered] ∧
    (float32_nlt_unordered_quiet float32_compare float32_compare_quiet a32 b32 status).1 =
      relationIn (float32_compare_quiet a32 b32 status).1 [float_relation_equal, float_relation_greater, float_relation_unordered] ∧
    (float32_nle_unordered_quiet float32_compare float32_compare_quiet a32 b32 status).1 =
      relationIn (float32_compare_quiet a32 b32 status).1 [float_relation_greater, float_relation_unordered] ∧
    (float32_ordered_signalling float32_compare float32_compare_quiet a32 b32 status).1 =
      relationIn (float32_compare a32 b32 status).1 [float_relation_less, float_relation_equal, float_relation_greater] ∧
    (float32_eq_unordered_signalling float32_compare float32_compare_quiet a32 b32 status).1 =
      relationIn (float32_compare a32 b32 status).1 [float_relation_equal, float_relation_unordered] ∧
    (float32_nge_unordered_quiet float32_compare float32_compare_quiet a32 b32 status).1 =
      relationIn (float32_compare_quiet a32 b32 status).1 [float_relation_less, float_relation_unordered] ∧
    (float32_ngt_unordered_quiet float32_compare float32_compare_quiet a32 b32 status).1 =
      relationIn (float32_compare_quiet a32 b32 status).1 [float_relation_less, float_relation_equal, float_relation_unordered] ∧
    (float32_false_signalling float32_compare float32_compare_quiet a32 b32 status).1 =
      relationIn (float32_compare a32 b32 status).1 [] ∧
    (float32_neq_ordered_signalling float32_compare float32_compare_quiet a32 b32 status).1 =
      relationIn (float32_compare a32 b32 status).1 [float_relation_less, float_relation_greater] ∧
    (float32_ge_ordered_quiet float32_compare float32_compare_quiet a32 b32 status).1 =
      relationIn (float32_compare_quiet a32 b32 status).1 [float_relation_greater, float_relation_equal] ∧
    (float32_gt_ordered_quiet float32_compare float32_compare_quiet a32 b32 status).1 =
      relationIn (float32_compare_quiet a32 b32 status).1 [float_relation_greater] ∧
    (float32_true_signalling float32_compare float32_compare_quiet a32 b32 status).1 =
      relationIn (float32_compare a32 b32 status).1 [float_relation_less, float_relation_equal, float_relation_greater, float_relation_unordered] ∧
    (float64_eq_ordered_quiet float64_compare float64_compare_quiet a64 b64 status).1 =
      relationIn (float64_compare_quiet a64 b64 status).1 [float_relation_equal] ∧
    (float64_lt_ordered_signalling float64_compare float64_compare_quiet a64 b64 status).1 =
      relationIn (float64_compare a64 b64 status).1 [float_relation_less] ∧
    (float64_le_ordered_signalling float64_compare float64_compare_quiet a64 b64 status).1 =
      relationIn (float64_compare a64 b64 status).1 [float_relation_less, float_relation_equal] ∧
    (float64_unordered_quiet float64_compare float64_compare_quiet a64 b64 status).1 =
      relationIn (float64_compare_quiet a64 b64 status).1 [float_relation_unordered] ∧
    (float64_neq_unordered_quiet float64_compare float64_compare_quiet a64 b64 status).1 =
      relationIn (float64_compare_quiet a64 b64 status).1 [float_relation_less, float_relation_greater, float_relation_unordered] ∧
    (float64_nlt_unordered_signalling float64_compare float64_compare_quiet a64 b64 status).1 =
      relationIn (float64_compare a64 b64 status).1 [float_relation_equal, float_relation_greater, float_relation_unordered] ∧
    (float64_nle_unordered_signalling float64_compare float64_compare_quiet a64 b64 status).1 =
      relationIn (float64_compare a64 b64 status).1 [float_relation_greater, float_relation_unordered] ∧
    (float64_ordered_quiet float64_compare float64_compare_quiet a64 b64 status).1 =
      relationIn (float64_compare_quiet a64 b64 status).1 [float_relation_less, float_relation_equal, float_relation_greater] ∧
    (float64_eq_unordered_quiet float64_compare float64_compare_quiet a64 b64 status).1 =
      relationIn (float64_compare_quiet a64 b64 status).1 [float_relation_equal, float_relation_unordered] ∧
    (float64_nge_unordered_signalling float64_compare float64_compare_quiet a64 b64 status).1 =
      relationIn (float64_compare a64 b64 status).1 [float_relation_less, float_relation_unordered] ∧
    (float64_ngt_unordered_signalling float64_compare float64_compare_quiet a64 b64 status).1 =
      relationIn (float64_compare a64 b64 status).1 [float_relation_less, float_relation_equal, float_relation_unordered] ∧
    (float64_false_quiet float64_compare float64_compare_quiet a64 b64 status).1 =
      relationIn (float64_compare_quiet a64 b64 status).1 [] ∧
    (float64_neq_ordered_quiet float64_compare float64_compare_quiet a64 b64 status).1 =
      relationIn (float64_compare_quiet a64 b64 status).1 [float_relation_less, float_relation_greater] ∧
    (float64_ge_ordered_signalling float64_compare float64_compare_quiet a64 b64 status).1 =
      relationIn (float64_compare a64 b64 status).1 [float_relation_greater, float_relation_equal] ∧
    (float64_gt_ordered_signalling float64_compare float64_compare_quiet a64 b64 status).1 =
      relationIn (float64_compare a64 b64 status).1 [float_relation_greater] ∧
    (float64_true_quiet float64_compare float64_compare_quiet a64 b64 status).1 =
      relationIn (float64_compare_quiet a64 b64 status).1 [float_relation_less, float_relation_equal, float_relation_greater, float_relation_unordered] ∧
    (float64_eq_ordered_signalling float64_compare float64_compare_quiet a64 b64 status).1 =
      relationIn (float64_compare a64 b64 status).1 [float_relation_equal] ∧
    (float64_lt_ordered_quiet float64_compare float64_compare_quiet a64 b64 status).1 =
      relationIn (float64_compare_quiet a64 b64 status).1 [float_relation_less] ∧
    (float64_le_ordered_quiet float64_compare float64_compare_quiet a64 b64 status).1 =
      relationIn (float64_compare_quiet a64 b64 status).1 [float_relation_less, float_relation_equal] ∧
    (float64_unordered_signalling float64_compare float64_compare_quiet a64 b64 status).1 =
      relationIn (float64_compare a64 b64 status).1 [float_relation_unordered] ∧
    (float64_neq_unordered_signalling float64_compare float64_compare_quiet a64 b64 status).1 =
      relationIn (float64_compare a64 b64 status).1 [float_relation_less, float_relation_greater, float_relation_unordered] ∧
    (float64_nlt_unordered_quiet float64_compare float64_compare_quiet a64 b64 status).1 =
      relationIn (float64_compare_quiet a64 b64 status).1 [float_relation_equal, float_relation_greater, float_relation_unordered] ∧
    (float64_nle_unordered_quiet float64_compare float64_compare_quiet a64 b64 status).1 =
      relationIn (float64_compare_quiet a64 b64 status).1 [float_relation_greater, float_relation_unordered] ∧
    (float64_ordered_signalling float64_compare float64_compare_quiet a64 b64 status).1 =
      relationIn (float64_compare a64 b64 status).1 [float_relation_less, float_relation_equal, float_relation_greater] ∧
    (float64_eq_unordered_signalling float64_compare float64_compare_quiet a64 b64 status).1 =
      relationIn (float64_compare a64 b64 status).1 [float_relation_equal, float_relation_unordered] ∧
    (float64_nge_unordered_quiet float64_compare float64_compare_quiet a64 b64 status).1 =
      relationIn (float64_compare_quiet a64 b64 status).1 [float_relation_less, float_relation_unordered] ∧
    (float64_ngt_unordered_quiet float64_compare float64_compare_quiet a64 b64 status).1 =
      relationIn (float64_compare_quiet a64 b64 status).1 [float_relation_less, float_relation_equal, float_relation_unordered] ∧
    (float64_false_signalling float64_compare float64_compare_quiet a64 b64 status).1 =
      relationIn (float64_compare a64 b64 status).1 [] ∧
    (float64_neq_ordered_signalling float64_compare float64_compare_quiet a64 b64 status).1 =
      relationIn (float64_compare a64 b64 status).1 [float_relation_less, float_relation_greater] ∧
    (float64_ge_ordered_quiet float64_compare float64_compare_quiet a64 b64 status).1 =
      relationIn (float64_compare_quiet a64 b64 status).1 [float_relation_greater, float_relation_equal] ∧
    (float64_gt_ordered_quiet float64_compare float64_compare_quiet a64 b64 status).1 =
      relationIn (float64_compare_quiet a64 b64 status).1 [float_relation_greater] ∧
    (float64_true_signalling float64_compare float64_compare_quiet a64 b64 status).1 =
      relationIn (float64_compare a64 b64 status).1 [float_relation_less, float_relation_equal, float_relation_greater, float_relation_unordered] := by
  simp only [float32_eq_ordered_quiet, float32_lt_ordered_signalling, float32_le_ordered_signalling,
    float32_unordered_quiet, float32_neq_unordered_quiet, float32_nlt_unordered_signalling,
    float32_nle_unordered_signalling, float32_ordered_quiet, float32_eq_unordered_quiet,
    float32_nge_unordered_signalling, float32_ngt_unordered_signalling, float32_false_quiet,
    float32_neq_ordered_quiet, float32_ge_ordered_signalling, float32_gt_ordered_signalling,
    float32_true_quiet, float32_eq_ordered_signalling, float32_lt_ordered_quiet,
    float32_le_ordered_quiet, float32_unordered_signalling, float32_neq_unordered_signalling,
    float32_nlt_unordered_quiet, float32_nle_unordered_quiet, float32_ordered_signalling,
    float32_eq_unordered_signalling, float32_nge_unordered_quiet, float32_ngt_unordered_quiet,
    float32_false_signalling, float32_neq_ordered_signalling, float32_ge_ordered_quiet,
    float32_gt_ordered_quiet, float32_true_signalling, float64_eq_ordered_quiet,
    float64_lt_ordered_signalling, float64_le_ordered_signalling, float64_unordered_quiet,
    float64_neq_unordered_quiet, float64_nlt_unordered_signalling, float64_nle_unordered_signalling,
    float64_ordered_quiet, float64_eq_unordered_quiet, float64_nge_unordered_signalling,
    float64_ngt_unordered_signalling, float64_false_quiet, float64_neq_ordered_quiet,
    float64_ge_ordered_signalling, float64_gt_ordered_signalling, float64_true_quiet,
    float64_eq_ordered_signalling, float64_lt_ordered_quiet, float64_le_ordered_quiet,
    float64_unordered_signalling, float64_neq_unordered_signalling, float64_nlt_unordered_quiet,
    float64_nle_unordered_quiet, float64_ordered_signalling, float64_eq_unordered_signalling,
    float64_nge_unordered_quiet, float64_ngt_unordered_quiet, float64_false_signalling,
    float64_neq_ordered_signalling, float64_ge_ordered_quiet, float64_gt_ordered_quiet,
    float64_true_signalling]
  and_intros
  all_goals
    first
    | (generalize (float32_compare a32 b32 status).1 = r; cases r <;> decide)
    | (generalize (float32_compare_quiet a32 b32 status).1 = r; cases r <;> decide)
    | (generalize (float64_compare a64 b64 status).1 = r; cases r <;> decide)
    | (generalize (float64_compare_quiet a64 b64 status).1 = r; cases r <;> decide)

/-- C2: every predicate named `_quiet` leaves the status that the quiet base
compare leaves, and every predicate named `_signalling` the status that the
signalling base compare leaves, on the same operands and incoming status; the
always-false and always-true forms included. -/
theorem predicates_status_is_base_compare_status
    (float32_compare float32_compare_quiet : float32_base_compare)
    (float64_compare float64_compare_quiet : float64_base_compare)
    (a32 b32 : float32) (a64 b64 : float64) (status : float_status_t) :
    (float32_eq_ordered_quiet float32_compare float32_compare_quiet a32 b32 status).2 = (float32_compare_quiet a32 b32 status).2 ∧
    (float32_lt_ordered_signalling float32_compare float32_compare_quiet a32 b32 status).2 = (float32_compare a32 b32 status).2 ∧
    (float32_le_ordered_signalling float32_compare float32_compare_quiet a32 b32 status).2 = (float32_compare a32 b32 status).2 ∧
    (float32_unordered_quiet float32_compare float32_compare_quiet a32 b32 status).2 = (float32_compare_quiet a32 b32 status).2 ∧
    (float32_neq_unordered_quiet float32_compare float32_compare_quiet a32 b32 status).2 = (float32_compare_quiet a32 b32 status).2 ∧
    (float32_nlt_unordered_signalling float32_compare float32_compare_quiet a32 b32 status).2 = (float32_compare a32 b32 status).2 ∧
    (float32_nle_unordered_signalling float32_compare float32_compare_quiet a32 b32 status).2 = (float32_compare a32 b32 status).2 ∧
    (float32_ordered_quiet float32_compare float32_compare_quiet a32 b32 status).2 = (float32_compare_quiet a32 b32 status).2 ∧
    (float32_eq_unordered_quiet float32_compare float32_compare_quiet a32 b32 status).2 = (float32_compare_quiet a32 b32 status).2 ∧
    (float32_nge_unordered_signalling float32_compare float32_compare_quiet a32 b32 status).2 = (float32_compare a32 b32 status).2 ∧
    (float32_ngt_unordered_signalling float32_compare float32_compare_quiet a32 b32 status).2 = (float32_compare a32 b32 status).2 ∧
    (float32_false_quiet float32_compare float32_compare_quiet a32 b32 status).2 = (float32_compare_quiet a32 b32 status).2 ∧
    (float32_neq_ordered_quiet float32_compare float32_compare_quiet a32 b32 status).2 = (float32_compare_quiet a32 b32 status).2 ∧
    (float32_ge_ordered_signalling float32_compare float32_compare_quiet a32 b32 status).2 = (float32_compare a32 b32 status).2 ∧
    (float32_gt_ordered_signalling float32_compare float32_compare_quiet a32 b32 status).2 = (float32_compare a32 b32 status).2 ∧
    (float32_true_quiet float32_compare float32_compare_quiet a32 b32 status).2 = (float32_compare_quiet a32 b32 status).2 ∧
    (float32_eq_ordered_signalling float32_compare float32_compare_quiet a32 b32 status).2 = (float32_compare a32 b32 status).2 ∧
    (float32_lt_ordered_quiet float32_compare float32_compare_quiet a32 b32 status).2 = (float32_compare_quiet a32 b32 status).2 ∧
    (float32_le_ordered_quiet float32_compare float32_compare_quiet a32 b32 status).2 = (float32_compare_quiet a32 b32 status).2 ∧
    (float32_unordered_signalling float32_compare float32_compare_quiet a32 b32 status).2 = (float32_compare a32 b32 status).2 ∧
    (float32_neq_unordered_signalling float32_compare float32_compare_quiet a32 b32 status).2 = (float32_compare a32 b32 status).2 ∧
    (float32_nlt_unordered_quiet float32_compare float32_compare_quiet a32 b32 status).2 = (float32_compare_quiet a32 b32 status).2 ∧
    (float32_nle_unordered_quiet float32_compare float32_compare_quiet a32 b32 status).2 = (float32_compare_quiet a32 b32 status).2 ∧
    (float32_ordered_signalling float32_compare float32_compare_quiet a32 b32 status).2 = (float32_compare a32 b32 status).2 ∧
    (float32_eq_unordered_signalling float32_compare float32_compare_quiet a32 b32 status).2 = (float32_compare a32 b32 status).2 ∧
    (float32_nge_unordered_quiet float32_compare float32_compare_quiet a32 b32 status).2 = (float32_compare_quiet a32 b32 status).2 ∧
    (float32_ngt_unordered_quiet float32_compare float32_compare_quiet a32 b32 status).2 = (float32_compare_quiet a32 b32 status).2 ∧
    (float32_false_signalling float32_compare float32_compare_quiet a32 b32 status).2 = (float32_compare a32 b32 status).2 ∧
    (float32_neq_ordered_signalling float32_compare float32_compare_quiet a32 b32 status).2 = (float32_compare a32 b32 status).2 ∧
    (float32_ge_ordered_quiet float32_compare float32_compare_quiet a32 b32 status).2 = (float32_compare_quiet a32 b32 status).2 ∧
    (float32_gt_ordered_quiet float32_compare float32_compare_quiet a32 b32 status).2 = (float32_compare_quiet a32 b32 status).2 ∧
    (float32_true_signalling float32_compare float32_compare_quiet a32 b32 status).2 = (float32_compare a32 b32 status).2 ∧
    (float64_eq_ordered_quiet float64_compare float64_compare_quiet a64 b64 status).2 = (float64_compare_quiet a64 b64 status).2 ∧
    (float64_lt_ordered_signalling float64_compare float64_compare_quiet a64 b64 status).2 = (float64_compare a64 b64 status).2 ∧
    (float64_le_ordered_signalling float64_compare float64_compare_quiet a64 b64 status).2 = (float64_compare a64 b64 status).2 ∧
    (float64_unordered_quiet float64_compare float64_compare_quiet a64 b64 status).2 = (float64_compare_quiet a64 b64 status).2 ∧
    (float64_neq_unordered_quiet float64_compare float64_compare_quiet a64 b64 status).2 = (float64_compare_quiet a64 b64 status).2 ∧
    (float64_nlt_unordered_signalling float64_compare float64_compare_quiet a64 b64 status).2 = (float64_compare a64 b64 status).2 ∧
    (float64_nle_unordered_signalling float64_compare float64_compare_quiet a64 b64 status).2 = (float64_compare a64 b64 status).2 ∧
    (float64_ordered_quiet float64_compare float64_compare_quiet a64 b64 status).2 = (float64_compare_quiet a64 b64 status).2 ∧
    (float64_eq_unordered_quiet float64_compare float64_compare_quiet a64 b64 status).2 = (float64_compare_quiet a64 b64 status).2 ∧
    (float64_nge_unordered_signalling float64_compare float64_compare_quiet a64 b64 status).2 = (float64_compare a64 b64 status).2 ∧
    (float64_ngt_unordered_signalling float64_compare float64_compare_quiet a64 b64 status).2 = (float64_compare a64 b64 status).2 ∧
    (float64_false_quiet float64_compare float64_compare_quiet a64 b64 status).2 = (float64_compare_quiet a64 b64 status).2 ∧
    (float64_neq_ordered_quiet float64_compare float64_compare_quiet a64 b64 status).2 = (float64_compare_quiet a64 b64 status).2 ∧
    (float64_ge_ordered_signalling float64_compare float64_compare_quiet a64 b64 status).2 = (float64_compare a64 b64 status).2 ∧
    (float64_gt_ordered_signalling float64_compare float64_compare_quiet a64 b64 status).2 = (float64_compare a64 b64 status).2 ∧
    (float64_true_quiet float64_compare float64_compare_quiet a64 b64 status).2 = (float64_compare_quiet a64 b64 status).2 ∧
    (float64_eq_ordered_signalling float64_compare float64_compare_quiet a64 b64 status).2 = (float64_compare a64 b64 status).2 ∧
    (float64_lt_ordered_quiet float64_compare float64_compare_quiet a64 b64 status).2 = (float64_compare_quiet a64 b64 status).2 ∧
    (float64_le_ordered_quiet float64_compare float64_compare_quiet a64 b64 status).2 = (float64_compare_quiet a64 b64 status).2 ∧
    (float64_unordered_signalling float64_compare float64_compare_quiet a64 b64 status).2 = (float64_compare a64 b64 status).2 ∧
    (float64_neq_unordered_signalling float64_compare float64_compare_quiet a64 b64 status).2 = (float64_compare a64 b64 status).2 ∧
    (float64_nlt_unordered_quiet float64_compare float64_compare_quiet a64 b64 status).2 = (float64_compare_quiet a64 b64 status).2 ∧
    (float64_nle_unordered_quiet float64_compare float64_compare_quiet a64 b64 status).2 = (float64_compare_quiet a64 b64 status).2 ∧
    (float64_ordered_signalling float64_compare float64_compare_quiet a64 b64 status).2 = (float64_compare a64 b64 status).2 ∧
    (float64_eq_unordered_signalling float64_compare float64_compare_quiet a64 b64 status).2 = (float64_compare a64 b64 status).2 ∧
    (float64_nge_unordered_quiet float64_compare float64_compare_quiet a64 b64 status).2 = (float64_compare_quiet a64 b64 status).2 ∧
    (float64_ngt_unordered_quiet float64_compare float64_compare_quiet a64 b64 status).2 = (float64_compare_quiet a64 b64 status).2 ∧
    (float64_false_signalling float64_compare float64_compare_quiet a64 b64 status).2 = (float64_compare a64 b64 status).2 ∧
    (float64_neq_ordered_signalling float64_compare float64_compare_quiet a64 b64 status).2 = (float64_compare a64 b64 status).2 ∧
    (float64_ge_ordered_quiet float64_compare float64_compare_quiet a64 b64 status).2 = (float64_compare_quiet a64 b64 status).2 ∧
    (float64_gt_ordered_quiet float64_compare float64_compare_quiet a64 b64 status).2 = (float64_compare_quiet a64 b64 status).2 ∧
    (float64_true_signalling float64_compare float64_compare_quiet a64 b64 status).2 = (float64_compare a64 b64 status).2 := by
  simp only [float32_eq_ordered_quiet, float32_lt_ordered_signalling, float32_le_ordered_signalling,
    float32_unordered_quiet, float32_neq_unordered_quiet, float32_nlt_unordered_signalling,
    float32_nle_unordered_signalling, float32_ordered_quiet, float32_eq_unordered_quiet,
    float32_nge_unordered_signalling, float32_ngt_unordered_signalling, float32_false_quiet,
    float32_neq_ordered_quiet, float32_ge_ordered_signalling, float32_gt_ordered_signalling,
    float32_true_quiet, float32_eq_ordered_signalling, float32_lt_ordered_quiet,
    float32_le_ordered_quiet, float32_unordered_signalling, float32_neq_unordered_signalling,
    float32_nlt_unordered_quiet, float32_nle_unordered_quiet, float32_ordered_signalling,
    float32_eq_unordered_signalling, float32_nge_unordered_quiet, float32_ngt_unordered_quiet,
    float32_false_signalling, float32_neq_ordered_signalling, float32_ge_ordered_quiet,
    float32_gt_ordered_quiet, float32_true_signalling, float64_eq_ordered_quiet,
    float64_lt_ordered_signalling, float64_le_ordered_signalling, float64_unordered_quiet,
    float64_neq_unordered_quiet, float64_nlt_unordered_signalling, float64_nle_unordered_signalling,
    float64_ordered_quiet, float64_eq_unordered_quiet, float64_nge_unordered_signalling,
    float64_ngt_unordered_signalling, float64_false_quiet, float64_neq_ordered_quiet,
    float64_ge_ordered_signalling, float64_gt_ordered_signalling, float64_true_quiet,
    float64_eq_ordered_signalling, float64_lt_ordered_quiet, float64_le_ordered_quiet,
    float64_unordered_signalling, float64_neq_unordered_signalling, float64_nlt_unordered_quiet,
    float64_nle_unordered_quiet, float64_ordered_signalling, float64_eq_unordered_signalling,
    float64_nge_unordered_quiet, float64_ngt_unordered_quiet, float64_false_signalling,
    float64_neq_ordered_signalling, float64_ge_ordered_quiet, float64_gt_ordered_quiet,
    float64_true_signalling, and_self]

/-! ## Theorems: bit-level facts -/

theorem and_two_pow_eq_zero (x i : Nat) : x &&& 2 ^ i = 0 ↔ x / 2 ^ i % 2 = 0 := by
  rw [Nat.and_two_pow]
  have h := @Nat.testBit_to_div_mod i x
  cases hb : x.testBit i
  · rw [hb] at h
    have : ¬ (x / 2 ^ i % 2 = 1) := by simpa using h.symm
    simp; omega
  · rw [hb] at h
    have : x / 2 ^ i % 2 = 1 := by simpa using h.symm
    simp; omega

theorem and_bit63 (x : Nat) : x &&& 0x8000000000000000 = 0 ↔ x / 2 ^ 63 % 2 = 0 :=
  and_two_pow_eq_zero x 63

theorem and_bit62 (x : Nat) : x &&& 0x4000000000000000 = 0 ↔ x / 2 ^ 62 % 2 = 0 :=
  and_two_pow_eq_zero x 62

theorem and_expmask (x : Nat) : x &&& 0x7FFF = x % 2 ^ 15 :=
  Nat.and_pow_two_sub_one_eq_mod x 15

theorem shl_one_mod (x : Nat) : (x <<< 1) % 2 ^ 64 = 0 ↔ x % 2 ^ 63 = 0 := by
  rw [Nat.shiftLeft_eq]; omega

theorem testBit_iff (x i : Nat) : x.testBit i = true ↔ x / 2 ^ i % 2 = 1 := by
  rw [Nat.testBit_to_div_mod]; simp

theorem testBit_false_iff (x i : Nat) : x.testBit i = false ↔ x / 2 ^ i % 2 = 0 := by
  rw [Nat.testBit_to_div_mod]; simp

/-! ## Theorems: classification -/

/-- The class computed by `floatx80_class`, with the C bit operations replaced
by arithmetic on the two fields. -/
theorem floatx80_class_arith (a : floatx80) :
    floatx80_class a =
      if a.exp % 2 ^ 15 = 0 then
        if a.fraction = 0 then float_zero else float_denormal
      else if a.fraction / 2 ^ 63 % 2 = 0 then float_SNaN
      else if a.exp % 2 ^ 15 = 0x7fff then
        if a.fraction % 2 ^ 63 = 0 then
          if a.exp / 2 ^ 15 ≠ 0 then float_negative_inf else float_positive_inf
        else if a.fraction / 2 ^ 62 % 2 = 0 then float_SNaN else float_QNaN
      else float_normalized := by
  simp only [floatx80_class, extractFloatx80Exp, extractFloatx80Frac, extractFloatx80Sign,
    and_expmask, beq_iff_eq, bne_iff_ne, and_bit63, and_bit62, shl_one_mod,
    Nat.shiftRight_eq_div_pow, Nat.cast_eq_zero, ite_not]
  have h7 : (((a.exp % 2 ^ 15 : Nat) : Int) = 0x7fff) ↔ a.exp % 2 ^ 15 = 0x7fff := by
    omega
  simp only [h7]

/-- C9: `floatx80_class` gives every 80-bit encoding one class, fixed by the
exponent field and the significand as follows: field 0 and significand 0 is a
zero; field 0 and a non-zero significand is a denormal; a non-zero field with
bit 63 clear is a signalling NaN; field 0x7FFF with bit 63 set and bits 62..0
zero is the infinity of the sign bit; field 0x7FFF with bits 63 and 62 set is a
quiet NaN; field 0x7FFF with bit 63 set, bit 62 clear and bits 61..0 not all
zero is a signalling NaN; every other encoding is normalized.  Two encodings
that differ in the sign bit only have the same class unless they are
infinities. -/
theorem floatx80_class_by_fields (a : floatx80) (ha : a.wf) :
    (a.expField = 0 ∧ a.fraction = 0 → floatx80_class a = float_zero) ∧
    (a.expField = 0 ∧ a.fraction ≠ 0 → floatx80_class a = float_denormal) ∧
    (a.expField ≠ 0 ∧ a.sigBit 63 = false → floatx80_class a = float_SNaN) ∧
    (a.expField = 0x7FFF ∧ a.sigBit 63 = true ∧ a.fraction % 2 ^ 63 = 0 →
      floatx80_class a = if a.signBit then float_negative_inf else float_positive_inf) ∧
    (a.expField = 0x7FFF ∧ a.sigBit 63 = true ∧ a.sigBit 62 = true →
      floatx80_class a = float_QNaN) ∧
    (a.expField = 0x7FFF ∧ a.sigBit 63 = true ∧ a.sigBit 62 = false ∧
      a.fraction % 2 ^ 62 ≠ 0 → floatx80_class a = float_SNaN) ∧
    (¬ ((a.expField = 0 ∧ a.fraction = 0) ∨ (a.expField = 0 ∧ a.fraction ≠ 0) ∨
        (a.expField ≠ 0 ∧ a.sigBit 63 = false) ∨
        (a.expField = 0x7FFF ∧ a.sigBit 63 = true ∧ a.fraction % 2 ^ 63 = 0) ∨
        (a.expField = 0x7FFF ∧ a.sigBit 63 = true ∧ a.sigBit 62 = true) ∨
        (a.expField = 0x7FFF ∧ a.sigBit 63 = true ∧ a.sigBit 62 = false ∧
          a.fraction % 2 ^ 62 ≠ 0)) →
      floatx80_class a = float_normalized) ∧
    (∀ b : floatx80, b.wf → b.fraction = a.fraction → b.expField = a.expField →
      (floatx80_class a).isInf = false → floatx80_class b = floatx80_class a) := by
  obtain ⟨hf, he⟩ := ha
  have hsign : a.signBit = true ↔ a.exp / 2 ^ 15 ≠ 0 := by
    unfold floatx80.signBit; rw [testBit_iff]; omega
  refine ⟨?_, ?_, ?_, ?_, ?_, ?_, ?_, ?_⟩
  · rintro ⟨h1, h2⟩
    simp only [floatx80.expField] at h1
    rw [floatx80_class_arith, if_pos h1, if_pos h2]
  · rintro ⟨h1, h2⟩
    simp only [floatx80.expField] at h1
    rw [floatx80_class_arith, if_pos h1, if_neg h2]
  · rintro ⟨h1, h2⟩
    simp only [floatx80.expField, floatx80.sigBit, testBit_false_iff] at h1 h2
    rw [floatx80_class_arith, if_neg h1, if_pos h2]
  · rintro ⟨h1, h2, h3⟩
    simp only [floatx80.expField, floatx80.sigBit, testBit_iff] at h1 h2
    have h0 : ¬ a.exp % 2 ^ 15 = 0 := by omega
    have h63 : ¬ a.fraction / 2 ^ 63 % 2 = 0 := by omega
    rw [floatx80_class_arith, if_neg h0, if_neg h63, if_pos h1, if_pos h3]
    by_cases hs : a.signBit = true
    · rw [if_pos (hsign.mp hs), if_pos hs]
    · rw [if_neg (fun h => hs (hsign.mpr h)), if_neg hs]
  · rintro ⟨h1, h2, h3⟩
    simp only [floatx80.expField, floatx80.sigBit, testBit_iff] at h1 h2 h3
    have h0 : ¬ a.exp % 2 ^ 15 = 0 := by omega
    have h63 : ¬ a.fraction / 2 ^ 63 % 2 = 0 := by omega
    have hz : ¬ a.fraction % 2 ^ 63 = 0 := by omega
    have h62 : ¬ a.fraction / 2 ^ 62 % 2 = 0 := by omega
    rw [floatx80_class_arith, if_neg h0, if_neg h63, if_pos h1, if_neg hz, if_neg h62]
  · rintro ⟨h1, h2, h3, h4⟩
    simp only [floatx80.expField, floatx80.sigBit, testBit_iff, testBit_false_iff] at h1 h2 h3
    have h0 : ¬ a.exp % 2 ^ 15 = 0 := by omega
    have h63 : ¬ a.fraction / 2 ^ 63 % 2 = 0 := by omega
    have hz : ¬ a.fraction % 2 ^ 63 = 0 := by omega
    rw [floatx80_class_arith, if_neg h0, if_neg h63, if_pos h1, if_neg hz, if_pos h3]
  · intro h
    simp only [floatx80.expField, floatx80.sigBit, testBit_iff, testBit_false_iff,
      not_or, not_and] at h
    obtain ⟨n1, n2, n3, n4, n5, n6⟩ := h
    have h0 : ¬ a.exp % 2 ^ 15 = 0 := by
      intro h0
      by_cases hz : a.fraction = 0
      · exact n1 h0 hz
      · exact n2 h0 hz
    have h63 : ¬ a.fraction / 2 ^ 63 % 2 = 0 := fun h => n3 h0 h
    have h63b : a.fraction / 2 ^ 63 % 2 = 1 := by omega
    have h7 : ¬ a.exp % 2 ^ 15 = 0x7fff := by
      intro h7
      by_cases hz : a.fraction % 2 ^ 63 = 0
      · exact n4 h7 h63b hz
      · by_cases h62 : a.fraction / 2 ^ 62 % 2 = 1
        · exact n5 h7 h63b h62
        · exact n6 h7 h63b (by omega) (by omega)
    rw [floatx80_class_arith, if_neg h0, if_neg h63, if_neg h7]
  · intro b _ hbf hbe hinf
    simp only [floatx80.expField] at hbe
    rw [floatx80_class_arith a] at hinf ⊢
    rw [floatx80_class_arith b, hbf, hbe]
    by_cases h0 : a.exp % 2 ^ 15 = 0
    · simp only [if_pos h0]
    · by_cases h63 : a.fraction / 2 ^ 63 % 2 = 0
      · simp only [if_neg h0, if_pos h63]
      · by_cases h7 : a.exp % 2 ^ 15 = 0x7fff
        · by_cases hz : a.fraction % 2 ^ 63 = 0
          · exfalso
            simp only [if_neg h0, if_neg h63, if_pos h7, if_pos hz] at hinf
            by_cases hs : a.exp / 2 ^ 15 ≠ 0
            · rw [if_pos hs] at hinf; exact absurd hinf (by decide)
            · rw [if_neg hs] at hinf; exact absurd hinf (by decide)
          · simp only [if_neg h0, if_neg h63, if_pos h7, if_neg hz]
        · simp only [if_neg h0, if_neg h63, if_neg h7]

/-- Witness for C9 at negative infinity. -/
theorem floatx80_class_by_fields_witness :
    (⟨0x8000000000000000, 0xFFFF⟩ : floatx80).wf ∧
    floatx80_class ⟨0x8000000000000000, 0xFFFF⟩ = float_negative_inf :=
  ⟨by decide,
   (floatx80_class_by_fields ⟨0x8000000000000000, 0xFFFF⟩ (by decide)).2.2.2.1
     ⟨by decide, by decide, by decide⟩⟩

/-! ## Theorems: floatx80_compare, NaN operands and flags -/

theorem and_two_pow_ne_zero (x i : Nat) : x &&& 2 ^ i ≠ 0 ↔ x.testBit i = true := by
  rw [Ne, and_two_pow_eq_zero, testBit_iff]; omega

theorem flagSet_invalid (s : float_status_t) :
    flagSet s float_flag_invalid ↔ s.float_exception_flags.testBit 0 = true :=
  and_two_pow_ne_zero _ 0

theorem flagSet_denormal (s : float_status_t) :
    flagSet s float_flag_denormal ↔ s.float_exception_flags.testBit 1 = true :=
  and_two_pow_ne_zero _ 1

theorem flagsKept_refl (s : float_status_t) : flagsKept s s := fun _ h => h

theorem flagsKept_trans {s t u : float_status_t} (h1 : flagsKept s t) (h2 : flagsKept t u) :
    flagsKept s u := fun i h => h2 i (h1 i h)

theorem flagsKept_raise (s : float_status_t) (f : Nat) : flagsKept s (float_raise s f) := by
  intro i h
  simp only [float_raise, Nat.testBit_or, h, Bool.true_or]

theorem testBit_one_zero : Nat.testBit 1 0 = true := by decide

theorem testBit_two_zero : Nat.testBit 2 0 = false := by decide

/-- C3: `floatx80_compare` returns one of the four relations, and it returns
unordered exactly when an operand classifies as a quiet or a signalling NaN;
an unsupported operand (non-zero exponent field, bit 63 clear) classifies as
a signalling NaN and so makes the result unordered. -/
theorem floatx80_compare_unordered_iff (a b : floatx80) (quiet : Int)
    (status : float_status_t) :
    ((floatx80_compare a b quiet status).1 = float_relation_less ∨
      (floatx80_compare a b quiet status).1 = float_relation_equal ∨
      (floatx80_compare a b quiet status).1 = float_relation_greater ∨
      (floatx80_compare a b quiet status).1 = float_relation_unordered) ∧
    ((floatx80_compare a b quiet status).1 = float_relation_unordered ↔
      ((floatx80_class a).isNaN = true ∨ (floatx80_class b).isNaN = true)) ∧
    ((a.expField ≠ 0 ∧ a.sigBit 63 = false) ∨ (b.expField ≠ 0 ∧ b.sigBit 63 = false) →
      (floatx80_class a = float_SNaN ∨ floatx80_class b = float_SNaN) ∧
      (floatx80_compare a b quiet status).1 = float_relation_unordered) := by
  have hiff : (floatx80_compare a b quiet status).1 = float_relation_unordered ↔
      ((floatx80_class a).isNaN = true ∨ (floatx80_class b).isNaN = true) := by
    simp only [floatx80_compare]
    generalize floatx80_class a = ca
    generalize floatx80_class b = cb
    cases ca <;> cases cb <;> simp [float_class_t.isNaN] <;> split_ifs <;> simp
  have hunsup : ∀ x : floatx80, x.expField ≠ 0 ∧ x.sigBit 63 = false →
      floatx80_class x = float_SNaN := by
    rintro x ⟨h1, h2⟩
    simp only [floatx80.expField, floatx80.sigBit, testBit_false_iff] at h1 h2
    rw [floatx80_class_arith, if_neg h1, if_pos h2]
  refine ⟨?_, hiff, ?_⟩
  · cases (floatx80_compare a b quiet status).1 <;> simp
  · intro h
    have hc : floatx80_class a = float_SNaN ∨ floatx80_class b = float_SNaN :=
      h.imp (hunsup a) (hunsup b)
    refine ⟨hc, hiff.mpr ?_⟩
    rcases hc with hc | hc
    · left; rw [hc]; rfl
    · right; rw [hc]; rfl

/-- Witness for C3: an unsupported first operand. -/
theorem floatx80_compare_unordered_iff_witness :
    ((⟨0, 1⟩ : floatx80).expField ≠ 0 ∧ (⟨0, 1⟩ : floatx80).sigBit 63 = false) ∧
    (floatx80_class ⟨0, 1⟩ = float_SNaN ∨ floatx80_class ⟨0, 0⟩ = float_SNaN) ∧
    (floatx80_compare ⟨0, 1⟩ ⟨0, 0⟩ 1 ⟨0, 0⟩).1 = float_relation_unordered :=
  ⟨⟨by decide, by decide⟩,
   (floatx80_compare_unordered_iff ⟨0, 1⟩ ⟨0, 0⟩ 1 ⟨0, 0⟩).2.2
     (Or.inl ⟨by decide, by decide⟩)⟩

/-- C4: after `floatx80_compare` the invalid flag is set exactly when it was
set before or the call raised it, and the call raises it exactly when an
operand classifies as a signalling NaN, or `quiet` is 0 and an operand
classifies as a quiet NaN.  With `quiet` non-zero and two quiet NaNs the result
is unordered and the status is left as it was. -/
theorem floatx80_compare_invalid_iff (a b : floatx80) (quiet : Int)
    (status : float_status_t) :
    (flagSet (floatx80_compare a b quiet status).2 float_flag_invalid ↔
      (flagSet status float_flag_invalid ∨
        floatx80_class a = float_SNaN ∨ floatx80_class b = float_SNaN ∨
        (quiet = 0 ∧ (floatx80_class a = float_QNaN ∨ floatx80_class b = float_QNaN)))) ∧
    (quiet ≠ 0 → floatx80_class a = float_QNaN → floatx80_class b = float_QNaN →
      floatx80_compare a b quiet status = (float_relation_unordered, status)) := by
  constructor
  · simp only [flagSet_invalid, floatx80_compare]
    generalize floatx80_class a = ca
    generalize floatx80_class b = cb
    by_cases hq : quiet = 0 <;>
    cases ca <;> cases cb <;>
    simp [hq, float_raise, float_flag_invalid, float_flag_denormal, Nat.testBit_or,
      testBit_one_zero, testBit_two_zero] <;>
    split_ifs <;> simp
  · intro hq ha hb
    simp [floatx80_compare, ha, hb, hq]

/-- Witness for C4: a quiet compare of two quiet NaNs. -/
theorem floatx80_compare_invalid_iff_witness :
    (1 : Int) ≠ 0 ∧
    floatx80_class ⟨0xC000000000000000, 0x7FFF⟩ = float_QNaN ∧
    floatx80_class ⟨0xC000000000000001, 0xFFFF⟩ = float_QNaN ∧
    floatx80_compare ⟨0xC000000000000000, 0x7FFF⟩ ⟨0xC000000000000001, 0xFFFF⟩ 1 ⟨0, 0⟩ =
      (float_relation_unordered, ⟨0, 0⟩) :=
  ⟨by decide, by decide, by decide,
   (floatx80_compare_invalid_iff ⟨0xC000000000000000, 0x7FFF⟩ ⟨0xC000000000000001, 0xFFFF⟩ 1
      ⟨0, 0⟩).2 (by decide) (by decide) (by decide)⟩

/-- C6: `floatx80_compare` and `floatx80_extract` never clear a status flag:
every exception flag set before the call is set after it.  The absent helper
`propagateFloatx80NaN`, which `floatx80_extract` hands the status to for NaN
operands, is assumed to keep flags as well. -/
theorem compare_extract_keep_flags
    (propagateFloatx80NaN : floatx80 → float_status_t → floatx80 × float_status_t)
    (int32_to_floatx80 : Int → floatx80)
    (hprop : ∀ x s, flagsKept s (propagateFloatx80NaN x s).2)
    (a b : floatx80) (quiet : Int) (status : float_status_t) :
    flagsKept status (floatx80_compare a b quiet status).2 ∧
    flagsKept status
      (floatx80_extract propagateFloatx80NaN int32_to_floatx80 a status).2.2 := by
  constructor
  · simp only [floatx80_compare]
    split_ifs <;>
    first
    | exact flagsKept_refl _
    | exact flagsKept_raise _ _
  · simp only [floatx80_extract]
    split_ifs <;>
    first
    | exact flagsKept_refl _
    | exact flagsKept_raise _ _
    | exact hprop _ _

theorem flagsKept_propagate_model (x : floatx80) (s : float_status_t) :
    flagsKept s (propagateFloatx80NaN_model x s).2 := by
  simp only [propagateFloatx80NaN_model]
  split_ifs <;> first | exact flagsKept_refl _ | exact flagsKept_raise _ _

/-- Witness for C6: two denormals compared, and a signalling NaN extracted. -/
theorem compare_extract_keep_flags_witness :
    (∀ x s, flagsKept s (propagateFloatx80NaN_model x s).2) ∧
    flagsKept ⟨0, 0x20⟩ (floatx80_compare ⟨1, 0⟩ ⟨2, 0⟩ 0 ⟨0, 0x20⟩).2 ∧
    flagsKept ⟨0, 0x20⟩
      (floatx80_extract propagateFloatx80NaN_model int32_to_floatx80_model ⟨1, 0⟩
        ⟨0, 0x20⟩).2.2 :=
  ⟨flagsKept_propagate_model,
   compare_extract_keep_flags propagateFloatx80NaN_model int32_to_floatx80_model
     flagsKept_propagate_model ⟨1, 0⟩ ⟨2, 0⟩ 0 ⟨0, 0x20⟩⟩

/-! ## Theorems: floatx80_extract on denormals -/

theorem countLeadingZerosBelow_spec (w a : Nat) (h0 : a ≠ 0) (hlt : a < 2 ^ (w + 1)) :
    2 ^ w ≤ a * 2 ^ countLeadingZerosBelow (w + 1) a ∧
    a * 2 ^ countLeadingZerosBelow (w + 1) a < 2 ^ (w + 1) := by
  induction w with
  | zero =>
    have : a = 1 := by omega
    subst this
    decide
  | succ w ih =>
    by_cases h : a < 2 ^ (w + 1)
    · obtain ⟨h1, h2⟩ := ih h
      have e : countLeadingZerosBelow (w + 1 + 1) a = 1 + countLeadingZerosBelow (w + 1) a := by
        rw [countLeadingZerosBelow, if_pos h]
      have e2 : a * 2 ^ (1 + countLeadingZerosBelow (w + 1) a) =
          2 * (a * 2 ^ countLeadingZerosBelow (w + 1) a) := by
        rw [pow_add]; ring
      have p1 : 2 ^ (w + 1) = 2 * 2 ^ w := by rw [pow_succ]; ring
      have p2 : 2 ^ (w + 1 + 1) = 2 * 2 ^ (w + 1) := by rw [pow_succ]; ring
      rw [e, e2, p2]
      constructor <;> omega
    · have e : countLeadingZerosBelow (w + 1 + 1) a = 0 := by
        rw [countLeadingZerosBelow, if_neg h]
      rw [e, pow_zero, mul_one]
      exact ⟨by omega, hlt⟩

theorem countLeadingZeros64_spec (a : Nat) (h0 : a ≠ 0) (hlt : a < 2 ^ 64) :
    2 ^ 63 ≤ a * 2 ^ countLeadingZeros64 a ∧ a * 2 ^ countLeadingZeros64 a < 2 ^ 64 :=
  countLeadingZerosBelow_spec 63 a h0 hlt

theorem countLeadingZeros64_le (a : Nat) : countLeadingZeros64 a ≤ 64 := by
  have : ∀ w, countLeadingZerosBelow w a ≤ w := by
    intro w
    induction w with
    | zero => simp [countLeadingZerosBelow]
    | succ w ih =>
      rw [countLeadingZerosBelow]
      split_ifs <;> omega
  exact this 64

/-- C10: for a denormal operand (exponent field 0, non-zero significand, either
sign) `floatx80_extract` raises the denormal flag and stores the operand back
normalised: with `n` the number of leading zero bits of the significand, the
stored operand has the same sign, exponent field 0x3FFF and the significand
shifted left by `n`, whose bit 63 is set; the value returned is the integer
`1 - n - 0x3FFF` converted to extended precision. -/
theorem floatx80_extract_denormal
    (propagateFloatx80NaN : floatx80 → float_status_t → floatx80 × float_status_t)
    (int32_to_floatx80 : Int → floatx80)
    (a : floatx80) (status : float_status_t)
    (ha : a.wf) (he : a.expField = 0) (hs : a.fraction ≠ 0) :
    (floatx80_extract propagateFloatx80NaN int32_to_floatx80 a status).1 =
      int32_to_floatx80 (1 - (countLeadingZeros64 a.fraction : Int) - 0x3FFF) ∧
    (floatx80_extract propagateFloatx80NaN int32_to_floatx80 a status).2.1.signBit =
      a.signBit ∧
    (floatx80_extract propagateFloatx80NaN int32_to_floatx80 a status).2.1.expField =
      0x3FFF ∧
    (floatx80_extract propagateFloatx80NaN int32_to_floatx80 a status).2.1.fraction =
      a.fraction * 2 ^ countLeadingZeros64 a.fraction ∧
    (floatx80_extract propagateFloatx80NaN int32_to_floatx80 a status).2.1.fraction <
      2 ^ 64 ∧
    (floatx80_extract propagateFloatx80NaN int32_to_floatx80 a status).2.1.sigBit 63 =
      true ∧
    (floatx80_extract propagateFloatx80NaN int32_to_floatx80 a status).2.2 =
      float_raise status float_flag_denormal ∧
    flagSet (floatx80_extract propagateFloatx80NaN int32_to_floatx80 a status).2.2
      float_flag_denormal := by
  obtain ⟨hf, hx⟩ := ha
  simp only [floatx80.expField] at he
  obtain ⟨hlo, hhi⟩ := countLeadingZeros64_spec a.fraction hs hf
  have hmask : a.exp &&& 0x7FFF = 0 := by rw [and_expmask]; exact he
  have hshift : (a.fraction <<< countLeadingZeros64 a.fraction) % 2 ^ 64 =
      a.fraction * 2 ^ countLeadingZeros64 a.fraction := by
    rw [Nat.shiftLeft_eq]; exact Nat.mod_eq_of_lt hhi
  have hshift2 : (a.fraction <<< countLeadingZeros64 a.fraction) % 18446744073709551616 =
      a.fraction * 2 ^ countLeadingZeros64 a.fraction := hshift
  have hval : floatx80_extract propagateFloatx80NaN int32_to_floatx80 a status =
      (int32_to_floatx80 (1 - (countLeadingZeros64 a.fraction : Int) - 0x3FFF),
       { fraction := a.fraction * 2 ^ countLeadingZeros64 a.fraction,
         exp := ((a.exp >>> 15 <<< 15) + 0x3FFF) % 2 ^ 16 },
       float_raise status float_flag_denormal) := by
    simp [floatx80_extract, floatx80_is_unsupported, extractFloatx80Exp, extractFloatx80Frac,
      extractFloatx80Sign, normalizeFloatx80Subnormal, hmask, hs, hshift2]
  rw [hval]
  have hexp : ((a.exp >>> 15 <<< 15) + 0x3FFF) % 2 ^ 16 = a.exp + 0x3FFF := by
    rw [Nat.shiftLeft_eq, Nat.shiftRight_eq_div_pow]; omega
  refine ⟨rfl, ?_, ?_, rfl, hhi, ?_, rfl, ?_⟩
  · simp only [floatx80.signBit, hexp]
    rw [Bool.eq_iff_iff, testBit_iff, testBit_iff]; omega
  · simp only [floatx80.expField, hexp]; omega
  · simp only [floatx80.sigBit]
    rw [testBit_iff]
    generalize a.fraction * 2 ^ countLeadingZeros64 a.fraction = x at hlo hhi
    omega
  · rw [flagSet_denormal]
    simp only [float_raise, float_flag_denormal, Nat.testBit_or]
    simp
    right; decide

/-- Witness for C10: the smallest negative denormal. -/
theorem floatx80_extract_denormal_witness :
    (⟨1, 0x8000⟩ : floatx80).wf ∧ (⟨1, 0x8000⟩ : floatx80).expField = 0 ∧
    (⟨1, 0x8000⟩ : floatx80).fraction ≠ 0 ∧
    (floatx80_extract propagateFloatx80NaN_model int32_to_floatx80_model ⟨1, 0x8000⟩
      ⟨0, 0⟩).2.1.fraction = 1 * 2 ^ countLeadingZeros64 1 :=
  ⟨by decide, by decide, by decide,
   (floatx80_extract_denormal propagateFloatx80NaN_model int32_to_floatx80_model
      ⟨1, 0x8000⟩ ⟨0, 0⟩ (by decide) (by decide) (by decide)).2.2.2.1⟩

/-! ## Theorems: conversion to 16-bit integers -/

theorem floatx80_is_unsupported_iff (a : floatx80) :
    floatx80_is_unsupported a = true ↔ (a.expField ≠ 0 ∧ a.sigBit 63 = false) := by
  simp only [floatx80_is_unsupported, floatx80.expField, floatx80.sigBit, Bool.and_eq_true,
    bne_iff_ne, beq_iff_eq, and_expmask, and_bit63, testBit_false_iff]

theorem flagSet_invalid_of_eq (s : float_status_t) (h : s.float_exception_flags = 1) :
    flagSet s float_flag_invalid := by
  unfold flagSet; rw [h]; decide

theorem flagSet_invalid_raise (s : float_status_t) :
    flagSet (float_raise s float_flag_invalid) float_flag_invalid := by
  rw [flagSet_invalid]
  simp only [float_raise, float_flag_invalid, Nat.testBit_or, testBit_one_zero, Bool.or_true]

/-- C8: `floatx80_to_int16` and `floatx80_to_int16_round_to_zero` return the
16-bit integer indefinite (bit pattern 0x8000) with the invalid flag set when
the operand is an unsupported encoding or the result of the 32-bit conversion
lies outside [-32768, 32767]; in every other case they return the result and
the status of the 32-bit conversion unchanged. -/
theorem floatx80_to_int16_result
    (floatx80_to_int32 floatx80_to_int32_round_to_zero :
      floatx80 → float_status_t → Int × float_status_t)
    (a : floatx80) (status : float_status_t) :
    int16_indefinite % 2 ^ 16 = 0x8000 ∧
    (((a.expField ≠ 0 ∧ a.sigBit 63 = false) ∨
        (floatx80_to_int32 a status).1 > 32767 ∨ (floatx80_to_int32 a status).1 < -32768) →
      (floatx80_to_int16 floatx80_to_int32 a status).1 = int16_indefinite ∧
      flagSet (floatx80_to_int16 floatx80_to_int32 a status).2 float_flag_invalid) ∧
    (¬ ((a.expField ≠ 0 ∧ a.sigBit 63 = false) ∨
        (floatx80_to_int32 a status).1 > 32767 ∨ (floatx80_to_int32 a status).1 < -32768) →
      floatx80_to_int16 floatx80_to_int32 a status = floatx80_to_int32 a status) ∧
    (((a.expField ≠ 0 ∧ a.sigBit 63 = false) ∨
        (floatx80_to_int32_round_to_zero a status).1 > 32767 ∨
        (floatx80_to_int32_round_to_zero a status).1 < -32768) →
      (floatx80_to_int16_round_to_zero floatx80_to_int32_round_to_zero a status).1 =
        int16_indefinite ∧
      flagSet (floatx80_to_int16_round_to_zero floatx80_to_int32_round_to_zero a status).2
        float_flag_invalid) ∧
    (¬ ((a.expField ≠ 0 ∧ a.sigBit 63 = false) ∨
        (floatx80_to_int32_round_to_zero a status).1 > 32767 ∨
        (floatx80_to_int32_round_to_zero a status).1 < -32768) →
      floatx80_to_int16_round_to_zero floatx80_to_int32_round_to_zero a status =
        floatx80_to_int32_round_to_zero a status) := by
  have key : ∀ conv : floatx80 → float_status_t → Int × float_status_t,
      (((a.expField ≠ 0 ∧ a.sigBit 63 = false) ∨
          (conv a status).1 > 32767 ∨ (conv a status).1 < -32768) →
        (floatx80_to_int16 conv a status).1 = int16_indefinite ∧
        flagSet (floatx80_to_int16 conv a status).2 float_flag_invalid) ∧
      (¬ ((a.expField ≠ 0 ∧ a.sigBit 63 = false) ∨
          (conv a status).1 > 32767 ∨ (conv a status).1 < -32768) →
        floatx80_to_int16 conv a status = conv a status) := by
    intro conv
    rw [← floatx80_is_unsupported_iff]
    simp only [floatx80_to_int16]
    by_cases hu : floatx80_is_unsupported a = true
    · simp only [hu, if_true, true_or, not_true_eq_false, false_implies, and_true,
        forall_const, true_and]
      exact flagSet_invalid_raise status
    · by_cases hr : (conv a status).1 > 32767 ∨ (conv a status).1 < -32768
      · have hb : (decide ((conv a status).1 > 32767) || decide ((conv a status).1 < -32768))
            = true := by simpa using hr
        simp only [hu, hb, hr, if_true, or_true, not_true_eq_false, false_implies, and_true,
          forall_const, true_and, Bool.false_eq_true, if_false]
        exact flagSet_invalid_of_eq _ rfl
      · have hb : (decide ((conv a status).1 > 32767) || decide ((conv a status).1 < -32768))
            = false := by
          rw [Bool.eq_false_iff]; simpa using hr
        simp [hu, hb, hr]
  have same : ∀ conv : floatx80 → float_status_t → Int × float_status_t,
      floatx80_to_int16_round_to_zero conv a status = floatx80_to_int16 conv a status := by
    intro conv; rfl
  refine ⟨by decide, (key floatx80_to_int32).1, (key floatx80_to_int32).2, ?_, ?_⟩
  · rw [same]; exact (key floatx80_to_int32_round_to_zero).1
  · rw [same]; exact (key floatx80_to_int32_round_to_zero).2

/-- Witness for C8: 65536.0 does not fit in 16 bits. -/
theorem floatx80_to_int16_result_witness :
    (floatx80_to_int32_model ⟨0x8000000000000000, 0x400F⟩ ⟨0, 0⟩).1 > 32767 ∧
    (floatx80_to_int16 floatx80_to_int32_model ⟨0x8000000000000000, 0x400F⟩ ⟨0, 0⟩).1 =
      int16_indefinite ∧
    flagSet (floatx80_to_int16 floatx80_to_int32_model ⟨0x8000000000000000, 0x400F⟩ ⟨0, 0⟩).2
      float_flag_invalid :=
  ⟨by decide,
   (floatx80_to_int16_result floatx80_to_int32_model floatx80_to_int32_round_to_zero_model
      ⟨0x8000000000000000, 0x400F⟩ ⟨0, 0⟩).2.1 (Or.inr (Or.inl (by decide)))⟩

/-- C7, as stated, fails: converting 65536.0 with the inexact flag already set
leaves only the invalid flag, in both 16-bit conversions. -/
theorem floatx80_to_int16_drops_set_flag :
    flagSet ⟨0, 0x20⟩ float_flag_inexact ∧
    (floatx80_to_int16 floatx80_to_int32_model ⟨0x8000000000000000, 0x400F⟩ ⟨0, 0x20⟩).2 =
      ⟨0, 0x01⟩ ∧
    ¬ flagSet
      (floatx80_to_int16 floatx80_to_int32_model ⟨0x8000000000000000, 0x400F⟩ ⟨0, 0x20⟩).2
      float_flag_inexact ∧
    ¬ flagsKept ⟨0, 0x20⟩
      (floatx80_to_int16 floatx80_to_int32_model ⟨0x8000000000000000, 0x400F⟩ ⟨0, 0x20⟩).2 ∧
    ¬ flagsKept ⟨0, 0x20⟩
      (floatx80_to_int16_round_to_zero floatx80_to_int32_round_to_zero_model
        ⟨0x8000000000000000, 0x400F⟩ ⟨0, 0x20⟩).2 := by
  refine ⟨by decide, by decide, by decide, ?_, ?_⟩
  · intro h
    exact absurd (h 5 (by decide)) (by decide)
  · intro h
    exact absurd (h 5 (by decide)) (by decide)

/-- C7, amended: the two 16-bit conversions keep every flag set before the call
when the operand is an unsupported encoding or the 32-bit result fits in 16
bits, the 32-bit conversion keeping flags itself; when the operand is
supported and the 32-bit result does not fit, the exception flags after the
call are exactly the invalid flag. -/
theorem floatx80_to_int16_flags
    (floatx80_to_int32 floatx80_to_int32_round_to_zero :
      floatx80 → float_status_t → Int × float_status_t)
    (h32 : ∀ x s, flagsKept s (floatx80_to_int32 x s).2)
    (h32z : ∀ x s, flagsKept s (floatx80_to_int32_round_to_zero x s).2)
    (a : floatx80) (status : float_status_t) :
    (((a.expField ≠ 0 ∧ a.sigBit 63 = false) ∨
        (-32768 ≤ (floatx80_to_int32 a status).1 ∧ (floatx80_to_int32 a status).1 ≤ 32767)) →
      flagsKept status (floatx80_to_int16 floatx80_to_int32 a status).2) ∧
    (¬ (a.expField ≠ 0 ∧ a.sigBit 63 = false) ∧
        ((floatx80_to_int32 a status).1 > 32767 ∨ (floatx80_to_int32 a status).1 < -32768) →
      (floatx80_to_int16 floatx80_to_int32 a status).2.float_exception_flags =
        float_flag_invalid) ∧
    (((a.expField ≠ 0 ∧ a.sigBit 63 = false) ∨
        (-32768 ≤ (floatx80_to_int32_round_to_zero a status).1 ∧
          (floatx80_to_int32_round_to_zero a status).1 ≤ 32767)) →
      flagsKept status
        (floatx80_to_int16_round_to_zero floatx80_to_int32_round_to_zero a status).2) ∧
    (¬ (a.expField ≠ 0 ∧ a.sigBit 63 = false) ∧
        ((floatx80_to_int32_round_to_zero a status).1 > 32767 ∨
          (floatx80_to_int32_round_to_zero a status).1 < -32768) →
      (floatx80_to_int16_round_to_zero floatx80_to_int32_round_to_zero a
        status).2.float_exception_flags = float_flag_invalid) := by
  have key : ∀ conv : floatx80 → float_status_t → Int × float_status_t,
      (∀ x s, flagsKept s (conv x s).2) →
      (((a.expField ≠ 0 ∧ a.sigBit 63 = false) ∨
          (-32768 ≤ (conv a status).1 ∧ (conv a status).1 ≤ 32767)) →
        flagsKept status (floatx80_to_int16 conv a status).2) ∧
      (¬ (a.expField ≠ 0 ∧ a.sigBit 63 = false) ∧
          ((conv a status).1 > 32767 ∨ (conv a status).1 < -32768) →
        (floatx80_to_int16 conv a status).2.float_exception_flags = float_flag_invalid) := by
    intro conv hconv
    rw [← floatx80_is_unsupported_iff]
    simp only [floatx80_to_int16]
    by_cases hu : floatx80_is_unsupported a = true
    · simp only [hu, if_true, not_true_eq_false, false_and, false_implies, and_true]
      intro _
      exact flagsKept_raise _ _
    · by_cases hr : (conv a status).1 > 32767 ∨ (conv a status).1 < -32768
      · have hb : (decide ((conv a status).1 > 32767) || decide ((conv a status).1 < -32768))
            = true := by simpa using hr
        simp only [hu, hb, if_true, Bool.false_eq_true, if_false]
        refine ⟨?_, fun _ => trivial⟩
        rintro (h | ⟨h1, h2⟩)
        · exact absurd h (by simp)
        · omega
      · have hb : (decide ((conv a status).1 > 32767) || decide ((conv a status).1 < -32768))
            = false := by
          rw [Bool.eq_false_iff]; simpa using hr
        simp only [hu, hb, Bool.false_eq_true, if_false]
        refine ⟨fun _ => hconv a status, ?_⟩
        rintro ⟨_, h⟩
        exact absurd h hr
  have same : ∀ conv : floatx80 → float_status_t → Int × float_status_t,
      floatx80_to_int16_round_to_zero conv a status = floatx80_to_int16 conv a status := by
    intro conv; rfl
  refine ⟨(key _ h32).1, (key _ h32).2, ?_, ?_⟩
  · rw [same]; exact (key _ h32z).1
  · rw [same]; exact (key _ h32z).2

theorem flagsKept_to_int32_mode (mode : Nat) (x : floatx80) (s : float_status_t) :
    flagsKept s (floatx80_to_int32_mode mode x s).2 := by
  simp only [floatx80_to_int32_mode]
  split_ifs <;> first | exact flagsKept_refl _ | exact flagsKept_raise _ _

/-- Witness for the amended C7: 3.0 fits in 16 bits and the inexact flag set
before the call is kept. -/
theorem floatx80_to_int16_flags_witness :
    (∀ x s, flagsKept s (floatx80_to_int32_model x s).2) ∧
    (∀ x s, flagsKept s (floatx80_to_int32_round_to_zero_model x s).2) ∧
    flagsKept ⟨0, 0x20⟩
      (floatx80_to_int16 floatx80_to_int32_model ⟨0xC000000000000000, 0x4000⟩ ⟨0, 0x20⟩).2 :=
  ⟨fun x s => flagsKept_to_int32_mode _ x s, fun x s => flagsKept_to_int32_mode _ x s,
   (floatx80_to_int16_flags floatx80_to_int32_model floatx80_to_int32_round_to_zero_model
      (fun x s => flagsKept_to_int32_mode _ x s) (fun x s => flagsKept_to_int32_mode _ x s)
      ⟨0xC000000000000000, 0x4000⟩ ⟨0, 0x20⟩).1 (Or.inr (by decide))⟩

/-! ## Theorems: floatx80_compare orders the denoted values -/

theorem class_expField_zero_iff (a : floatx80) :
    (floatx80_class a = float_zero ∨ floatx80_class a = float_denormal) ↔
      a.exp % 2 ^ 15 = 0 := by
  rw [floatx80_class_arith]
  by_cases h0 : a.exp % 2 ^ 15 = 0
  · refine ⟨fun _ => h0, fun _ => ?_⟩
    rw [if_pos h0]
    by_cases hz : a.fraction = 0
    · left; rw [if_pos hz]
    · right; rw [if_neg hz]
  · refine ⟨fun h => ?_, fun h => absurd h h0⟩
    rw [if_neg h0] at h
    exfalso
    split_ifs at h <;> simp at h

theorem compare_key_eq (a : floatx80) (hz : floatx80_class a ≠ float_zero) :
    (if (floatx80_class a == float_denormal) = true then
        normalizeFloatx80Subnormal (extractFloatx80Frac a)
      else (extractFloatx80Exp a, extractFloatx80Frac a)) = a.key := by
  have e := class_expField_zero_iff a
  simp only [floatx80.key, extractFloatx80Frac, extractFloatx80Exp, and_expmask, beq_iff_eq]
  by_cases hd : floatx80_class a = float_denormal
  · rw [if_pos hd, if_pos (e.mp (Or.inr hd))]
  · rw [if_neg hd, if_neg (fun h => (e.mpr h).elim hz hd)]

theorem floatx80_compare_fst_of_not_nan (a b : floatx80) (quiet : Int)
    (status : float_status_t)
    (ha : (floatx80_class a).isNaN = false) (hb : (floatx80_class b).isNaN = false) :
    (floatx80_compare a b quiet status).1 =
      if floatx80_class a = float_zero then
        (if floatx80_class b = float_zero then float_relation_equal
         else if b.exp / 2 ^ 15 ≠ 0 then float_relation_greater else float_relation_less)
      else if floatx80_class b = float_zero ∨ a.exp / 2 ^ 15 ≠ b.exp / 2 ^ 15 then
        (if a.exp / 2 ^ 15 ≠ 0 then float_relation_less else float_relation_greater)
      else if a.key = b.key then float_relation_equal
      else if (if a.exp / 2 ^ 15 ≠ 0 then keyLt b.key a.key else keyLt a.key b.key) then
        float_relation_less
      else float_relation_greater := by
  have h1 : (floatx80_class a == float_SNaN || floatx80_class b == float_SNaN) = false := by
    revert ha hb
    cases floatx80_class a <;> cases floatx80_class b <;> decide
  have h2 : (floatx80_class a == float_QNaN || floatx80_class b == float_QNaN) = false := by
    revert ha hb
    cases floatx80_class a <;> cases floatx80_class b <;> decide
  simp only [floatx80_compare, h1, h2, Bool.false_eq_true, if_false]
  by_cases hza : floatx80_class a = float_zero
  · simp only [hza, beq_self_eq_true, if_true, extractFloatx80Sign, Nat.shiftRight_eq_div_pow]
    generalize b.exp / 2 ^ 15 = sb
    by_cases hzb : floatx80_class b = float_zero
    · simp [hzb]
    · by_cases hsb : sb = 0 <;> simp [hzb, hsb]
  · have hza2 : (floatx80_class a == float_zero) = false := by simpa using hza
    simp only [hza2, Bool.false_eq_true, if_false, if_neg hza]
    by_cases hzb : floatx80_class b = float_zero
    · simp only [extractFloatx80Sign, Nat.shiftRight_eq_div_pow]
      generalize a.exp / 2 ^ 15 = sa
      by_cases hsa : sa = 0 <;> simp [hzb, hsa]
    · have hzb2 : (floatx80_class b == float_zero) = false := by simpa using hzb
      simp only [hzb2, Bool.false_or, eq_false hzb, false_or]
      rw [compare_key_eq a hza, compare_key_eq b hzb]
      simp only [extractFloatx80Sign, Nat.shiftRight_eq_div_pow, keyLt]
      generalize a.exp / 2 ^ 15 = sa
      generalize b.exp / 2 ^ 15 = sb
      generalize a.key = ka
      generalize b.key = kb
      by_cases hs : sa = sb
      · subst hs
        by_cases hk : ka = kb
        · subst hk
          simp
        · have hk2 : ¬ (ka.1 = kb.1 ∧ ka.2 = kb.2) := fun h => hk (Prod.ext h.1 h.2)
          by_cases hsb : sa = 0
          · subst hsb
            simp only [hk, hk2, bne_self_eq_false, Bool.false_eq_true, if_false,
              Bool.and_eq_true, beq_iff_eq, ne_eq, not_true_eq_false, Bool.or_eq_true,
              decide_eq_true_eq]
            split_ifs <;> rfl
          · simp only [hsb, hk, hk2, bne_self_eq_false, Bool.false_eq_true, if_false,
              Bool.and_eq_true, beq_iff_eq, ne_eq, not_true_eq_false, Bool.or_eq_true,
              decide_eq_true_eq, bne_iff_ne, not_false_eq_true, if_true]
            split_ifs <;> rfl
      · by_cases hsa : sa = 0
        · subst hsa
          simp [hs]
        · simp [hs, hsa]

theorem class_facts (a : floatx80) :
    (floatx80_class a = float_zero → a.exp % 2 ^ 15 = 0 ∧ a.fraction = 0) ∧
    (floatx80_class a = float_denormal → a.exp % 2 ^ 15 = 0 ∧ a.fraction ≠ 0) ∧
    (floatx80_class a = float_normalized →
      a.exp % 2 ^ 15 ≠ 0 ∧ a.exp % 2 ^ 15 ≠ 0x7fff ∧ a.fraction / 2 ^ 63 % 2 = 1) ∧
    (floatx80_class a = float_positive_inf →
      a.exp % 2 ^ 15 = 0x7fff ∧ a.fraction / 2 ^ 63 % 2 = 1 ∧ a.fraction % 2 ^ 63 = 0 ∧
        a.exp / 2 ^ 15 = 0) ∧
    (floatx80_class a = float_negative_inf →
      a.exp % 2 ^ 15 = 0x7fff ∧ a.fraction / 2 ^ 63 % 2 = 1 ∧ a.fraction % 2 ^ 63 = 0 ∧
        a.exp / 2 ^ 15 ≠ 0) := by
  rw [floatx80_class_arith]
  by_cases h0 : a.exp % 2 ^ 15 = 0
  · by_cases hz : a.fraction = 0
    · simp only [if_pos h0, if_pos hz]
      refine ⟨fun _ => ⟨h0, hz⟩, ?_, ?_, ?_, ?_⟩ <;> intro h <;> exact absurd h (by decide)
    · simp only [if_pos h0, if_neg hz]
      refine ⟨?_, fun _ => ⟨h0, hz⟩, ?_, ?_, ?_⟩ <;> intro h <;> exact absurd h (by decide)
  · by_cases h63 : a.fraction / 2 ^ 63 % 2 = 0
    · simp only [if_neg h0, if_pos h63]
      refine ⟨?_, ?_, ?_, ?_, ?_⟩ <;> intro h <;> exact absurd h (by decide)
    · have h63b : a.fraction / 2 ^ 63 % 2 = 1 := by omega
      by_cases h7 : a.exp % 2 ^ 15 = 0x7fff
      · by_cases hz : a.fraction % 2 ^ 63 = 0
        · by_cases hs : a.exp / 2 ^ 15 ≠ 0
          · simp only [if_neg h0, if_neg h63, if_pos h7, if_pos hz, if_pos hs]
            refine ⟨?_, ?_, ?_, ?_, fun _ => ⟨h7, h63b, hz, hs⟩⟩ <;> intro h <;>
              exact absurd h (by decide)
          · simp only [if_neg h0, if_neg h63, if_pos h7, if_pos hz, if_neg hs]
            refine ⟨?_, ?_, ?_, fun _ => ⟨h7, h63b, hz, not_not.mp hs⟩, ?_⟩ <;> intro h <;>
              exact absurd h (by decide)
        · by_cases h62 : a.fraction / 2 ^ 62 % 2 = 0
          · simp only [if_neg h0, if_neg h63, if_pos h7, if_neg hz, if_pos h62]
            refine ⟨?_, ?_, ?_, ?_, ?_⟩ <;> intro h <;> exact absurd h (by decide)
          · simp only [if_neg h0, if_neg h63, if_pos h7, if_neg hz, if_neg h62]
            refine ⟨?_, ?_, ?_, ?_, ?_⟩ <;> intro h <;> exact absurd h (by decide)
      · simp only [if_neg h0, if_neg h63, if_neg h7]
        refine ⟨?_, ?_, fun _ => ⟨h0, h7, h63b⟩, ?_, ?_⟩ <;> intro h <;>
          exact absurd h (by decide)

theorem keyMagnitude_lt (k l : Int × Nat) (hk : keyRange k) (hl : keyRange l)
    (h : keyLt k l) : keyMagnitude k < keyMagnitude l := by
  obtain ⟨k1, k2, k3, k4⟩ := hk
  obtain ⟨l1, l2, l3, l4⟩ := hl
  have hkne : k.1 ≠ 0x7FFF := by
    intro hk7
    rcases h with h | ⟨h, h'⟩
    · omega
    · have := l4 (h ▸ hk7)
      omega
  unfold keyMagnitude
  rw [if_neg hkne]
  by_cases hl7 : l.1 = 0x7FFF
  · rw [if_pos hl7]
    exact WithTop.coe_lt_top _
  · rw [if_neg hl7, WithTop.coe_lt_coe]
    have hk2 : (k.2 : ℚ) < 2 ^ 64 := by exact_mod_cast k2
    have hl1 : (2 : ℚ) ^ 63 ≤ (l.2 : ℚ) := by exact_mod_cast l1
    have hpk : (0 : ℚ) < 2 ^ (k.1 - 16383 - 63) := zpow_pos (by norm_num) _
    have hpl : (0 : ℚ) < 2 ^ (l.1 - 16383 - 63) := zpow_pos (by norm_num) _
    rcases h with h | ⟨h, h'⟩
    · have hstep : (2 : ℚ) ^ (k.1 + 1 - 16383 - 63) ≤ 2 ^ (l.1 - 16383 - 63) :=
        zpow_le_zpow_right₀ (by norm_num) (by omega)
      have hsplit : (2 : ℚ) ^ (k.1 + 1 - 16383 - 63) = 2 * 2 ^ (k.1 - 16383 - 63) := by
        have : k.1 + 1 - 16383 - 63 = 1 + (k.1 - 16383 - 63) := by ring
        rw [this, zpow_add₀ (by norm_num : (2 : ℚ) ≠ 0), zpow_one]
      calc (k.2 : ℚ) * 2 ^ (k.1 - 16383 - 63)
          < 2 ^ 64 * 2 ^ (k.1 - 16383 - 63) := by
            exact mul_lt_mul_of_pos_right hk2 hpk
        _ = 2 ^ 63 * (2 * 2 ^ (k.1 - 16383 - 63)) := by ring
        _ = 2 ^ 63 * 2 ^ (k.1 + 1 - 16383 - 63) := by rw [hsplit]
        _ ≤ 2 ^ 63 * 2 ^ (l.1 - 16383 - 63) := by
            exact mul_le_mul_of_nonneg_left hstep (by positivity)
        _ ≤ (l.2 : ℚ) * 2 ^ (l.1 - 16383 - 63) := by
            exact mul_le_mul_of_nonneg_right hl1 hpl.le
    · rw [h]
      have : (k.2 : ℚ) < (l.2 : ℚ) := by exact_mod_cast h'
      exact mul_lt_mul_of_pos_right this hpl

theorem keyMagnitude_pos (k : Int × Nat) (hk : keyRange k) :
    ((0 : ℚ) : WithTop ℚ) < keyMagnitude k := by
  obtain ⟨k1, _, _, _⟩ := hk
  unfold keyMagnitude
  split_ifs
  · exact WithTop.coe_lt_top _
  · rw [WithTop.coe_lt_coe]
    have h1 : (0 : ℚ) < (k.2 : ℚ) := by
      have : 0 < k.2 := by omega
      exact_mod_cast this
    exact mul_pos h1 (zpow_pos (by norm_num) _)

theorem signedValue_lt_of_pos (m n : WithTop ℚ) (h : m < n) :
    signedValue false m < signedValue false n := by
  induction m using WithTop.recTopCoe with
  | top => exact absurd h (not_top_lt)
  | coe p =>
    induction n using WithTop.recTopCoe with
    | top => exact WithBot.coe_lt_coe.mpr (WithTop.coe_lt_top _)
    | coe q =>
      have : p < q := WithTop.coe_lt_coe.mp h
      exact WithBot.coe_lt_coe.mpr (WithTop.coe_lt_coe.mpr this)

theorem signedValue_lt_of_neg (m n : WithTop ℚ) (h : m < n) :
    signedValue true n < signedValue true m := by
  induction m using WithTop.recTopCoe with
  | top => exact absurd h (not_top_lt)
  | coe p =>
    induction n using WithTop.recTopCoe with
    | top => exact WithBot.bot_lt_coe _
    | coe q =>
      have : p < q := WithTop.coe_lt_coe.mp h
      exact WithBot.coe_lt_coe.mpr (WithTop.coe_lt_coe.mpr (by simpa using this))

theorem signedValue_pos (m : WithTop ℚ) (h : ((0 : ℚ) : WithTop ℚ) < m) :
    (((0 : ℚ) : WithTop ℚ) : WithBot (WithTop ℚ)) < signedValue false m ∧
    signedValue true m < (((0 : ℚ) : WithTop ℚ) : WithBot (WithTop ℚ)) := by
  induction m using WithTop.recTopCoe with
  | top => exact ⟨WithBot.coe_lt_coe.mpr (WithTop.coe_lt_top _), WithBot.bot_lt_coe _⟩
  | coe q =>
    have : 0 < q := WithTop.coe_lt_coe.mp h
    exact ⟨WithBot.coe_lt_coe.mpr (WithTop.coe_lt_coe.mpr this),
      WithBot.coe_lt_coe.mpr (WithTop.coe_lt_coe.mpr (by simpa using this))⟩

theorem signBit_eq (a : floatx80) (ha : a.wf) : a.signBit = decide (a.exp / 2 ^ 15 ≠ 0) := by
  obtain ⟨_, he⟩ := ha
  rw [Bool.eq_iff_iff]
  unfold floatx80.signBit
  rw [testBit_iff, decide_eq_true_iff]
  omega

theorem signedValue_coe (negative : Bool) (q : ℚ) :
    signedValue negative (q : WithTop ℚ) =
      (((if negative then -q else q : ℚ) : WithTop ℚ) : WithBot (WithTop ℚ)) := rfl

theorem denormal_scale (f n : Nat) :
    ((f * 2 ^ n : Nat) : ℚ) * 2 ^ ((1 : Int) - (n : Int) - 16383 - 63) =
      (f : ℚ) * 2 ^ ((1 : Int) - 16383 - 63) := by
  have h2 : (2 : ℚ) ≠ 0 := by norm_num
  have e : ((1 : Int) - 16383 - 63) = (n : Int) + ((1 : Int) - (n : Int) - 16383 - 63) := by
    ring
  rw [e, zpow_add₀ h2, zpow_natCast]
  push_cast
  ring

theorem val_eq_signedValue (a : floatx80) (ha : a.wf)
    (hn : (floatx80_class a).isNaN = false) (hz : floatx80_class a ≠ float_zero) :
    a.val = signedValue (decide (a.exp / 2 ^ 15 ≠ 0)) (keyMagnitude a.key) ∧
    keyRange a.key := by
  have hsign := signBit_eq a ha
  obtain ⟨hf, he⟩ := ha
  obtain ⟨_, fd, fn, fp, fm⟩ := class_facts a
  cases hc : floatx80_class a with
  | float_zero => exact absurd hc hz
  | float_SNaN => rw [hc] at hn; exact absurd hn (by decide)
  | float_QNaN => rw [hc] at hn; exact absurd hn (by decide)
  | float_denormal =>
    obtain ⟨e0, hs⟩ := fd hc
    obtain ⟨hlo, hhi⟩ := countLeadingZeros64_spec a.fraction hs hf
    have hkey : a.key = ((1 : Int) - (countLeadingZeros64 a.fraction : Int),
        a.fraction * 2 ^ countLeadingZeros64 a.fraction) := by
      simp only [floatx80.key, normalizeFloatx80Subnormal, if_pos e0, Nat.shiftLeft_eq,
        Nat.mod_eq_of_lt hhi]
    have hne : ((1 : Int) - (countLeadingZeros64 a.fraction : Int)) ≠ 0x7FFF := by omega
    refine ⟨?_, ?_⟩
    · unfold floatx80.val keyMagnitude
      rw [hc, hkey]
      simp only []
      rw [if_neg hne, signedValue_coe, denormal_scale, hsign]
      have hmax : max a.expField 1 = 1 := by
        unfold floatx80.expField; rw [e0]; rfl
      rw [hmax]
      generalize decide (a.exp / 2 ^ 15 ≠ 0) = sg
      cases sg <;> simp
    · rw [hkey]
      exact ⟨hlo, hhi, by simp only []; omega, fun h => absurd h hne⟩
  | float_normalized =>
    obtain ⟨e0, e7, h63⟩ := fn hc
    have hkey : a.key = (((a.exp % 2 ^ 15 : Nat) : Int), a.fraction) := by
      unfold floatx80.key; rw [if_neg e0]
    have hne : (((a.exp % 2 ^ 15 : Nat) : Int)) ≠ 0x7FFF := by omega
    refine ⟨?_, ?_⟩
    · unfold floatx80.val keyMagnitude
      rw [hc, hkey]
      simp only []
      rw [if_neg hne, signedValue_coe, hsign]
      have hmax : max a.expField 1 = a.exp % 2 ^ 15 := by
        unfold floatx80.expField; omega
      rw [hmax]
      generalize decide (a.exp / 2 ^ 15 ≠ 0) = sg
      cases sg <;> simp
    · rw [hkey]
      exact ⟨by simp only []; omega, hf, by simp only []; omega, fun h => absurd h hne⟩
  | float_positive_inf =>
    obtain ⟨e7, h63, hz63, hs⟩ := fp hc
    have e0 : a.exp % 2 ^ 15 ≠ 0 := by omega
    have hkey : a.key = (((a.exp % 2 ^ 15 : Nat) : Int), a.fraction) := by
      unfold floatx80.key; rw [if_neg e0]
    have h7 : (((a.exp % 2 ^ 15 : Nat) : Int)) = 0x7FFF := by omega
    refine ⟨?_, ?_⟩
    · unfold floatx80.val keyMagnitude
      rw [hc, hkey]
      simp only []
      rw [if_pos h7, hs]
      rfl
    · rw [hkey]
      exact ⟨by simp only []; omega, hf, by simp only []; omega, fun _ => by simp only []; omega⟩
  | float_negative_inf =>
    obtain ⟨e7, h63, hz63, hs⟩ := fm hc
    have e0 : a.exp % 2 ^ 15 ≠ 0 := by omega
    have hkey : a.key = (((a.exp % 2 ^ 15 : Nat) : Int), a.fraction) := by
      unfold floatx80.key; rw [if_neg e0]
    have h7 : (((a.exp % 2 ^ 15 : Nat) : Int)) = 0x7FFF := by omega
    refine ⟨?_, ?_⟩
    · unfold floatx80.val keyMagnitude
      rw [hc, hkey]
      simp only []
      rw [if_pos h7]
      have hd : decide (a.exp / 2 ^ 15 ≠ 0) = true := decide_eq_true hs
      rw [hd]
      rfl
    · rw [hkey]
      exact ⟨by simp only []; omega, hf, by simp only []; omega, fun _ => by simp only []; omega⟩

theorem keyLt_total (k l : Int × Nat) (hne : k ≠ l) (h : ¬ keyLt k l) : keyLt l k := by
  unfold keyLt at h ⊢
  have hne2 : ¬ (k.1 = l.1 ∧ k.2 = l.2) := fun e => hne (Prod.ext e.1 e.2)
  omega

theorem val_of_zero (a : floatx80) (hc : floatx80_class a = float_zero) :
    a.val = (((0 : ℚ) : WithTop ℚ) : WithBot (WithTop ℚ)) := by
  unfold floatx80.val; rw [hc]

theorem compare_relation_and_order (a b : floatx80) (quiet : Int) (status : float_status_t)
    (ha : a.wf) (hb : b.wf)
    (hna : (floatx80_class a).isNaN = false) (hnb : (floatx80_class b).isNaN = false) :
    ((floatx80_compare a b quiet status).1 = float_relation_less ∧ a.val < b.val) ∨
    ((floatx80_compare a b quiet status).1 = float_relation_equal ∧ a.val = b.val) ∨
    ((floatx80_compare a b quiet status).1 = float_relation_greater ∧ b.val < a.val) := by
  rw [floatx80_compare_fst_of_not_nan a b quiet status hna hnb]
  have hsa2 : a.exp / 2 ^ 15 < 2 := by have := ha.2; omega
  have hsb2 : b.exp / 2 ^ 15 < 2 := by have := hb.2; omega
  by_cases hza : floatx80_class a = float_zero
  · rw [if_pos hza, val_of_zero a hza]
    by_cases hzb : floatx80_class b = float_zero
    · rw [if_pos hzb, val_of_zero b hzb]
      exact Or.inr (Or.inl ⟨rfl, rfl⟩)
    · obtain ⟨hvb, hrb⟩ := val_eq_signedValue b hb hnb hzb
      obtain ⟨hp, hm⟩ := signedValue_pos _ (keyMagnitude_pos _ hrb)
      rw [if_neg hzb, hvb]
      by_cases hsb : b.exp / 2 ^ 15 ≠ 0
      · rw [if_pos hsb, decide_eq_true hsb]
        exact Or.inr (Or.inr ⟨rfl, hm⟩)
      · rw [if_neg hsb, decide_eq_false hsb]
        exact Or.inl ⟨rfl, hp⟩
  · obtain ⟨hva, hra⟩ := val_eq_signedValue a ha hna hza
    obtain ⟨hpa, hma⟩ := signedValue_pos _ (keyMagnitude_pos _ hra)
    rw [if_neg hza]
    by_cases hzb : floatx80_class b = float_zero
    · rw [if_pos (Or.inl hzb), val_of_zero b hzb, hva]
      by_cases hsa : a.exp / 2 ^ 15 ≠ 0
      · rw [if_pos hsa, decide_eq_true hsa]
        exact Or.inl ⟨rfl, hma⟩
      · rw [if_neg hsa, decide_eq_false hsa]
        exact Or.inr (Or.inr ⟨rfl, hpa⟩)
    · obtain ⟨hvb, hrb⟩ := val_eq_signedValue b hb hnb hzb
      obtain ⟨hpb, hmb⟩ := signedValue_pos _ (keyMagnitude_pos _ hrb)
      rw [hva, hvb]
      by_cases hs : a.exp / 2 ^ 15 ≠ b.exp / 2 ^ 15
      · rw [if_pos (Or.inr hs)]
        by_cases hsa : a.exp / 2 ^ 15 ≠ 0
        · have hsb : ¬ b.exp / 2 ^ 15 ≠ 0 := by omega
          rw [if_pos hsa, decide_eq_true hsa, decide_eq_false hsb]
          exact Or.inl ⟨rfl, lt_trans hma hpb⟩
        · have hsb : b.exp / 2 ^ 15 ≠ 0 := by omega
          rw [if_neg hsa, decide_eq_false hsa, decide_eq_true hsb]
          exact Or.inr (Or.inr ⟨rfl, lt_trans hmb hpa⟩)
      · have hs2 : a.exp / 2 ^ 15 = b.exp / 2 ^ 15 := not_not.mp hs
        have hor : ¬ (floatx80_class b = float_zero ∨ a.exp / 2 ^ 15 ≠ b.exp / 2 ^ 15) :=
          fun h => h.elim hzb hs
        rw [if_neg hor, ← hs2]
        by_cases hk : a.key = b.key
        · rw [if_pos hk, hk]
          exact Or.inr (Or.inl ⟨rfl, rfl⟩)
        · rw [if_neg hk]
          by_cases hsa : a.exp / 2 ^ 15 ≠ 0
          · have e : (if a.exp / 2 ^ 15 ≠ 0 then keyLt b.key a.key else keyLt a.key b.key) =
                keyLt b.key a.key := if_pos hsa
            simp only [e, decide_eq_true hsa]
            by_cases hlt : keyLt b.key a.key
            · rw [if_pos hlt]
              exact Or.inl ⟨rfl, signedValue_lt_of_neg _ _ (keyMagnitude_lt _ _ hrb hra hlt)⟩
            · rw [if_neg hlt]
              have hgt := keyLt_total b.key a.key (fun e => hk e.symm) hlt
              exact Or.inr (Or.inr
                ⟨rfl, signedValue_lt_of_neg _ _ (keyMagnitude_lt _ _ hra hrb hgt)⟩)
          · have e : (if a.exp / 2 ^ 15 ≠ 0 then keyLt b.key a.key else keyLt a.key b.key) =
                keyLt a.key b.key := if_neg hsa
            simp only [e, decide_eq_false hsa]
            by_cases hlt : keyLt a.key b.key
            · rw [if_pos hlt]
              exact Or.inl ⟨rfl, signedValue_lt_of_pos _ _ (keyMagnitude_lt _ _ hra hrb hlt)⟩
            · rw [if_neg hlt]
              have hgt := keyLt_total a.key b.key hk hlt
              exact Or.inr (Or.inr
                ⟨rfl, signedValue_lt_of_pos _ _ (keyMagnitude_lt _ _ hrb hra hgt)⟩)

/-- C5: for operands neither of which classifies as a NaN, `floatx80_compare`
returns less, equal or greater exactly by the order of the extended-real
values of the encodings, where a zero has value 0, an infinity its signed
infinity, and any other encoding
`(-1)^sign * significand * 2^(max(exponent field, 1) - 16383 - 63)`. -/
theorem floatx80_compare_orders_values (a b : floatx80) (quiet : Int)
    (status : float_status_t) (ha : a.wf) (hb : b.wf)
    (hna : (floatx80_class a).isNaN = false) (hnb : (floatx80_class b).isNaN = false) :
    ((floatx80_compare a b quiet status).1 = float_relation_less ↔ a.val < b.val) ∧
    ((floatx80_compare a b quiet status).1 = float_relation_equal ↔ a.val = b.val) ∧
    ((floatx80_compare a b quiet status).1 = float_relation_greater ↔ b.val < a.val) := by
  rcases compare_relation_and_order a b quiet status ha hb hna hnb with
    ⟨hr, hv⟩ | ⟨hr, hv⟩ | ⟨hr, hv⟩
  · rw [hr]
    refine ⟨⟨fun _ => hv, fun _ => rfl⟩, ⟨fun h => absurd h (by decide), fun h => ?_⟩,
      ⟨fun h => absurd h (by decide), fun h => ?_⟩⟩
    · exact absurd hv (h ▸ lt_irrefl _)
    · exact absurd hv (lt_asymm h)
  · rw [hr]
    refine ⟨⟨fun h => absurd h (by decide), fun h => ?_⟩, ⟨fun _ => hv, fun _ => rfl⟩,
      ⟨fun h => absurd h (by decide), fun h => ?_⟩⟩
    · exact absurd h (hv ▸ lt_irrefl _)
    · exact absurd h (hv ▸ lt_irrefl _)
  · rw [hr]
    refine ⟨⟨fun h => absurd h (by decide), fun h => ?_⟩,
      ⟨fun h => absurd h (by decide), fun h => ?_⟩, ⟨fun _ => hv, fun _ => rfl⟩⟩
    · exact absurd hv (lt_asymm h)
    · exact absurd hv (h ▸ lt_irrefl _)

/-- Witness for C5: the smallest positive denormal against 1.0. -/
theorem floatx80_compare_orders_values_witness :
    (⟨1, 0⟩ : floatx80).wf ∧ (⟨0x8000000000000000, 0x3FFF⟩ : floatx80).wf ∧
    (floatx80_class ⟨1, 0⟩).isNaN = false ∧
    (floatx80_class ⟨0x8000000000000000, 0x3FFF⟩).isNaN = false ∧
    (floatx80_compare ⟨1, 0⟩ ⟨0x8000000000000000, 0x3FFF⟩ 0 ⟨0, 0⟩).1 = float_relation_less ∧
    (⟨1, 0⟩ : floatx80).val < (⟨0x8000000000000000, 0x3FFF⟩ : floatx80).val :=
  ⟨by decide, by decide, by decide, by decide, by decide,
   (floatx80_compare_orders_values ⟨1, 0⟩ ⟨0x8000000000000000, 0x3FFF⟩ 0 ⟨0, 0⟩
      (by decide) (by decide) (by decide) (by decide)).1.mp (by decide)⟩

/-! ## Theorems: floatx80_extract on normal and special operands -/

/-- C11: for a normal finite operand (exponent field in 1..0x7FFE, bit 63 of the
significand set) `floatx80_extract` stores back the sign and the unchanged
significand with exponent field 0x3FFF, a value of magnitude in [1, 2),
returns the integer `exponent field - 0x3FFF` converted to extended precision
by `int32_to_floatx80`, and leaves the status as it was. -/
theorem floatx80_extract_normal
    (propagateFloatx80NaN : floatx80 → float_status_t → floatx80 × float_status_t)
    (int32_to_floatx80 : Int → floatx80)
    (a : floatx80) (status : float_status_t)
    (ha : a.wf) (he1 : 1 ≤ a.expField) (he2 : a.expField ≤ 0x7FFE)
    (h63 : a.sigBit 63 = true) :
    (floatx80_extract propagateFloatx80NaN int32_to_floatx80 a status).1 =
      int32_to_floatx80 ((a.expField : Int) - 0x3FFF) ∧
    (floatx80_extract propagateFloatx80NaN int32_to_floatx80 a status).2.1.signBit =
      a.signBit ∧
    (floatx80_extract propagateFloatx80NaN int32_to_floatx80 a status).2.1.expField =
      0x3FFF ∧
    (floatx80_extract propagateFloatx80NaN int32_to_floatx80 a status).2.1.fraction =
      a.fraction ∧
    (floatx80_extract propagateFloatx80NaN int32_to_floatx80 a status).2.2 = status ∧
    (floatx80_extract propagateFloatx80NaN int32_to_floatx80 a status).2.1.val =
      ((((if a.signBit then -1 else 1) * ((a.fraction : ℚ) / 2 ^ 63) : ℚ) : WithTop ℚ) :
        WithBot (WithTop ℚ)) ∧
    (1 : ℚ) ≤ (a.fraction : ℚ) / 2 ^ 63 ∧ (a.fraction : ℚ) / 2 ^ 63 < 2 := by
  obtain ⟨hf, hx⟩ := ha
  simp only [floatx80.expField] at he1 he2
  simp only [floatx80.sigBit, testBit_iff] at h63
  have hmask : a.exp &&& 0x7FFF = a.exp % 2 ^ 15 := and_expmask _
  have hval : floatx80_extract propagateFloatx80NaN int32_to_floatx80 a status =
      (int32_to_floatx80 (((a.exp % 2 ^ 15 : Nat) : Int) - 0x3FFF),
       { fraction := a.fraction, exp := ((a.exp >>> 15 <<< 15) + 0x3FFF) % 2 ^ 16 },
       status) := by
    have hb : ¬ (a.fraction &&& 0x8000000000000000 = 0) := by
      rw [and_bit63]; omega
    have h1 : ¬ (a.exp % 2 ^ 15 = 0) := by omega
    have h2 : ¬ (((a.exp % 2 ^ 15 : Nat) : Int) = 0x7FFF) := by omega
    have h3 : ¬ (((a.exp % 2 ^ 15 : Nat) : Int) = 0) := by omega
    simp only [floatx80_extract, floatx80_is_unsupported, extractFloatx80Exp,
      extractFloatx80Frac, extractFloatx80Sign, hmask, beq_iff_eq, bne_iff_ne, hb, h2, h3,
      Bool.and_eq_true, and_false, false_and, if_false, Bool.false_eq_true, ne_eq]
  rw [hval]
  have hexp : ((a.exp >>> 15 <<< 15) + 0x3FFF) % 2 ^ 16 = a.exp / 2 ^ 15 * 2 ^ 15 + 0x3FFF := by
    rw [Nat.shiftLeft_eq, Nat.shiftRight_eq_div_pow]; omega
  have hlo : (2 : ℚ) ^ 63 ≤ (a.fraction : ℚ) := by
    have : 2 ^ 63 ≤ a.fraction := by omega
    exact_mod_cast this
  have hhi : (a.fraction : ℚ) < 2 ^ 64 := by exact_mod_cast hf
  have hsb : ({ fraction := a.fraction, exp := ((a.exp >>> 15 <<< 15) + 0x3FFF) % 2 ^ 16 } :
      floatx80).signBit = a.signBit := by
    simp only [floatx80.signBit, hexp]
    rw [Bool.eq_iff_iff, testBit_iff, testBit_iff]; omega
  have hef : ({ fraction := a.fraction, exp := ((a.exp >>> 15 <<< 15) + 0x3FFF) % 2 ^ 16 } :
      floatx80).expField = 0x3FFF := by
    simp only [floatx80.expField, hexp]; omega
  refine ⟨rfl, hsb, hef, rfl, rfl, ?_, ?_, ?_⟩
  · have hc : floatx80_class
        { fraction := a.fraction, exp := ((a.exp >>> 15 <<< 15) + 0x3FFF) % 2 ^ 16 } =
        float_normalized := by
      rw [floatx80_class_arith]
      simp only [hexp]
      have c1 : ¬ ((a.exp / 2 ^ 15 * 2 ^ 15 + 0x3FFF) % 2 ^ 15 = 0) := by omega
      have c2 : ¬ (a.fraction / 2 ^ 63 % 2 = 0) := by omega
      have c3 : ¬ ((a.exp / 2 ^ 15 * 2 ^ 15 + 0x3FFF) % 2 ^ 15 = 0x7fff) := by omega
      rw [if_neg c1, if_neg c2, if_neg c3]
    unfold floatx80.val
    rw [hc]
    simp only []
    rw [hsb, hef]
    have hz : (2 : ℚ) ^ (((max 0x3FFF 1 : Nat) : Int) - 16383 - 63) = 1 / 2 ^ 63 := by
      have : (((max 0x3FFF 1 : Nat) : Int) - 16383 - 63) = -63 := by decide
      rw [this, zpow_neg]
      norm_num
    have e : (if a.signBit = true then (-1 : ℚ) else 1) * (a.fraction : ℚ) * (1 / 2 ^ 63) =
        (if a.signBit = true then (-1 : ℚ) else 1) * ((a.fraction : ℚ) / 2 ^ 63) := by ring
    rw [hz, e]
  · rw [le_div_iff₀ (by positivity)]; linarith
  · rw [div_lt_iff₀ (by positivity)]; linarith

/-- Witness for C11: the operand 3.0. -/
theorem floatx80_extract_normal_witness :
    (⟨0xC000000000000000, 0x4000⟩ : floatx80).wf ∧
    (floatx80_extract propagateFloatx80NaN_model int32_to_floatx80_model
      ⟨0xC000000000000000, 0x4000⟩ ⟨0, 0⟩).2.1.expField = 0x3FFF :=
  ⟨by decide,
   (floatx80_extract_normal propagateFloatx80NaN_model int32_to_floatx80_model
      ⟨0xC000000000000000, 0x4000⟩ ⟨0, 0⟩ (by decide) (by decide) (by decide)
      (by decide)).2.2.1⟩

/-- C12: `floatx80_extract` on the special operands.  For a zero of either sign
it raises divide-by-zero, returns negative infinity and stores back a zero of
the same sign; for an infinity of either sign it returns positive infinity and
leaves operand and status unchanged; for an unsupported encoding it raises
invalid and both stores and returns the default NaN. -/
theorem floatx80_extract_special
    (propagateFloatx80NaN : floatx80 → float_status_t → floatx80 × float_status_t)
    (int32_to_floatx80 : Int → floatx80)
    (a : floatx80) (status : float_status_t) (ha : a.wf) :
    (floatx80_class a = float_zero →
      floatx80_extract propagateFloatx80NaN int32_to_floatx80 a status =
        (packFloatx80 1 0x7FFF 0x8000000000000000, packFloatx80 (a.exp >>> 15) 0 0,
          float_raise status float_flag_divbyzero) ∧
      floatx80_class (packFloatx80 1 0x7FFF 0x8000000000000000) = float_negative_inf ∧
      floatx80_class (packFloatx80 (a.exp >>> 15) 0 0) = float_zero ∧
      (packFloatx80 (a.exp >>> 15) 0 0).signBit = a.signBit ∧
      flagSet (float_raise status float_flag_divbyzero) float_flag_divbyzero) ∧
    ((floatx80_class a).isInf = true →
      floatx80_extract propagateFloatx80NaN int32_to_floatx80 a status =
        (packFloatx80 0 0x7FFF 0x8000000000000000, a, status) ∧
      floatx80_class (packFloatx80 0 0x7FFF 0x8000000000000000) = float_positive_inf) ∧
    ((a.expField ≠ 0 ∧ a.sigBit 63 = false) →
      floatx80_extract propagateFloatx80NaN int32_to_floatx80 a status =
        (floatx80_default_nan, floatx80_default_nan,
          float_raise status float_flag_invalid) ∧
      flagSet (float_raise status float_flag_invalid) float_flag_invalid) := by
  obtain ⟨hf, hx⟩ := ha
  obtain ⟨fz, _, _, fp, fm⟩ := class_facts a
  have hmask : a.exp &&& 0x7FFF = a.exp % 2 ^ 15 := and_expmask _
  refine ⟨fun hc => ?_, fun hc => ?_, fun hu => ?_⟩
  · obtain ⟨e0, s0⟩ := fz hc
    refine ⟨?_, by decide, ?_, ?_, ?_⟩
    · have hm0 : a.exp &&& 0x7FFF = 0 := by rw [hmask]; exact e0
      have h2 : ¬ (((0 : Nat) : Int) = 0x7FFF) := by decide
      have h3 : ((0 : Nat) : Int) = 0 := rfl
      simp only [floatx80_extract, floatx80_is_unsupported, extractFloatx80Exp,
        extractFloatx80Frac, extractFloatx80Sign, hm0, s0, h2, h3, beq_iff_eq, bne_iff_ne,
        ne_eq, not_true_eq_false, Bool.and_eq_true, false_and, and_self, if_false, if_true,
        Bool.false_eq_true, beq_self_eq_true, bne_self_eq_false, Bool.false_and,
        Bool.and_self]
      rw [if_neg (by decide : ¬ ((0 : Int) = 32767))]
    · rw [floatx80_class_arith]
      simp only [packFloatx80, Nat.shiftLeft_eq, Nat.shiftRight_eq_div_pow]
      have c1 : (a.exp / 2 ^ 15 * 2 ^ 15 + 0) % 2 ^ 16 % 2 ^ 15 = 0 := by omega
      rw [if_pos c1]
      rfl
    · simp only [floatx80.signBit, packFloatx80, Nat.shiftLeft_eq, Nat.shiftRight_eq_div_pow]
      rw [Bool.eq_iff_iff, testBit_iff, testBit_iff]; omega
    · rw [flagSet, float_raise, float_flag_divbyzero]
      refine (and_two_pow_ne_zero _ 2).mpr ?_
      rw [Nat.testBit_or]
      have : Nat.testBit 4 2 = true := by decide
      rw [this, Bool.or_true]
  · have hinf : a.exp % 2 ^ 15 = 0x7fff ∧ a.fraction / 2 ^ 63 % 2 = 1 ∧
        a.fraction % 2 ^ 63 = 0 := by
      cases hcl : floatx80_class a <;> rw [hcl] at hc <;>
        first
        | exact absurd hc (by decide)
        | exact ⟨(fp hcl).1, (fp hcl).2.1, (fp hcl).2.2.1⟩
        | exact ⟨(fm hcl).1, (fm hcl).2.1, (fm hcl).2.2.1⟩
    obtain ⟨e7, h63, hz⟩ := hinf
    refine ⟨?_, by decide⟩
    have hb : ¬ (a.fraction &&& 0x8000000000000000 = 0) := by
      rw [and_bit63]; omega
    have h2 : (((a.exp % 2 ^ 15 : Nat) : Int) = 0x7FFF) := by omega
    have h3 : (a.fraction <<< 1) % 2 ^ 64 = 0 := (shl_one_mod _).mpr hz
    simp only [floatx80_extract, floatx80_is_unsupported, extractFloatx80Exp,
      extractFloatx80Frac, hmask, beq_iff_eq, bne_iff_ne, hb, h2, h3,
      Bool.and_eq_true, and_false, if_false, if_true, Bool.false_eq_true, ne_eq,
      not_true_eq_false]
  · refine ⟨?_, flagSet_invalid_raise status⟩
    have hu2 := (floatx80_is_unsupported_iff a).mpr hu
    simp only [floatx80_extract, hu2, if_true]

/-- Witness for C12: negative zero. -/
theorem floatx80_extract_special_witness :
    (⟨0, 0x8000⟩ : floatx80).wf ∧ floatx80_class ⟨0, 0x8000⟩ = float_zero ∧
    floatx80_extract propagateFloatx80NaN_model int32_to_floatx80_model ⟨0, 0x8000⟩ ⟨0, 0⟩ =
      (packFloatx80 1 0x7FFF 0x8000000000000000, packFloatx80 (0x8000 >>> 15) 0 0,
        float_raise ⟨0, 0⟩ float_flag_divbyzero) :=
  ⟨by decide, by decide,
   ((floatx80_extract_special propagateFloatx80NaN_model int32_to_floatx80_model
      ⟨0, 0x8000⟩ ⟨0, 0⟩ (by decide)).1 (by decide)).1⟩

/-! ## Theorems: floatx80_scale -/

theorem toInt32_of_lt (x : Nat) (h : x < 2 ^ 31) : toInt32 x = (x : Int) := by
  unfold toInt32
  have e : x % 2 ^ 32 = x := Nat.mod_eq_of_lt (by omega)
  rw [e, if_pos h]

theorem floor_scaled (f e : Nat) (h1 : 0x3FFF ≤ e) (h2 : e ≤ 0x403E) :
    Nat.floor ((f : ℚ) * 2 ^ ((e : Int) - 16383 - 63)) = f >>> (0x403E - e) := by
  have hz : ((e : Int) - 16383 - 63) = -(((0x403E - e : Nat)) : Int) := by omega
  rw [hz, zpow_neg, zpow_natCast, ← div_eq_mul_inv, Nat.shiftRight_eq_div_pow]
  have : ((2 : ℚ) ^ (0x403E - e)) = (((2 ^ (0x403E - e) : Nat)) : ℚ) := by push_cast; rfl
  rw [this, Nat.floor_div_eq_div]

/-- Facts on the fields of a normal finite operand, in the form the code tests. -/
theorem normal_finite_fields (a : floatx80) (he1 : 1 ≤ a.expField) (he2 : a.expField ≤ 0x7FFE)
    (h63 : a.sigBit 63 = true) :
    floatx80_is_unsupported a = false ∧
    (extractFloatx80Exp a == 0x7FFF) = false ∧ (extractFloatx80Exp a == 0) = false ∧
    extractFloatx80Exp a = (a.expField : Int) := by
  simp only [floatx80.expField] at he1 he2
  simp only [floatx80.sigBit, testBit_iff] at h63
  have hb : ¬ (a.fraction &&& 0x8000000000000000 = 0) := by rw [and_bit63]; omega
  refine ⟨?_, ?_, ?_, ?_⟩
  · rw [Bool.eq_false_iff]
    intro h
    rw [floatx80_is_unsupported_iff] at h
    have := h.2
    simp only [floatx80.sigBit, testBit_false_iff] at this
    omega
  · simp only [extractFloatx80Exp, and_expmask, beq_eq_false_iff_ne, ne_eq]; omega
  · simp only [extractFloatx80Exp, and_expmask, beq_eq_false_iff_ne, ne_eq]; omega
  · simp only [extractFloatx80Exp, and_expmask, floatx80.expField]

/-- C13: `floatx80_scale` truncates `b` to an integer and adds it to the
exponent of `a`.  For normal finite `a` and `b`: when the exponent field of `b`
is below 0x3FFF the result is `a` and the status is unchanged; when it is in
0x3FFF..0x400E the result is
`roundAndPackFloatx80(80, sign a, aExp + t, aSig, 0)` with `t` the integer of
the sign of `b` and of magnitude `bSig >> (0x403E - bExp)`, which is the floor
of the magnitude of `b`. -/
theorem floatx80_scale_normal
    (propagateFloatx80NaN2 : floatx80 → floatx80 → float_status_t → floatx80 × float_status_t)
    (normalizeRoundAndPackFloatx80 roundAndPackFloatx80 :
      Nat → Nat → Int → Nat → Nat → float_status_t → floatx80 × float_status_t)
    (a b : floatx80) (status : float_status_t) (hb : b.wf)
    (ha1 : 1 ≤ a.expField) (ha2 : a.expField ≤ 0x7FFE) (ha63 : a.sigBit 63 = true)
    (hb1 : 1 ≤ b.expField) (hb2 : b.expField ≤ 0x7FFE) (hb63 : b.sigBit 63 = true) :
    (b.expField < 0x3FFF →
      floatx80_scale propagateFloatx80NaN2 normalizeRoundAndPackFloatx80 roundAndPackFloatx80
        a b status = (a, status)) ∧
    (0x3FFF ≤ b.expField ∧ b.expField ≤ 0x400E →
      floatx80_scale propagateFloatx80NaN2 normalizeRoundAndPackFloatx80 roundAndPackFloatx80
        a b status =
        roundAndPackFloatx80 80 (extractFloatx80Sign a)
          ((a.expField : Int) +
            (if b.signBit then -((b.fraction >>> (0x403E - b.expField) : Nat) : Int)
             else ((b.fraction >>> (0x403E - b.expField) : Nat) : Int)))
          a.fraction 0 status ∧
      Nat.floor ((b.fraction : ℚ) * 2 ^ ((b.expField : Int) - 16383 - 63)) =
        b.fraction >>> (0x403E - b.expField) ∧
      b.fraction >>> (0x403E - b.expField) < 2 ^ 16) := by
  obtain ⟨ua, a7, a0, ae⟩ := normal_finite_fields a ha1 ha2 ha63
  obtain ⟨ub, b7, b0, be⟩ := normal_finite_fields b hb1 hb2 hb63
  have hsb := signBit_eq b hb
  have hscale : floatx80_scale propagateFloatx80NaN2 normalizeRoundAndPackFloatx80
      roundAndPackFloatx80 a b status =
      floatx80_scale_tail roundAndPackFloatx80 a b (a.expField : Int) a.fraction status := by
    simp only [floatx80_scale, ua, ub, a7, b7, a0, Bool.or_self, Bool.false_eq_true, if_false]
    simp only [ae, extractFloatx80Frac]
  have htail : floatx80_scale_tail roundAndPackFloatx80 a b (a.expField : Int) a.fraction
      status =
      if (b.expField : Int) > 0x400E then
        roundAndPackFloatx80 80 (extractFloatx80Sign a)
          (if extractFloatx80Sign b != 0 then -0x3FFF else 0x7FFF) a.fraction 0 status
      else if (b.expField : Int) < 0x3FFF then (a, status)
      else
        roundAndPackFloatx80 80 (extractFloatx80Sign a)
          ((a.expField : Int) +
            (if extractFloatx80Sign b != 0 then
              -toInt32 (b.fraction >>> (0x403E - (b.expField : Int)).toNat)
             else toInt32 (b.fraction >>> (0x403E - (b.expField : Int)).toNat)))
          a.fraction 0 status := by
    simp only [floatx80_scale_tail, b0, Bool.false_and, Bool.false_eq_true, if_false]
    simp only [be, extractFloatx80Frac]
  rw [hscale, htail]
  refine ⟨fun h => ?_, fun h => ?_⟩
  · have c1 : ¬ ((b.expField : Int) > 0x400E) := by omega
    have c2 : (b.expField : Int) < 0x3FFF := by omega
    rw [if_neg c1, if_pos c2]
  · obtain ⟨h1, h2⟩ := h
    have c1 : ¬ ((b.expField : Int) > 0x400E) := by omega
    have c2 : ¬ ((b.expField : Int) < 0x3FFF) := by omega
    have hsh : (0x403E - (b.expField : Int)).toNat = 0x403E - b.expField := by omega
    have hlt : b.fraction >>> (0x403E - b.expField) < 2 ^ 16 := by
      rw [Nat.shiftRight_eq_div_pow]
      have hf := hb.1
      have hp : 2 ^ 48 ≤ 2 ^ (0x403E - b.expField) :=
        Nat.pow_le_pow_right (by decide) (by omega)
      calc b.fraction / 2 ^ (0x403E - b.expField)
          ≤ b.fraction / 2 ^ 48 := Nat.div_le_div_left hp (by positivity)
        _ < 2 ^ 16 := by omega
    rw [if_neg c1, if_neg c2, hsh, toInt32_of_lt _ (by omega)]
    refine ⟨?_, floor_scaled _ _ h1 (by omega), hlt⟩
    have hs : (extractFloatx80Sign b != 0) = b.signBit := by
      rw [hsb, extractFloatx80Sign, Nat.shiftRight_eq_div_pow]
      generalize b.exp / 2 ^ 15 = sb
      by_cases hz : sb = 0
      · subst hz; rfl
      · rw [decide_eq_true (show sb ≠ 0 from hz)]
        simpa using hz
    rw [hs]

/-- Witness for C13: 1.0 scaled by 3.0. -/
theorem floatx80_scale_normal_witness :
    (⟨0xC000000000000000, 0x4000⟩ : floatx80).wf ∧
    (⟨0xC000000000000000, 0x4000⟩ : floatx80).fraction >>>
      (0x403E - (⟨0xC000000000000000, 0x4000⟩ : floatx80).expField) < 2 ^ 16 :=
  ⟨by decide,
   ((floatx80_scale_normal (fun x _ s => (x, s)) (fun _ _ _ _ _ s => (floatx80_default_nan, s))
      (fun _ _ _ _ _ s => (floatx80_default_nan, s))
      ⟨0x8000000000000000, 0x3FFF⟩ ⟨0xC000000000000000, 0x4000⟩ ⟨0, 0⟩
      (by decide) (by decide) (by decide) (by decide) (by decide) (by decide)
      (by decide)).2 ⟨by decide, by decide⟩).2.2⟩

theorem flagSet_of_flagsKept {s t : float_status_t} (h : flagsKept s t)
    (hs : flagSet s float_flag_denormal) : flagSet t float_flag_denormal := by
  rw [flagSet_denormal] at hs ⊢
  exact h 1 hs

theorem flagSet_denormal_raise (s : float_status_t) :
    flagSet (float_raise s float_flag_denormal) float_flag_denormal := by
  rw [flagSet_denormal]
  simp only [float_raise, float_flag_denormal, Nat.testBit_or]
  have : Nat.testBit 2 1 = true := by decide
  rw [this, Bool.or_true]

theorem class_denormal_iff (a : floatx80) :
    floatx80_class a = float_denormal ↔ (a.exp % 2 ^ 15 = 0 ∧ a.fraction ≠ 0) := by
  refine ⟨(class_facts a).2.1, fun h => ?_⟩
  rw [floatx80_class_arith, if_pos h.1, if_neg h.2]

theorem not_nan_fields (a : floatx80) (hn : (floatx80_class a).isNaN = false) :
    floatx80_is_unsupported a = false ∧
    (a.exp % 2 ^ 15 = 0x7fff → a.fraction % 2 ^ 63 = 0) := by
  rw [floatx80_class_arith] at hn
  constructor
  · rw [Bool.eq_false_iff]
    intro h
    rw [floatx80_is_unsupported_iff] at h
    obtain ⟨h1, h2⟩ := h
    simp only [floatx80.expField, floatx80.sigBit, testBit_false_iff] at h1 h2
    rw [if_neg h1, if_pos h2] at hn
    exact absurd hn (by decide)
  · intro h7
    by_contra hz
    have h0 : ¬ a.exp % 2 ^ 15 = 0 := by omega
    rw [if_neg h0] at hn
    split_ifs at hn <;> exact absurd hn (by decide)

theorem floatx80_scale_tail_flagsKept
    (roundAndPackFloatx80 :
      Nat → Nat → Int → Nat → Nat → float_status_t → floatx80 × float_status_t)
    (hr : ∀ p s e z0 z1 st, flagsKept st (roundAndPackFloatx80 p s e z0 z1 st).2)
    (a b : floatx80) (aExp : Int) (aSig : Nat) (status : float_status_t) :
    flagsKept status (floatx80_scale_tail roundAndPackFloatx80 a b aExp aSig status).2 := by
  simp only [floatx80_scale_tail]
  split_ifs <;>
    first
    | exact flagsKept_refl _
    | exact flagsKept_raise _ _
    | exact hr _ _ _ _ _ _
    | exact flagsKept_trans (flagsKept_raise _ _) (hr _ _ _ _ _ _)

theorem floatx80_scale_tail_denormal
    (roundAndPackFloatx80 :
      Nat → Nat → Int → Nat → Nat → float_status_t → floatx80 × float_status_t)
    (hr : ∀ p s e z0 z1 st, flagsKept st (roundAndPackFloatx80 p s e z0 z1 st).2)
    (a b : floatx80) (aExp : Int) (aSig : Nat) (status : float_status_t)
    (hb : b.exp % 2 ^ 15 = 0 ∧ b.fraction ≠ 0) :
    flagSet (floatx80_scale_tail roundAndPackFloatx80 a b aExp aSig status).2
      float_flag_denormal := by
  have e0 : (extractFloatx80Exp b == 0) = true := by
    simp only [extractFloatx80Exp, and_expmask, hb.1]; rfl
  have s0 : (extractFloatx80Frac b == 0) = false := by
    simp only [extractFloatx80Frac, beq_eq_false_iff_ne]; exact hb.2
  simp only [floatx80_scale_tail, e0, s0, Bool.and_false, Bool.false_eq_true, if_false, if_true]
  split_ifs <;>
    first
    | exact flagSet_denormal_raise _
    | exact flagSet_of_flagsKept (hr _ _ _ _ _ _) (flagSet_denormal_raise _)

theorem or_eq_zero_right (x y : Nat) (h : x ||| y = 0) : y = 0 := by
  apply Nat.eq_of_testBit_eq
  intro i
  have h2 : (x ||| y).testBit i = Nat.testBit 0 i := by rw [h]
  rw [Nat.testBit_or, Nat.zero_testBit, Bool.or_eq_false_iff] at h2
  rw [h2.2, Nat.zero_testBit]

/-- C14: `floatx80_scale` flags denormal inputs.  For operands neither of which
classifies as a NaN (so both are supported), if `a` or `b` is a denormal
(exponent field 0, non-zero significand) the denormal flag is set in the status
after the call, whichever branch produces the result.  The absent rounding
routines are assumed to keep flags. -/
theorem floatx80_scale_flags_denormal
    (propagateFloatx80NaN2 : floatx80 → floatx80 → float_status_t → floatx80 × float_status_t)
    (normalizeRoundAndPackFloatx80 roundAndPackFloatx80 :
      Nat → Nat → Int → Nat → Nat → float_status_t → floatx80 × float_status_t)
    (hn : ∀ p s e z0 z1 st, flagsKept st (normalizeRoundAndPackFloatx80 p s e z0 z1 st).2)
    (hr : ∀ p s e z0 z1 st, flagsKept st (roundAndPackFloatx80 p s e z0 z1 st).2)
    (a b : floatx80) (status : float_status_t)
    (hna : (floatx80_class a).isNaN = false) (hnb : (floatx80_class b).isNaN = false)
    (hd : (a.expField = 0 ∧ a.fraction ≠ 0) ∨ (b.expField = 0 ∧ b.fraction ≠ 0)) :
    flagSet
      (floatx80_scale propagateFloatx80NaN2 normalizeRoundAndPackFloatx80 roundAndPackFloatx80
        a b status).2 float_flag_denormal := by
  obtain ⟨ua, na⟩ := not_nan_fields a hna
  obtain ⟨ub, nb⟩ := not_nan_fields b hnb
  simp only [floatx80.expField] at hd
  have hea : extractFloatx80Exp a = ((a.exp % 2 ^ 15 : Nat) : Int) := by
    simp only [extractFloatx80Exp, and_expmask]
  have heb : extractFloatx80Exp b = ((b.exp % 2 ^ 15 : Nat) : Int) := by
    simp only [extractFloatx80Exp, and_expmask]
  simp only [floatx80_scale, ua, ub, Bool.or_self, Bool.false_eq_true, if_false]
  by_cases a7 : a.exp % 2 ^ 15 = 0x7fff
  · -- infinite a: b is the denormal
    have hb : b.exp % 2 ^ 15 = 0 ∧ b.fraction ≠ 0 := by
      rcases hd with h | h
      · omega
      · exact h
    have c1 : (extractFloatx80Exp a == 0x7FFF) = true := by
      rw [hea, a7]; rfl
    have c2 : ((extractFloatx80Frac a <<< 1) % 2 ^ 64 != 0) = false := by
      simp only [extractFloatx80Frac, bne_eq_false_iff_eq]
      exact (shl_one_mod _).mpr (na a7)
    have c3 : (extractFloatx80Exp b == 0x7FFF) = false := by
      rw [heb, hb.1]; rfl
    have c4 : (extractFloatx80Frac b != 0 && extractFloatx80Exp b == 0) = true := by
      have : (extractFloatx80Exp b == 0) = true := by rw [heb, hb.1]; rfl
      simp only [this, Bool.and_true, extractFloatx80Frac, bne_iff_ne]
      exact hb.2
    simp only [c1, c2, c3, c4, Bool.false_and, Bool.or_self, Bool.false_eq_true, if_false,
      if_true]
    exact flagSet_denormal_raise _
  · have c1 : (extractFloatx80Exp a == 0x7FFF) = false := by
      rw [hea, beq_eq_false_iff_ne]; omega
    simp only [c1, Bool.false_eq_true, if_false]
    by_cases b7 : b.exp % 2 ^ 15 = 0x7fff
    · -- infinite b: a is the denormal
      have ha : a.exp % 2 ^ 15 = 0 ∧ a.fraction ≠ 0 := by
        rcases hd with h | h
        · exact h
        · omega
      have d1 : (extractFloatx80Exp b == 0x7FFF) = true := by
        rw [heb, b7]; rfl
      have d2 : ((extractFloatx80Frac b <<< 1) % 2 ^ 64 != 0) = false := by
        simp only [extractFloatx80Frac, bne_eq_false_iff_eq]
        exact (shl_one_mod _).mpr (nb b7)
      have d3 : (((extractFloatx80Exp a).toNat ||| extractFloatx80Frac a) == 0) = false := by
        rw [beq_eq_false_iff_ne]
        intro h
        exact ha.2 (or_eq_zero_right _ _ h)
      have d4 : (extractFloatx80Frac a != 0 && extractFloatx80Exp a == 0) = true := by
        have : (extractFloatx80Exp a == 0) = true := by rw [hea, ha.1]; rfl
        simp only [this, Bool.and_true, extractFloatx80Frac, bne_iff_ne]
        exact ha.2
      simp only [d1, d2, d3, d4, Bool.false_eq_true, if_false, if_true]
      split_ifs <;> exact flagSet_denormal_raise _
    · have d1 : (extractFloatx80Exp b == 0x7FFF) = false := by
        rw [heb, beq_eq_false_iff_ne]; omega
      simp only [d1, Bool.false_eq_true, if_false]
      by_cases a0 : a.exp % 2 ^ 15 = 0
      · have e1 : (extractFloatx80Exp a == 0) = true := by rw [hea, a0]; rfl
        simp only [e1, if_true]
        by_cases sa : a.fraction = 0
        · -- zero a: b is the denormal
          have hb : b.exp % 2 ^ 15 = 0 ∧ b.fraction ≠ 0 := by
            rcases hd with h | h
            · exact absurd sa h.2
            · exact h
          have e2 : (extractFloatx80Frac a == 0) = true := by
            simp only [extractFloatx80Frac, sa]; rfl
          have e3 : (extractFloatx80Frac b != 0 && extractFloatx80Exp b == 0) = true := by
            have : (extractFloatx80Exp b == 0) = true := by rw [heb, hb.1]; rfl
            simp only [this, Bool.and_true, extractFloatx80Frac, bne_iff_ne]
            exact hb.2
          simp only [e2, e3, if_true]
          exact flagSet_denormal_raise _
        · have e2 : (extractFloatx80Frac a == 0) = false := by
            simp only [extractFloatx80Frac, beq_eq_false_iff_ne]; exact sa
          simp only [e2, Bool.false_eq_true, if_false]
          split_ifs <;>
            first
            | exact flagSet_of_flagsKept (hn _ _ _ _ _ _) (flagSet_denormal_raise _)
            | exact flagSet_of_flagsKept
                (floatx80_scale_tail_flagsKept roundAndPackFloatx80 hr _ _ _ _ _)
                (flagSet_denormal_raise _)
      · have e1 : (extractFloatx80Exp a == 0) = false := by
          rw [hea, beq_eq_false_iff_ne]; omega
        simp only [e1, Bool.false_eq_true, if_false]
        have hb : b.exp % 2 ^ 15 = 0 ∧ b.fraction ≠ 0 := by
          rcases hd with h | h
          · exact absurd h.1 a0
          · exact h
        exact floatx80_scale_tail_denormal roundAndPackFloatx80 hr _ _ _ _ _ hb

/-- Witness for C14: a denormal scaled by 1.0, with rounding routines that
leave the status alone. -/
theorem floatx80_scale_flags_denormal_witness :
    (floatx80_class ⟨1, 0⟩).isNaN = false ∧
    (floatx80_class ⟨0x8000000000000000, 0x3FFF⟩).isNaN = false ∧
    flagSet
      (floatx80_scale (fun x _ s => (x, s)) (fun _ _ _ z _ s => (⟨z, 0⟩, s))
        (fun _ _ _ z _ s => (⟨z, 0⟩, s)) ⟨1, 0⟩ ⟨0x8000000000000000, 0x3FFF⟩ ⟨0, 0⟩).2
      float_flag_denormal :=
  ⟨by decide, by decide,
   floatx80_scale_flags_denormal (fun x _ s => (x, s)) (fun _ _ _ z _ s => (⟨z, 0⟩, s))
     (fun _ _ _ z _ s => (⟨z, 0⟩, s)) (fun _ _ _ _ _ st => flagsKept_refl st)
     (fun _ _ _ _ _ st => flagsKept_refl st) ⟨1, 0⟩ ⟨0x8000000000000000, 0x3FFF⟩ ⟨0, 0⟩
     (by decide) (by decide) (Or.inl ⟨by decide, by decide⟩)⟩


/-! ## Theorems: floatx80_scale, range of the scale -/

/-- C21, as stated, fails: for a = 1.0 and b = 65535.0 (exponent field 0x400E,
so the shift is reached) no integer in -32768..32767 is the scale that
`floatx80_scale` adds to the exponent 0x3FFF of `a`: the exponent it passes to
the rounding routine is 0x3FFF + 65535. -/
theorem floatx80_scale_scale_outside_int16 :
    ¬ ∃ t : Int, -32768 ≤ t ∧ t ≤ 32767 ∧
      ∀ roundAndPackFloatx80 :
          Nat → Nat → Int → Nat → Nat → float_status_t → floatx80 × float_status_t,
        floatx80_scale (fun x _ s => (x, s)) (fun _ _ _ _ _ s => (floatx80_default_nan, s))
            roundAndPackFloatx80
            ⟨0x8000000000000000, 0x3FFF⟩ ⟨0xFFFF000000000000, 0x400E⟩ ⟨0, 0⟩ =
          roundAndPackFloatx80 80 0 (0x3FFF + t) 0x8000000000000000 0 ⟨0, 0⟩ := by
  rintro ⟨t, h1, h2, h⟩
  have e := h (fun _ _ zExp _ _ s => (⟨0, zExp.toNat⟩, s))
  have e2 : floatx80_scale (fun x _ s => (x, s)) (fun _ _ _ _ _ s => (floatx80_default_nan, s))
      (fun _ _ zExp _ _ s => (⟨0, zExp.toNat⟩, s))
      ⟨0x8000000000000000, 0x3FFF⟩ ⟨0xFFFF000000000000, 0x400E⟩ ⟨0, 0⟩ =
      (⟨0, 81918⟩, ⟨0, 0⟩) := rfl
  rw [e2] at e
  have e3 : (81918 : Nat) = ((0x3FFF : Int) + t).toNat := by
    have := congrArg (fun p : floatx80 × float_status_t => p.1.exp) e
    simpa using this
  omega

/-- What the part of `floatx80_scale` from the test `if (bExp == 0)` on computes
when `b` is normal with exponent field in 0x3FFF..0x400E. -/
theorem floatx80_scale_tail_shift
    (roundAndPackFloatx80 :
      Nat → Nat → Int → Nat → Nat → float_status_t → floatx80 × float_status_t)
    (a b : floatx80) (aExp : Int) (aSig : Nat) (status : float_status_t) (hb : b.wf)
    (hb1 : 0x3FFF ≤ b.expField) (hb2 : b.expField ≤ 0x400E) (hb63 : b.sigBit 63 = true) :
    floatx80_scale_tail roundAndPackFloatx80 a b aExp aSig status =
      roundAndPackFloatx80 80 (extractFloatx80Sign a)
        (aExp + (if b.signBit then -((b.fraction >>> (0x403E - b.expField) : Nat) : Int)
          else ((b.fraction >>> (0x403E - b.expField) : Nat) : Int)))
        aSig 0 status := by
  obtain ⟨_, _, b0, be⟩ := normal_finite_fields b (by omega) (by omega) hb63
  have hsb := signBit_eq b hb
  simp only [floatx80_scale_tail, b0, Bool.false_and, Bool.false_eq_true, if_false]
  simp only [be, extractFloatx80Frac]
  have c1 : ¬ ((b.expField : Int) > 0x400E) := by omega
  have c2 : ¬ ((b.expField : Int) < 0x3FFF) := by omega
  have hsh : (0x403E - (b.expField : Int)).toNat = 0x403E - b.expField := by omega
  have hlt : b.fraction >>> (0x403E - b.expField) < 2 ^ 16 := by
    rw [Nat.shiftRight_eq_div_pow]
    have hf := hb.1
    have hp : 2 ^ 48 ≤ 2 ^ (0x403E - b.expField) :=
      Nat.pow_le_pow_right (by decide) (by omega)
    calc b.fraction / 2 ^ (0x403E - b.expField)
        ≤ b.fraction / 2 ^ 48 := Nat.div_le_div_left hp (by positivity)
      _ < 2 ^ 16 := by omega
  have hs : (extractFloatx80Sign b != 0) = b.signBit := by
    rw [hsb, extractFloatx80Sign, Nat.shiftRight_eq_div_pow]
    generalize b.exp / 2 ^ 15 = sb
    by_cases hz : sb = 0
    · subst hz; rfl
    · rw [decide_eq_true (show sb ≠ 0 from hz)]
      simpa using hz
  rw [if_neg c1, if_neg c2, hsh, toInt32_of_lt _ (by omega), hs]

/-- Bounds of the magnitude of the scale: the significand of a normal `b` with
exponent field in 0x3FFF..0x400E, shifted right by `0x403E - exponent field`. -/
theorem scale_magnitude_bounds (b : floatx80) (hb : b.wf)
    (hb1 : 0x3FFF ≤ b.expField) (hb2 : b.expField ≤ 0x400E) (hb63 : b.sigBit 63 = true) :
    1 ≤ b.fraction >>> (0x403E - b.expField) ∧ b.fraction >>> (0x403E - b.expField) ≤ 65535 := by
  have h63 : b.fraction / 2 ^ 63 % 2 = 1 := by
    simpa only [floatx80.sigBit, testBit_iff] using hb63
  have hf := hb.1
  rw [Nat.shiftRight_eq_div_pow]
  constructor
  · have hp : 2 ^ (0x403E - b.expField) ≤ 2 ^ 63 :=
      Nat.pow_le_pow_right (by decide) (by omega)
    have h2 : 2 ^ 63 ≤ b.fraction := by omega
    exact (Nat.one_le_div_iff (by positivity)).mpr (le_trans hp h2)
  · have hp : 2 ^ 48 ≤ 2 ^ (0x403E - b.expField) :=
      Nat.pow_le_pow_right (by decide) (by omega)
    have : b.fraction / 2 ^ (0x403E - b.expField) ≤ b.fraction / 2 ^ 48 :=
      Nat.div_le_div_left hp (by positivity)
    omega

/-- What `floatx80_scale` computes when `a` is a denormal and `b` is normal
finite with exponent field at least 0x3FFF: the denormal flag is raised, `a` is
normalized, and the code from the test `if (bExp == 0)` on runs. -/
theorem floatx80_scale_of_denormal
    (propagateFloatx80NaN2 : floatx80 → floatx80 → float_status_t → floatx80 × float_status_t)
    (normalizeRoundAndPackFloatx80 roundAndPackFloatx80 :
      Nat → Nat → Int → Nat → Nat → float_status_t → floatx80 × float_status_t)
    (a b : floatx80) (status : float_status_t)
    (ha0 : a.expField = 0) (haf : a.fraction ≠ 0)
    (hb1 : 0x3FFF ≤ b.expField) (hb2 : b.expField ≤ 0x7FFE) (hb63 : b.sigBit 63 = true) :
    floatx80_scale propagateFloatx80NaN2 normalizeRoundAndPackFloatx80 roundAndPackFloatx80
      a b status =
      floatx80_scale_tail roundAndPackFloatx80 a b (normalizeFloatx80Subnormal a.fraction).1
        (normalizeFloatx80Subnormal a.fraction).2 (float_raise status float_flag_denormal) := by
  obtain ⟨ub, b7, b0, be⟩ := normal_finite_fields b (by omega) hb2 hb63
  have hmask : a.exp &&& 0x7FFF = 0 := by rw [and_expmask]; exact ha0
  have ua : floatx80_is_unsupported a = false := by
    simp only [floatx80_is_unsupported, hmask, bne_self_eq_false, Bool.false_and]
  have ae : extractFloatx80Exp a = 0 := by
    simp only [extractFloatx80Exp, hmask, Nat.cast_zero]
  have c3 : ¬ ((b.expField : Int) < 0x3FFF) := by omega
  have hf : (a.fraction == 0) = false := by simpa using haf
  have h07 : ((0 : Int) == 0x7FFF) = false := by decide
  rw [be] at b7 b0
  simp only [floatx80_scale, ua, ub, ae, be, b7, b0, h07, hf, c3, extractFloatx80Frac,
    Bool.or_self, Bool.false_eq_true, if_false, beq_self_eq_true, if_true, Bool.and_false]

/-- C21, amended: when `b` is normal with exponent field in 0x3FFF..0x400E, so
that `floatx80_scale` reaches the shift, the scale added to the exponent of `a`
is `b` truncated to an integer: its magnitude is the significand of `b` shifted
right by `0x403E - exponent field`, which lies in 1..65535, and its sign is the
sign of `b`, so the scale lies in -65535..65535.  This is the scale on every
path to the shift: in the code from the test `if (bExp == 0)` on, for a normal
finite `a`, and for a denormal `a` after its normalization. -/
theorem floatx80_scale_scale_range
    (propagateFloatx80NaN2 : floatx80 → floatx80 → float_status_t → floatx80 × float_status_t)
    (normalizeRoundAndPackFloatx80 roundAndPackFloatx80 :
      Nat → Nat → Int → Nat → Nat → float_status_t → floatx80 × float_status_t)
    (b : floatx80) (hb : b.wf)
    (hb1 : 0x3FFF ≤ b.expField) (hb2 : b.expField ≤ 0x400E) (hb63 : b.sigBit 63 = true) :
    ∃ scale : Int,
      scale = (if b.signBit then -((b.fraction >>> (0x403E - b.expField) : Nat) : Int)
        else ((b.fraction >>> (0x403E - b.expField) : Nat) : Int)) ∧
      1 ≤ b.fraction >>> (0x403E - b.expField) ∧
      b.fraction >>> (0x403E - b.expField) ≤ 65535 ∧
      -65535 ≤ scale ∧ scale ≤ 65535 ∧ scale ≠ 0 ∧
      (∀ (a : floatx80) (aExp : Int) (aSig : Nat) (status : float_status_t),
        floatx80_scale_tail roundAndPackFloatx80 a b aExp aSig status =
          roundAndPackFloatx80 80 (extractFloatx80Sign a) (aExp + scale) aSig 0 status) ∧
      (∀ (a : floatx80) (status : float_status_t),
        1 ≤ a.expField → a.expField ≤ 0x7FFE → a.sigBit 63 = true →
        floatx80_scale propagateFloatx80NaN2 normalizeRoundAndPackFloatx80
            roundAndPackFloatx80 a b status =
          roundAndPackFloatx80 80 (extractFloatx80Sign a) ((a.expField : Int) + scale)
            a.fraction 0 status) ∧
      (∀ (a : floatx80) (status : float_status_t),
        a.expField = 0 → a.fraction ≠ 0 →
        floatx80_scale propagateFloatx80NaN2 normalizeRoundAndPackFloatx80
            roundAndPackFloatx80 a b status =
          roundAndPackFloatx80 80 (extractFloatx80Sign a)
            ((normalizeFloatx80Subnormal a.fraction).1 + scale)
            (normalizeFloatx80Subnormal a.fraction).2 0
            (float_raise status float_flag_denormal)) := by
  obtain ⟨hn1, hn2⟩ := scale_magnitude_bounds b hb hb1 hb2 hb63
  refine ⟨_, rfl, hn1, hn2, ?_, ?_, ?_, ?_, ?_, ?_⟩
  · split_ifs <;> omega
  · split_ifs <;> omega
  · split_ifs <;> omega
  · intro a aExp aSig status
    exact floatx80_scale_tail_shift roundAndPackFloatx80 a b aExp aSig status hb hb1 hb2 hb63
  · intro a status ha1 ha2 ha63
    obtain ⟨ua, a7, a0, ae⟩ := normal_finite_fields a ha1 ha2 ha63
    obtain ⟨ub, b7, _, _⟩ := normal_finite_fields b (by omega) (by omega) hb63
    have hscale : floatx80_scale propagateFloatx80NaN2 normalizeRoundAndPackFloatx80
        roundAndPackFloatx80 a b status =
        floatx80_scale_tail roundAndPackFloatx80 a b (a.expField : Int) a.fraction status := by
      simp only [floatx80_scale, ua, ub, a7, b7, a0, Bool.or_self, Bool.false_eq_true, if_false]
      simp only [ae, extractFloatx80Frac]
    rw [hscale]
    exact floatx80_scale_tail_shift roundAndPackFloatx80 a b _ _ status hb hb1 hb2 hb63
  · intro a status ha0 haf
    rw [floatx80_scale_of_denormal _ _ _ a b status ha0 haf hb1 (by omega) hb63]
    exact floatx80_scale_tail_shift roundAndPackFloatx80 a b _ _ _ hb hb1 hb2 hb63

/-- Witness for the amended C21: b = 65535.0, whose scale is 65535. -/
theorem floatx80_scale_scale_range_witness :
    (⟨0xFFFF000000000000, 0x400E⟩ : floatx80).wf ∧
    ∃ scale : Int,
      scale = (if (⟨0xFFFF000000000000, 0x400E⟩ : floatx80).signBit then
          -(((⟨0xFFFF000000000000, 0x400E⟩ : floatx80).fraction >>>
            (0x403E - (⟨0xFFFF000000000000, 0x400E⟩ : floatx80).expField) : Nat) : Int)
        else (((⟨0xFFFF000000000000, 0x400E⟩ : floatx80).fraction >>>
            (0x403E - (⟨0xFFFF000000000000, 0x400E⟩ : floatx80).expField) : Nat) : Int)) ∧
      -65535 ≤ scale ∧ scale ≤ 65535 :=
  ⟨by decide,
   (floatx80_scale_scale_range (fun x _ s => (x, s))
      (fun _ _ _ _ _ s => (floatx80_default_nan, s))
      (fun _ _ _ _ _ s => (floatx80_default_nan, s))
      ⟨0xFFFF000000000000, 0x400E⟩ (by decide) (by decide) (by decide) (by decide)).imp
     (fun _ h => ⟨h.1, h.2.2.2.1, h.2.2.2.2.1⟩)⟩

/-! ## Theorems: floatx80_compare, entire effect on the status -/

theorem floatx80_compare_snd (a b : floatx80) (quiet : Int) (status : float_status_t) :
    (floatx80_compare a b quiet status).2 =
      if floatx80_class a = float_SNaN ∨ floatx80_class b = float_SNaN then
        float_raise status float_flag_invalid
      else if floatx80_class a = float_QNaN ∨ floatx80_class b = float_QNaN then
        (if quiet = 0 then float_raise status float_flag_invalid else status)
      else if floatx80_class a = float_denormal ∨ floatx80_class b = float_denormal then
        float_raise status float_flag_denormal
      else status := by
  simp only [floatx80_compare]
  generalize floatx80_class a = ca
  generalize floatx80_class b = cb
  cases ca <;> cases cb <;> simp <;> split_ifs <;> rfl

theorem flagSet_raise_iff (s : float_status_t) (f g : Nat) :
    flagSet (float_raise s f) g ↔ flagSet s g ∨ f &&& g ≠ 0 := by
  simp only [flagSet, float_raise, Nat.and_comm _ g]
  rw [Nat.and_or_distrib_left]
  constructor
  · intro h
    by_contra hc
    push_neg at hc
    rw [hc.1, hc.2] at h
    exact h rfl
  · rintro (h | h) hc
    · exact h (by
        have := or_eq_zero_right (g &&& f) (g &&& s.float_exception_flags) (by rw [Nat.or_comm]; exact hc)
        exact this)
    · exact h (or_eq_zero_right _ _ hc)

/-- C22: `floatx80_compare` raises the denormal flag exactly when neither
operand classifies as a NaN and at least one classifies as a denormal (the flag
is set afterwards iff it was set before or that condition holds); the flags
divide-by-zero, overflow, underflow and inexact are after the call what they
were before; and the status after the call is the status before with invalid
raised by the invalid rule, else with denormal raised by the denormal rule,
else unchanged. -/
theorem floatx80_compare_status_effect (a b : floatx80) (quiet : Int)
    (status : float_status_t) :
    (flagSet (floatx80_compare a b quiet status).2 float_flag_denormal ↔
      flagSet status float_flag_denormal ∨
        ((floatx80_class a).isNaN = false ∧ (floatx80_class b).isNaN = false ∧
          (floatx80_class a = float_denormal ∨ floatx80_class b = float_denormal))) ∧
    (flagSet (floatx80_compare a b quiet status).2 float_flag_divbyzero ↔
      flagSet status float_flag_divbyzero) ∧
    (flagSet (floatx80_compare a b quiet status).2 float_flag_overflow ↔
      flagSet status float_flag_overflow) ∧
    (flagSet (floatx80_compare a b quiet status).2 float_flag_underflow ↔
      flagSet status float_flag_underflow) ∧
    (flagSet (floatx80_compare a b quiet status).2 float_flag_inexact ↔
      flagSet status float_flag_inexact) ∧
    (floatx80_compare a b quiet status).2 =
      (if floatx80_class a = float_SNaN ∨ floatx80_class b = float_SNaN ∨
          (quiet = 0 ∧ (floatx80_class a = float_QNaN ∨ floatx80_class b = float_QNaN)) then
        float_raise status float_flag_invalid
      else if (floatx80_class a).isNaN = false ∧ (floatx80_class b).isNaN = false ∧
          (floatx80_class a = float_denormal ∨ floatx80_class b = float_denormal) then
        float_raise status float_flag_denormal
      else status) := by
  rw [floatx80_compare_snd]
  generalize floatx80_class a = ca
  generalize floatx80_class b = cb
  refine ⟨?_, ?_, ?_, ?_, ?_, ?_⟩
  · by_cases hq : quiet = 0 <;> cases ca <;> cases cb <;>
      simp [hq, flagSet_raise_iff, float_class_t.isNaN, float_flag_invalid, float_flag_denormal]
  iterate 4
    by_cases hq : quiet = 0 <;> cases ca <;> cases cb <;>
      simp [hq, flagSet_raise_iff, float_flag_invalid, float_flag_denormal,
        float_flag_divbyzero, float_flag_overflow, float_flag_underflow, float_flag_inexact,
        (by decide : (1 : Nat) &&& 4 = 0), (by decide : (1 : Nat) &&& 8 = 0),
        (by decide : (1 : Nat) &&& 16 = 0), (by decide : (1 : Nat) &&& 32 = 0),
        (by decide : (2 : Nat) &&& 4 = 0), (by decide : (2 : Nat) &&& 8 = 0),
        (by decide : (2 : Nat) &&& 16 = 0), (by decide : (2 : Nat) &&& 32 = 0)]
  · by_cases hq : quiet = 0 <;> cases ca <;> cases cb <;>
      simp [hq, float_class_t.isNaN]

/-! ## Theorems: floatx80_scale undoes floatx80_extract -/

/-- What `floatx80_extract` computes on a normal finite operand. -/
theorem floatx80_extract_of_normal
    (propagateFloatx80NaN : floatx80 → float_status_t → floatx80 × float_status_t)
    (int32_to_floatx80 : Int → floatx80)
    (a : floatx80) (status : float_status_t) (ha : a.wf)
    (he1 : 1 ≤ a.expField) (he2 : a.expField ≤ 0x7FFE) (h63 : a.sigBit 63 = true) :
    floatx80_extract propagateFloatx80NaN int32_to_floatx80 a status =
      (int32_to_floatx80 ((a.expField : Int) - 0x3FFF),
       { fraction := a.fraction, exp := a.exp / 2 ^ 15 * 2 ^ 15 + 0x3FFF },
       status) := by
  simp only [floatx80.expField] at he1 he2 ⊢
  simp only [floatx80.sigBit, testBit_iff] at h63
  have hmask : a.exp &&& 0x7FFF = a.exp % 2 ^ 15 := and_expmask _
  have hb : ¬ (a.fraction &&& 0x8000000000000000 = 0) := by
    rw [and_bit63]; omega
  have h2 : ¬ (((a.exp % 2 ^ 15 : Nat) : Int) = 0x7FFF) := by omega
  have h3 : ¬ (((a.exp % 2 ^ 15 : Nat) : Int) = 0) := by omega
  have hexp : ((a.exp >>> 15 <<< 15) + 0x3FFF) % 2 ^ 16 = a.exp / 2 ^ 15 * 2 ^ 15 + 0x3FFF := by
    have := ha.2
    rw [Nat.shiftLeft_eq, Nat.shiftRight_eq_div_pow]; omega
  simp only [floatx80_extract, floatx80_is_unsupported, extractFloatx80Exp,
    extractFloatx80Frac, extractFloatx80Sign, hmask, beq_iff_eq, bne_iff_ne, hb, h2, h3,
    Bool.and_eq_true, and_false, false_and, if_false, Bool.false_eq_true, ne_eq, hexp]

/-- What `floatx80_scale` computes when `a` is normal finite and `b` is a zero. -/
theorem floatx80_scale_by_zero
    (propagateFloatx80NaN2 : floatx80 → floatx80 → float_status_t → floatx80 × float_status_t)
    (normalizeRoundAndPackFloatx80 roundAndPackFloatx80 :
      Nat → Nat → Int → Nat → Nat → float_status_t → floatx80 × float_status_t)
    (a b : floatx80) (status : float_status_t)
    (ha1 : 1 ≤ a.expField) (ha2 : a.expField ≤ 0x7FFE) (ha63 : a.sigBit 63 = true)
    (hb : floatx80_class b = float_zero) :
    floatx80_scale propagateFloatx80NaN2 normalizeRoundAndPackFloatx80 roundAndPackFloatx80
      a b status = (a, status) := by
  obtain ⟨ua, a7, a0, _⟩ := normal_finite_fields a ha1 ha2 ha63
  obtain ⟨hb0, hbf⟩ := (class_facts b).1 hb
  have ub : floatx80_is_unsupported b = false := by
    simp only [floatx80_is_unsupported, and_expmask, hb0, bne_self_eq_false, Bool.false_and]
  have be : extractFloatx80Exp b = 0 := by
    simp only [extractFloatx80Exp, and_expmask, hb0, Nat.cast_zero]
  have b7 : (extractFloatx80Exp b == 0x7FFF) = false := by rw [be]; rfl
  simp only [floatx80_scale, ua, ub, a7, b7, a0, Bool.or_self, Bool.false_eq_true, if_false]
  simp only [floatx80_scale_tail, be, extractFloatx80Frac, hbf, beq_self_eq_true, Bool.and_self,
    if_true]

/-- What `floatx80_scale` computes when both operands are normal finite. -/
theorem floatx80_scale_of_normal
    (propagateFloatx80NaN2 : floatx80 → floatx80 → float_status_t → floatx80 × float_status_t)
    (normalizeRoundAndPackFloatx80 roundAndPackFloatx80 :
      Nat → Nat → Int → Nat → Nat → float_status_t → floatx80 × float_status_t)
    (a b : floatx80) (status : float_status_t)
    (ha1 : 1 ≤ a.expField) (ha2 : a.expField ≤ 0x7FFE) (ha63 : a.sigBit 63 = true)
    (hb1 : 1 ≤ b.expField) (hb2 : b.expField ≤ 0x7FFE) (hb63 : b.sigBit 63 = true) :
    floatx80_scale propagateFloatx80NaN2 normalizeRoundAndPackFloatx80 roundAndPackFloatx80
      a b status =
      if (b.expField : Int) > 0x400E then
        roundAndPackFloatx80 80 (extractFloatx80Sign a)
          (if extractFloatx80Sign b != 0 then -0x3FFF else 0x7FFF) a.fraction 0 status
      else if (b.expField : Int) < 0x3FFF then (a, status)
      else
        roundAndPackFloatx80 80 (extractFloatx80Sign a)
          ((a.expField : Int) +
            (if extractFloatx80Sign b != 0 then
              -toInt32 (b.fraction >>> (0x403E - (b.expField : Int)).toNat)
             else toInt32 (b.fraction >>> (0x403E - (b.expField : Int)).toNat)))
          a.fraction 0 status := by
  obtain ⟨ua, a7, a0, ae⟩ := normal_finite_fields a ha1 ha2 ha63
  obtain ⟨ub, b7, b0, be⟩ := normal_finite_fields b hb1 hb2 hb63
  simp only [floatx80_scale, ua, ub, a7, b7, a0, Bool.or_self, Bool.false_eq_true, if_false]
  simp only [ae, extractFloatx80Frac]
  simp only [floatx80_scale_tail, b0, Bool.false_and, Bool.false_eq_true, if_false]
  simp only [be, extractFloatx80Frac]


/-- An encoding that classifies as normalized and whose value is an integer `k`
of magnitude below 2^15 has its exponent field in 0x3FFF..0x400E, and its
significand shifted right by `0x403E - exponent field`, with the sign of the
encoding, is `k`. -/
theorem shift_of_integer_value (e : floatx80) (k : Int)
    (hc : floatx80_class e = float_normalized)
    (hf : e.fraction < 2 ^ 64)
    (hv : e.val = (((k : ℚ) : WithTop ℚ) : WithBot (WithTop ℚ)))
    (hk1 : -32768 < k) (hk2 : k < 32768) :
    0x3FFF ≤ e.expField ∧ e.expField ≤ 0x400E ∧
    (if e.signBit then -((e.fraction >>> (0x403E - e.expField) : Nat) : Int)
      else ((e.fraction >>> (0x403E - e.expField) : Nat) : Int)) = k := by
  obtain ⟨h0, _, h63⟩ := (class_facts e).2.2.1 hc
  unfold floatx80.val at hv
  rw [hc] at hv
  simp only [] at hv
  have hq := WithTop.coe_injective (WithBot.coe_injective hv)
  have hmax : max e.expField 1 = e.expField := by
    simp only [floatx80.expField]; omega
  rw [hmax] at hq
  have hE : e.expField = e.exp % 2 ^ 15 := rfl
  generalize e.expField = E at hq hE ⊢
  have hf1 : (2 : ℚ) ^ 63 ≤ (e.fraction : ℚ) := by
    have : 2 ^ 63 ≤ e.fraction := by omega
    exact_mod_cast this
  have hf2 : (e.fraction : ℚ) < 2 ^ 64 := by exact_mod_cast hf
  have hpos : (0 : ℚ) < (e.fraction : ℚ) * 2 ^ ((E : Int) - 16383 - 63) := by
    have : (0 : ℚ) < (e.fraction : ℚ) := lt_of_lt_of_le (by positivity) hf1
    positivity
  -- the magnitude is a natural number below 2^15
  obtain ⟨n, hn, hnk⟩ : ∃ n : Nat, (e.fraction : ℚ) * 2 ^ ((E : Int) - 16383 - 63) = (n : ℚ) ∧
      (if e.signBit then -(n : Int) else (n : Int)) = k := by
    by_cases hs : e.signBit = true
    · rw [if_pos hs] at hq
      have h1 : (e.fraction : ℚ) * 2 ^ ((E : Int) - 16383 - 63) = ((-k : Int) : ℚ) := by
        push_cast; linarith
      have h2 : (0 : Int) ≤ -k := by
        have : (0 : ℚ) < ((-k : Int) : ℚ) := h1 ▸ hpos
        have : (0 : Int) < -k := by exact_mod_cast this
        omega
      obtain ⟨n, hn⟩ := Int.eq_ofNat_of_zero_le h2
      refine ⟨n, ?_, ?_⟩
      · rw [h1, hn]; norm_cast
      · rw [if_pos hs]; omega
    · rw [if_neg hs] at hq
      have h1 : (e.fraction : ℚ) * 2 ^ ((E : Int) - 16383 - 63) = ((k : Int) : ℚ) := by
        linarith
      have h2 : (0 : Int) ≤ k := by
        have : (0 : ℚ) < ((k : Int) : ℚ) := h1 ▸ hpos
        have : (0 : Int) < k := by exact_mod_cast this
        omega
      obtain ⟨n, hn⟩ := Int.eq_ofNat_of_zero_le h2
      refine ⟨n, ?_, ?_⟩
      · rw [h1, hn]; norm_cast
      · rw [if_neg hs]; omega
  have hn1 : 1 ≤ n := by
    have : (0 : ℚ) < (n : ℚ) := hn ▸ hpos
    have : 0 < n := by exact_mod_cast this
    omega
  have hn2 : n < 32768 := by
    split_ifs at hnk <;> omega
  have hlo : 0x3FFF ≤ E := by
    by_contra hcon
    have hz : ((E : Int) - 16383 - 63) ≤ -64 := by omega
    have hp : (2 : ℚ) ^ ((E : Int) - 16383 - 63) ≤ 2 ^ (-64 : Int) :=
      zpow_le_zpow_right₀ (by norm_num) hz
    have : (e.fraction : ℚ) * 2 ^ ((E : Int) - 16383 - 63) < 1 := by
      calc (e.fraction : ℚ) * 2 ^ ((E : Int) - 16383 - 63)
          ≤ (e.fraction : ℚ) * 2 ^ (-64 : Int) :=
            mul_le_mul_of_nonneg_left hp (by positivity)
        _ < 2 ^ 64 * 2 ^ (-64 : Int) :=
            mul_lt_mul_of_pos_right hf2 (by positivity)
        _ = 1 := by norm_num
    rw [hn] at this
    have : n < 1 := by exact_mod_cast this
    omega
  have hhi : E ≤ 0x400E := by
    by_contra hcon
    have hz : (-47 : Int) ≤ ((E : Int) - 16383 - 63) := by omega
    have hp : (2 : ℚ) ^ (-47 : Int) ≤ 2 ^ ((E : Int) - 16383 - 63) :=
      zpow_le_zpow_right₀ (by norm_num) hz
    have : (65536 : ℚ) ≤ (e.fraction : ℚ) * 2 ^ ((E : Int) - 16383 - 63) := by
      calc (65536 : ℚ) = 2 ^ 63 * 2 ^ (-47 : Int) := by norm_num
        _ ≤ (e.fraction : ℚ) * 2 ^ (-47 : Int) :=
            mul_le_mul_of_nonneg_right hf1 (by positivity)
        _ ≤ (e.fraction : ℚ) * 2 ^ ((E : Int) - 16383 - 63) :=
            mul_le_mul_of_nonneg_left hp (by positivity)
    rw [hn] at this
    have : 65536 ≤ n := by exact_mod_cast this
    omega
  have hfl := floor_scaled e.fraction E hlo (by omega)
  rw [hn, Nat.floor_natCast] at hfl
  rw [← hfl]
  exact ⟨hlo, hhi, hnk⟩

theorem int32_to_floatx80_model_val_three :
    (int32_to_floatx80_model (((⟨0x8000000000000000, 0x4002⟩ : floatx80).expField : Int) - 0x3FFF)).val =
      ((((((⟨0x8000000000000000, 0x4002⟩ : floatx80).expField : Int) - 0x3FFF : Int) : ℚ) :
        WithTop ℚ) : WithBot (WithTop ℚ)) := by
  have e1 : int32_to_floatx80_model
      (((⟨0x8000000000000000, 0x4002⟩ : floatx80).expField : Int) - 0x3FFF) =
      ⟨0xC000000000000000, 0x4000⟩ := by decide
  have e2 : (((⟨0x8000000000000000, 0x4002⟩ : floatx80).expField : Int) - 0x3FFF) = 3 := by
    decide
  rw [e1, e2]
  have hc : floatx80_class ⟨0xC000000000000000, 0x4000⟩ = float_normalized := by decide
  have hs : (⟨0xC000000000000000, 0x4000⟩ : floatx80).signBit = false := by decide
  have hx : (((max (⟨0xC000000000000000, 0x4000⟩ : floatx80).expField 1 : Nat) : Int)
      - 16383 - 63) = -62 := by decide
  unfold floatx80.val
  rw [hc]
  simp only []
  rw [hs, hx]
  norm_num

/-- C23: scale undoes extract.  For a normal finite `a` (exponent field in
1..0x7FFE, bit 63 set), `floatx80_scale` applied to the significand that
`floatx80_extract` stores and the exponent it returns gives back `a` bit for
bit and leaves the status as it was before the two calls, so no flag is raised.
The two absent routines enter by what they compute here: `int32_to_floatx80`
converts the integer `exponent field - 0x3FFF` exactly (a zero or a normalized
encoding of that value), and `roundAndPackFloatx80` at precision 80 packs a
normalized significand with a zero low word and an exponent in 1..0x7FFE
unchanged, raising nothing. -/
theorem floatx80_scale_undoes_extract
    (propagateFloatx80NaN : floatx80 → float_status_t → floatx80 × float_status_t)
    (int32_to_floatx80 : Int → floatx80)
    (propagateFloatx80NaN2 : floatx80 → floatx80 → float_status_t → floatx80 × float_status_t)
    (normalizeRoundAndPackFloatx80 roundAndPackFloatx80 :
      Nat → Nat → Int → Nat → Nat → float_status_t → floatx80 × float_status_t)
    (a : floatx80) (status : float_status_t)
    (ha : a.wf) (he1 : 1 ≤ a.expField) (he2 : a.expField ≤ 0x7FFE)
    (h63 : a.sigBit 63 = true)
    (hconv : (int32_to_floatx80 ((a.expField : Int) - 0x3FFF)).wf ∧
      (floatx80_class (int32_to_floatx80 ((a.expField : Int) - 0x3FFF)) = float_zero ∨
        floatx80_class (int32_to_floatx80 ((a.expField : Int) - 0x3FFF)) = float_normalized) ∧
      (int32_to_floatx80 ((a.expField : Int) - 0x3FFF)).val =
        (((((a.expField : Int) - 0x3FFF : Int) : ℚ) : WithTop ℚ) : WithBot (WithTop ℚ)))
    (hround : ∀ (zSign : Nat) (zExp : Int) (zSig : Nat) (st : float_status_t),
      1 ≤ zExp → zExp ≤ 0x7FFE → 2 ^ 63 ≤ zSig → zSig < 2 ^ 64 →
      roundAndPackFloatx80 80 zSign zExp zSig 0 st = (packFloatx80 zSign zExp.toNat zSig, st)) :
    floatx80_scale propagateFloatx80NaN2 normalizeRoundAndPackFloatx80 roundAndPackFloatx80
      (floatx80_extract propagateFloatx80NaN int32_to_floatx80 a status).2.1
      (floatx80_extract propagateFloatx80NaN int32_to_floatx80 a status).1
      (floatx80_extract propagateFloatx80NaN int32_to_floatx80 a status).2.2 = (a, status) := by
  rw [floatx80_extract_of_normal propagateFloatx80NaN int32_to_floatx80 a status ha he1 he2 h63]
  simp only []
  obtain ⟨hew, hcls, hval⟩ := hconv
  generalize int32_to_floatx80 ((a.expField : Int) - 0x3FFF) = e at hew hcls hval
  obtain ⟨haf, hax⟩ := ha
  have hE : a.expField = a.exp % 2 ^ 15 := rfl
  have hbit : a.fraction / 2 ^ 63 % 2 = 1 := by
    simpa only [floatx80.sigBit, testBit_iff] using h63
  have hs1 : ({ fraction := a.fraction, exp := a.exp / 2 ^ 15 * 2 ^ 15 + 0x3FFF } :
      floatx80).expField = 0x3FFF := by
    simp only [floatx80.expField]; omega
  have hs63 : ({ fraction := a.fraction, exp := a.exp / 2 ^ 15 * 2 ^ 15 + 0x3FFF } :
      floatx80).sigBit 63 = true := h63
  rcases hcls with hz | hn
  · rw [floatx80_scale_by_zero _ _ _ _ e status (by rw [hs1]; decide) (by rw [hs1]; decide)
      hs63 hz]
    rw [val_of_zero e hz] at hval
    have hq := WithTop.coe_injective (WithBot.coe_injective hval)
    have hk : (0 : Int) = (a.expField : Int) - 0x3FFF := by exact_mod_cast hq
    have hx : a.exp / 2 ^ 15 * 2 ^ 15 + 0x3FFF = a.exp := by omega
    rw [hx]
  · obtain ⟨hlo, hhi, hk⟩ := shift_of_integer_value e ((a.expField : Int) - 0x3FFF) hn hew.1
      hval (by omega) (by omega)
    obtain ⟨_, _, he63⟩ := (class_facts e).2.2.1 hn
    have hes : e.sigBit 63 = true := by
      simp only [floatx80.sigBit, testBit_iff]; exact he63
    rw [floatx80_scale_of_normal _ _ _ _ e status (by rw [hs1]; decide) (by rw [hs1]; decide)
      hs63 (by omega) (by omega) hes]
    have c1 : ¬ ((e.expField : Int) > 0x400E) := by omega
    have c2 : ¬ ((e.expField : Int) < 0x3FFF) := by omega
    have hsh : (0x403E - (e.expField : Int)).toNat = 0x403E - e.expField := by omega
    have hlt : e.fraction >>> (0x403E - e.expField) < 2 ^ 31 := by
      split_ifs at hk <;> omega
    have hs : (extractFloatx80Sign e != 0) = e.signBit := by
      rw [signBit_eq e hew, extractFloatx80Sign, Nat.shiftRight_eq_div_pow]
      generalize e.exp / 2 ^ 15 = sb
      by_cases hz : sb = 0
      · subst hz; rfl
      · rw [decide_eq_true (show sb ≠ 0 from hz)]
        simpa using hz
    rw [if_neg c1, if_neg c2, hsh, toInt32_of_lt _ hlt, hs, hk, hs1]
    have hexp : ((0x3FFF : Nat) : Int) + ((a.expField : Int) - 0x3FFF) = (a.expField : Int) := by
      omega
    rw [hexp, hround _ _ _ _ (by omega) (by omega) (by omega) haf]
    have hpk : packFloatx80
        (extractFloatx80Sign { fraction := a.fraction, exp := a.exp / 2 ^ 15 * 2 ^ 15 + 0x3FFF })
        (a.expField : Int).toNat a.fraction = a := by
      simp only [packFloatx80, extractFloatx80Sign, Nat.shiftLeft_eq, Nat.shiftRight_eq_div_pow,
        Int.toNat_ofNat]
      have hx : ((a.exp / 2 ^ 15 * 2 ^ 15 + 0x3FFF) / 2 ^ 15 * 2 ^ 15 + a.expField) % 2 ^ 16 =
          a.exp := by omega
      rw [hx]
    rw [hpk]

/-- Witness for C23: the operand 8.0, whose exponent 3 converts to 3.0; the
rounding routine is the one that packs its operands unchanged. -/
theorem floatx80_scale_undoes_extract_witness :
    floatx80_scale (fun x _ s => (x, s)) (fun _ _ _ _ _ s => (floatx80_default_nan, s))
      (fun _ zSign zExp zSig _ s => (packFloatx80 zSign zExp.toNat zSig, s))
      (floatx80_extract propagateFloatx80NaN_model int32_to_floatx80_model
        ⟨0x8000000000000000, 0x4002⟩ ⟨0, 0⟩).2.1
      (floatx80_extract propagateFloatx80NaN_model int32_to_floatx80_model
        ⟨0x8000000000000000, 0x4002⟩ ⟨0, 0⟩).1
      (floatx80_extract propagateFloatx80NaN_model int32_to_floatx80_model
        ⟨0x8000000000000000, 0x4002⟩ ⟨0, 0⟩).2.2 = (⟨0x8000000000000000, 0x4002⟩, ⟨0, 0⟩) :=
  floatx80_scale_undoes_extract propagateFloatx80NaN_model int32_to_floatx80_model
    (fun x _ s => (x, s)) (fun _ _ _ _ _ s => (floatx80_default_nan, s))
    (fun _ zSign zExp zSig _ s => (packFloatx80 zSign zExp.toNat zSig, s))
    ⟨0x8000000000000000, 0x4002⟩ ⟨0, 0⟩ (by decide) (by decide) (by decide) (by decide)
    ⟨by decide, Or.inr (by decide), int32_to_floatx80_model_val_three⟩
    (fun _ _ _ _ _ _ _ _ => rfl)

/-! ## Theorems: floatx80_compare, antisymmetry and reflexivity -/

/-- C24: on encodings neither of which classifies as a NaN, and for every value
of `quiet`, `floatx80_compare` is antisymmetric and reflexive: `compare a b` is
less iff `compare b a` is greater, `compare a b` is equal iff `compare b a` is
equal, `compare a a` is equal, two operands that classify as zeros compare
equal, and in particular positive zero and negative zero compare equal in both
orders. -/
theorem floatx80_compare_antisymmetric (a b : floatx80) (quiet : Int)
    (status status2 : float_status_t) (ha : a.wf) (hb : b.wf)
    (hna : (floatx80_class a).isNaN = false) (hnb : (floatx80_class b).isNaN = false) :
    ((floatx80_compare a b quiet status).1 = float_relation_less ↔
      (floatx80_compare b a quiet status2).1 = float_relation_greater) ∧
    ((floatx80_compare a b quiet status).1 = float_relation_equal ↔
      (floatx80_compare b a quiet status2).1 = float_relation_equal) ∧
    (floatx80_compare a a quiet status).1 = float_relation_equal ∧
    (floatx80_class a = float_zero → floatx80_class b = float_zero →
      (floatx80_compare a b quiet status).1 = float_relation_equal) ∧
    (floatx80_compare ⟨0, 0⟩ ⟨0, 0x8000⟩ quiet status).1 = float_relation_equal ∧
    (floatx80_compare ⟨0, 0x8000⟩ ⟨0, 0⟩ quiet status).1 = float_relation_equal := by
  refine ⟨?_, ?_, ?_, ?_, ?_, ?_⟩
  · rcases compare_relation_and_order a b quiet status ha hb hna hnb with
      ⟨hr, hv⟩ | ⟨hr, hv⟩ | ⟨hr, hv⟩ <;>
    rcases compare_relation_and_order b a quiet status2 hb ha hnb hna with
      ⟨hr2, hv2⟩ | ⟨hr2, hv2⟩ | ⟨hr2, hv2⟩ <;>
    rw [hr, hr2] <;>
    first
      | exact ⟨fun _ => rfl, fun _ => rfl⟩
      | exact ⟨fun h => absurd h (by decide), fun h => absurd h (by decide)⟩
      | exact absurd hv (lt_asymm hv2)
      | exact absurd hv (hv2 ▸ lt_irrefl _)
      | exact absurd hv2 (hv ▸ lt_irrefl _)
  · rcases compare_relation_and_order a b quiet status ha hb hna hnb with
      ⟨hr, hv⟩ | ⟨hr, hv⟩ | ⟨hr, hv⟩ <;>
    rcases compare_relation_and_order b a quiet status2 hb ha hnb hna with
      ⟨hr2, hv2⟩ | ⟨hr2, hv2⟩ | ⟨hr2, hv2⟩ <;>
    rw [hr, hr2] <;>
    first
      | exact ⟨fun _ => rfl, fun _ => rfl⟩
      | exact ⟨fun h => absurd h (by decide), fun h => absurd h (by decide)⟩
      | exact absurd hv (lt_asymm hv2)
      | exact absurd hv (hv2 ▸ lt_irrefl _)
      | exact absurd hv2 (hv ▸ lt_irrefl _)
  · rcases compare_relation_and_order a a quiet status ha ha hna hna with
      ⟨_, hv⟩ | ⟨hr, _⟩ | ⟨_, hv⟩
    · exact absurd hv (lt_irrefl _)
    · exact hr
    · exact absurd hv (lt_irrefl _)
  · intro hza hzb
    rw [floatx80_compare_fst_of_not_nan a b quiet status hna hnb, if_pos hza, if_pos hzb]
  · rw [floatx80_compare_fst_of_not_nan _ _ quiet status (by decide) (by decide)]
    decide
  · rw [floatx80_compare_fst_of_not_nan _ _ quiet status (by decide) (by decide)]
    decide

/-- Witness for C24: 1.0 against -2.0. -/
theorem floatx80_compare_antisymmetric_witness :
    (⟨0x8000000000000000, 0x3FFF⟩ : floatx80).wf ∧
    (⟨0x8000000000000000, 0xC000⟩ : floatx80).wf ∧
    (floatx80_class ⟨0x8000000000000000, 0x3FFF⟩).isNaN = false ∧
    (floatx80_class ⟨0x8000000000000000, 0xC000⟩).isNaN = false ∧
    (floatx80_compare ⟨0x8000000000000000, 0xC000⟩ ⟨0x8000000000000000, 0x3FFF⟩ 1 ⟨0, 0⟩).1 =
      float_relation_less ∧
    (floatx80_compare ⟨0x8000000000000000, 0x3FFF⟩ ⟨0x8000000000000000, 0xC000⟩ 1 ⟨0, 0⟩).1 =
      float_relation_greater :=
  ⟨by decide, by decide, by decide, by decide, by decide,
   (floatx80_compare_antisymmetric ⟨0x8000000000000000, 0xC000⟩ ⟨0x8000000000000000, 0x3FFF⟩ 1
      ⟨0, 0⟩ ⟨0, 0⟩ (by decide) (by decide) (by decide) (by decide)).1.mp (by decide)⟩

/-! ## Theorems: the predicate table and complement -/

theorem float32_predicate_complement (i : Fin 32) :
    ∃ (quiet : Bool) (p : float_relation → Bool),
      ∀ (cs cq : float32_base_compare) (a b : float32) (s : float_status_t),
        float32_predicate i cs cq a b s =
          (boolToInt (p ((if quiet then cq else cs) a b s).1),
            ((if quiet then cq else cs) a b s).2) ∧
        float32_predicate (i ^^^ 4) cs cq a b s =
          (boolToInt (!p ((if quiet then cq else cs) a b s).1),
            ((if quiet then cq else cs) a b s).2) := by
  fin_cases i
  · refine ⟨true, fun r => (r == float_relation_equal), fun cs cq a b s => ?_⟩
    have e : ((⟨0x00, by decide⟩ : Fin 32) ^^^ 4) = ⟨0x04, by decide⟩ := by decide
    simp only [e, float32_predicate, float32_eq_ordered_quiet, float32_neq_unordered_quiet, if_true,
      Bool.false_eq_true, if_false]
    generalize (cq a b s).1 = r
    cases r <;> simp [boolToInt]
  · refine ⟨false, fun r => (r == float_relation_less), fun cs cq a b s => ?_⟩
    have e : ((⟨0x01, by decide⟩ : Fin 32) ^^^ 4) = ⟨0x05, by decide⟩ := by decide
    simp only [e, float32_predicate, float32_lt_ordered_signalling, float32_nlt_unordered_signalling, if_true,
      Bool.false_eq_true, if_false]
    generalize (cs a b s).1 = r
    cases r <;> simp [boolToInt]
  · refine ⟨false, fun r => (r == float_relation_less) || (r == float_relation_equal), fun cs cq a b s => ?_⟩
    have e : ((⟨0x02, by decide⟩ : Fin 32) ^^^ 4) = ⟨0x06, by decide⟩ := by decide
    simp only [e, float32_predicate, float32_le_ordered_signalling, float32_nle_unordered_signalling, if_true,
      Bool.false_eq_true, if_false]
    generalize (cs a b s).1 = r
    cases r <;> simp [boolToInt]
  · refine ⟨true, fun r => (r == float_relation_unordered), fun cs cq a b s => ?_⟩
    have e : ((⟨0x03, by decide⟩ : Fin 32) ^^^ 4) = ⟨0x07, by decide⟩ := by decide
    simp only [e, float32_predicate, float32_unordered_quiet, float32_ordered_quiet, if_true,
      Bool.false_eq_true, if_false]
    generalize (cq a b s).1 = r
    cases r <;> simp [boolToInt]
  · refine ⟨true, fun r => (r != float_relation_equal), fun cs cq a b s => ?_⟩
    have e : ((⟨0x04, by decide⟩ : Fin 32) ^^^ 4) = ⟨0x00, by decide⟩ := by decide
    simp only [e, float32_predicate, float32_neq_unordered_quiet, float32_eq_ordered_quiet, if_true,
      Bool.false_eq_true, if_false]
    generalize (cq a b s).1 = r
    cases r <;> simp [boolToInt]
  · refine ⟨false, fun r => (r != float_relation_less), fun cs cq a b s => ?_⟩
    have e : ((⟨0x05, by decide⟩ : Fin 32) ^^^ 4) = ⟨0x01, by decide⟩ := by decide
    simp only [e, float32_predicate, float32_nlt_unordered_signalling, float32_lt_ordered_signalling, if_true,
      Bool.false_eq_true, if_false]
    generalize (cs a b s).1 = r
    cases r <;> simp [boolToInt]
  · refine ⟨false, fun r => (r != float_relation_less) && (r != float_relation_equal), fun cs cq a b s => ?_⟩
    have e : ((⟨0x06, by decide⟩ : Fin 32) ^^^ 4) = ⟨0x02, by decide⟩ := by decide
    simp only [e, float32_predicate, float32_nle_unordered_signalling, float32_le_ordered_signalling, if_true,
      Bool.false_eq_true, if_false]
    generalize (cs a b s).1 = r
    cases r <;> simp [boolToInt]
  · refine ⟨true, fun r => (r != float_relation_unordered), fun cs cq a b s => ?_⟩
    have e : ((⟨0x07, by decide⟩ : Fin 32) ^^^ 4) = ⟨0x03, by decide⟩ := by decide
    simp only [e, float32_predicate, float32_ordered_quiet, float32_unordered_quiet, if_true,
      Bool.false_eq_true, if_false]
    generalize (cq a b s).1 = r
    cases r <;> simp [boolToInt]
  · refine ⟨true, fun r => (r == float_relation_equal) || (r == float_relation_unordered), fun cs cq a b s => ?_⟩
    have e : ((⟨0x08, by decide⟩ : Fin 32) ^^^ 4) = ⟨0x0c, by decide⟩ := by decide
    simp only [e, float32_predicate, float32_eq_unordered_quiet, float32_neq_ordered_quiet, if_true,
      Bool.false_eq_true, if_false]
    generalize (cq a b s).1 = r
    cases r <;> simp [boolToInt]
  · refine ⟨false, fun r => (r == float_relation_less) || (r == float_relation_unordered), fun cs cq a b s => ?_⟩
    have e : ((⟨0x09, by decide⟩ : Fin 32) ^^^ 4) = ⟨0x0d, by decide⟩ := by decide
    simp only [e, float32_predicate, float32_nge_unordered_signalling, float32_ge_ordered_signalling, if_true,
      Bool.false_eq_true, if_false]
    generalize (cs a b s).1 = r
    cases r <;> simp [boolToInt]
  · refine ⟨false, fun r => (r != float_relation_greater), fun cs cq a b s => ?_⟩
    have e : ((⟨0x0a, by decide⟩ : Fin 32) ^^^ 4) = ⟨0x0e, by decide⟩ := by decide
    simp only [e, float32_predicate, float32_ngt_unordered_signalling, float32_gt_ordered_signalling, if_true,
      Bool.false_eq_true, if_false]
    generalize (cs a b s).1 = r
    cases r <;> simp [boolToInt]
  · refine ⟨true, fun r => false, fun cs cq a b s => ?_⟩
    have e : ((⟨0x0b, by decide⟩ : Fin 32) ^^^ 4) = ⟨0x0f, by decide⟩ := by decide
    simp only [e, float32_predicate, float32_false_quiet, float32_true_quiet, if_true,
      Bool.false_eq_true, if_false]
    generalize (cq a b s).1 = r
    cases r <;> exact ⟨rfl, rfl⟩
  · refine ⟨true, fun r => (r != float_relation_equal) && (r != float_relation_unordered), fun cs cq a b s => ?_⟩
    have e : ((⟨0x0c, by decide⟩ : Fin 32) ^^^ 4) = ⟨0x08, by decide⟩ := by decide
    simp only [e, float32_predicate, float32_neq_ordered_quiet, float32_eq_unordered_quiet, if_true,
      Bool.false_eq_true, if_false]
    generalize (cq a b s).1 = r
    cases r <;> simp [boolToInt]
  · refine ⟨false, fun r => (r == float_relation_greater) || (r == float_relation_equal), fun cs cq a b s => ?_⟩
    have e : ((⟨0x0d, by decide⟩ : Fin 32) ^^^ 4) = ⟨0x09, by decide⟩ := by decide
    simp only [e, float32_predicate, float32_ge_ordered_signalling, float32_nge_unordered_signalling, if_true,
      Bool.false_eq_true, if_false]
    generalize (cs a b s).1 = r
    cases r <;> simp [boolToInt]
  · refine ⟨false, fun r => (r == float_relation_greater), fun cs cq a b s => ?_⟩
    have e : ((⟨0x0e, by decide⟩ : Fin 32) ^^^ 4) = ⟨0x0a, by decide⟩ := by decide
    simp only [e, float32_predicate, float32_gt_ordered_signalling, float32_ngt_unordered_signalling, if_true,
      Bool.false_eq_true, if_false]
    generalize (cs a b s).1 = r
    cases r <;> simp [boolToInt]
  · refine ⟨true, fun r => true, fun cs cq a b s => ?_⟩
    have e : ((⟨0x0f, by decide⟩ : Fin 32) ^^^ 4) = ⟨0x0b, by decide⟩ := by decide
    simp only [e, float32_predicate, float32_true_quiet, float32_false_quiet, if_true,
      Bool.false_eq_true, if_false]
    generalize (cq a b s).1 = r
    cases r <;> exact ⟨rfl, rfl⟩
  · refine ⟨false, fun r => (r == float_relation_equal), fun cs cq a b s => ?_⟩
    have e : ((⟨0x10, by decide⟩ : Fin 32) ^^^ 4) = ⟨0x14, by decide⟩ := by decide
    simp only [e, float32_predicate, float32_eq_ordered_signalling, float32_neq_unordered_signalling, if_true,
      Bool.false_eq_true, if_false]
    generalize (cs a b s).1 = r
    cases r <;> simp [boolToInt]
  · refine ⟨true, fun r => (r == float_relation_less), fun cs cq a b s => ?_⟩
    have e : ((⟨0x11, by decide⟩ : Fin 32) ^^^ 4) = ⟨0x15, by decide⟩ := by decide
    simp only [e, float32_predicate, float32_lt_ordered_quiet, float32_nlt_unordered_quiet, if_true,
      Bool.false_eq_true, if_false]
    generalize (cq a b s).1 = r
    cases r <;> simp [boolToInt]
  · refine ⟨true, fun r => (r == float_relation_less) || (r == float_relation_equal), fun cs cq a b s => ?_⟩
    have e : ((⟨0x12, by decide⟩ : Fin 32) ^^^ 4) = ⟨0x16, by decide⟩ := by decide
    simp only [e, float32_predicate, float32_le_ordered_quiet, float32_nle_unordered_quiet, if_true,
      Bool.false_eq_true, if_false]
    generalize (cq a b s).1 = r
    cases r <;> simp [boolToInt]
  · refine ⟨false, fun r => (r == float_relation_unordered), fun cs cq a b s => ?_⟩
    have e : ((⟨0x13, by decide⟩ : Fin 32) ^^^ 4) = ⟨0x17, by decide⟩ := by decide
    simp only [e, float32_predicate, float32_unordered_signalling, float32_ordered_signalling, if_true,
      Bool.false_eq_true, if_false]
    generalize (cs a b s).1 = r
    cases r <;> simp [boolToInt]
  · refine ⟨false, fun r => (r != float_relation_equal), fun cs cq a b s => ?_⟩
    have e : ((⟨0x14, by decide⟩ : Fin 32) ^^^ 4) = ⟨0x10, by decide⟩ := by decide
    simp only [e, float32_predicate, float32_neq_unordered_signalling, float32_eq_ordered_signalling, if_true,
      Bool.false_eq_true, if_false]
    generalize (cs a b s).1 = r
    cases r <;> simp [boolToInt]
  · refine ⟨true, fun r => (r != float_relation_less), fun cs cq a b s => ?_⟩
    have e : ((⟨0x15, by decide⟩ : Fin 32) ^^^ 4) = ⟨0x11, by decide⟩ := by decide
    simp only [e, float32_predicate, float32_nlt_unordered_quiet, float32_lt_ordered_quiet, if_true,
      Bool.false_eq_true, if_false]
    generalize (cq a b s).1 = r
    cases r <;> simp [boolToInt]
  · refine ⟨true, fun r => (r != float_relation_less) && (r != float_relation_equal), fun cs cq a b s => ?_⟩
    have e : ((⟨0x16, by decide⟩ : Fin 32) ^^^ 4) = ⟨0x12, by decide⟩ := by decide
    simp only [e, float32_predicate, float32_nle_unordered_quiet, float32_le_ordered_quiet, if_true,
      Bool.false_eq_true, if_false]
    generalize (cq a b s).1 = r
    cases r <;> simp [boolToInt]
  · refine ⟨false, fun r => (r != float_relation_unordered), fun cs cq a b s => ?_⟩
    have e : ((⟨0x17, by decide⟩ : Fin 32) ^^^ 4) = ⟨0x13, by decide⟩ := by decide
    simp only [e, float32_predicate, float32_ordered_signalling, float32_unordered_signalling, if_true,
      Bool.false_eq_true, if_false]
    generalize (cs a b s).1 = r
    cases r <;> simp [boolToInt]
  · refine ⟨false, fun r => (r == float_relation_equal) || (r == float_relation_unordered), fun cs cq a b s => ?_⟩
    have e : ((⟨0x18, by decide⟩ : Fin 32) ^^^ 4) = ⟨0x1c, by decide⟩ := by decide
    simp only [e, float32_predicate, float32_eq_unordered_signalling, float32_neq_ordered_signalling, if_true,
      Bool.false_eq_true, if_false]
    generalize (cs a b s).1 = r
    cases r <;> simp [boolToInt]
  · refine ⟨true, fun r => (r == float_relation_less) || (r == float_relation_unordered), fun cs cq a b s => ?_⟩
    have e : ((⟨0x19, by decide⟩ : Fin 32) ^^^ 4) = ⟨0x1d, by decide⟩ := by decide
    simp only [e, float32_predicate, float32_nge_unordered_quiet, float32_ge_ordered_quiet, if_true,
      Bool.false_eq_true, if_false]
    generalize (cq a b s).1 = r
    cases r <;> simp [boolToInt]
  · refine ⟨true, fun r => (r != float_relation_greater), fun cs cq a b s => ?_⟩
    have e : ((⟨0x1a, by decide⟩ : Fin 32) ^^^ 4) = ⟨0x1e, by decide⟩ := by decide
    simp only [e, float32_predicate, float32_ngt_unordered_quiet, float32_gt_ordered_quiet, if_true,
      Bool.false_eq_true, if_false]
    generalize (cq a b s).1 = r
    cases r <;> simp [boolToInt]
  · refine ⟨false, fun r => false, fun cs cq a b s => ?_⟩
    have e : ((⟨0x1b, by decide⟩ : Fin 32) ^^^ 4) = ⟨0x1f, by decide⟩ := by decide
    simp only [e, float32_predicate, float32_false_signalling, float32_true_signalling, if_true,
      Bool.false_eq_true, if_false]
    generalize (cs a b s).1 = r
    cases r <;> exact ⟨rfl, rfl⟩
  · refine ⟨false, fun r => (r != float_relation_equal) && (r != float_relation_unordered), fun cs cq a b s => ?_⟩
    have e : ((⟨0x1c, by decide⟩ : Fin 32) ^^^ 4) = ⟨0x18, by decide⟩ := by decide
    simp only [e, float32_predicate, float32_neq_ordered_signalling, float32_eq_unordered_signalling, if_true,
      Bool.false_eq_true, if_false]
    generalize (cs a b s).1 = r
    cases r <;> simp [boolToInt]
  · refine ⟨true, fun r => (r == float_relation_greater) || (r == float_relation_equal), fun cs cq a b s => ?_⟩
    have e : ((⟨0x1d, by decide⟩ : Fin 32) ^^^ 4) = ⟨0x19, by decide⟩ := by decide
    simp only [e, float32_predicate, float32_ge_ordered_quiet, float32_nge_unordered_quiet, if_true,
      Bool.false_eq_true, if_false]
    generalize (cq a b s).1 = r
    cases r <;> simp [boolToInt]
  · refine ⟨true, fun r => (r == float_relation_greater), fun cs cq a b s => ?_⟩
    have e : ((⟨0x1e, by decide⟩ : Fin 32) ^^^ 4) = ⟨0x1a, by decide⟩ := by decide
    simp only [e, float32_predicate, float32_gt_ordered_quiet, float32_ngt_unordered_quiet, if_true,
      Bool.false_eq_true, if_false]
    generalize (cq a b s).1 = r
    cases r <;> simp [boolToInt]
  · refine ⟨false, fun r => true, fun cs cq a b s => ?_⟩
    have e : ((⟨0x1f, by decide⟩ : Fin 32) ^^^ 4) = ⟨0x1b, by decide⟩ := by decide
    simp only [e, float32_predicate, float32_true_signalling, float32_false_signalling, if_true,
      Bool.false_eq_true, if_false]
    generalize (cs a b s).1 = r
    cases r <;> exact ⟨rfl, rfl⟩

theorem float64_predicate_complement (i : Fin 32) :
    ∃ (quiet : Bool) (p : float_relation → Bool),
      ∀ (cs cq : float64_base_compare) (a b : float64) (s : float_status_t),
        float64_predicate i cs cq a b s =
          (boolToInt (p ((if quiet then cq else cs) a b s).1),
            ((if quiet then cq else cs) a b s).2) ∧
        float64_predicate (i ^^^ 4) cs cq a b s =
          (boolToInt (!p ((if quiet then cq else cs) a b s).1),
            ((if quiet then cq else cs) a b s).2) := by
  fin_cases i
  · refine ⟨true, fun r => (r == float_relation_equal), fun cs cq a b s => ?_⟩
    have e : ((⟨0x00, by decide⟩ : Fin 32) ^^^ 4) = ⟨0x04, by decide⟩ := by decide
    simp only [e, float64_predicate, float64_eq_ordered_quiet, float64_neq_unordered_quiet, if_true,
      Bool.false_eq_true, if_false]
    generalize (cq a b s).1 = r
    cases r <;> simp [boolToInt]
  · refine ⟨false, fun r => (r == float_relation_less), fun cs cq a b s => ?_⟩
    have e : ((⟨0x01, by decide⟩ : Fin 32) ^^^ 4) = ⟨0x05, by decide⟩ := by decide
    simp only [e, float64_predicate, float64_lt_ordered_signalling, float64_nlt_unordered_signalling, if_true,
      Bool.false_eq_true, if_false]
    generalize (cs a b s).1 = r
    cases r <;> simp [boolToInt]
  · refine ⟨false, fun r => (r == float_relation_less) || (r == float_relation_equal), fun cs cq a b s => ?_⟩
    have e : ((⟨0x02, by decide⟩ : Fin 32) ^^^ 4) = ⟨0x06, by decide⟩ := by decide
    simp only [e, float64_predicate, float64_le_ordered_signalling, float64_nle_unordered_signalling, if_true,
      Bool.false_eq_true, if_false]
    generalize (cs a b s).1 = r
    cases r <;> simp [boolToInt]
  · refine ⟨true, fun r => (r == float_relation_unordered), fun cs cq a b s => ?_⟩
    have e : ((⟨0x03, by decide⟩ : Fin 32) ^^^ 4) = ⟨0x07, by decide⟩ := by decide
    simp only [e, float64_predicate, float64_unordered_quiet, float64_ordered_quiet, if_true,
      Bool.false_eq_true, if_false]
    generalize (cq a b s).1 = r
    cases r <;> simp [boolToInt]
  · refine ⟨true, fun r => (r != float_relation_equal), fun cs cq a b s => ?_⟩
    have e : ((⟨0x04, by decide⟩ : Fin 32) ^^^ 4) = ⟨0x00, by decide⟩ := by decide
    simp only [e, float64_predicate, float64_neq_unordered_quiet, float64_eq_ordered_quiet, if_true,
      Bool.false_eq_true, if_false]
    generalize (cq a b s).1 = r
    cases r <;> simp [boolToInt]
  · refine ⟨false, fun r => (r != float_relation_less), fun cs cq a b s => ?_⟩
    have e : ((⟨0x05, by decide⟩ : Fin 32) ^^^ 4) = ⟨0x01, by decide⟩ := by decide
    simp only [e, float64_predicate, float64_nlt_unordered_signalling, float64_lt_ordered_signalling, if_true,
      Bool.false_eq_true, if_false]
    generalize (cs a b s).1 = r
    cases r <;> simp [boolToInt]
  · refine ⟨false, fun r => (r != float_relation_less) && (r != float_relation_equal), fun cs cq a b s => ?_⟩
    have e : ((⟨0x06, by decide⟩ : Fin 32) ^^^ 4) = ⟨0x02, by decide⟩ := by decide
    simp only [e, float64_predicate, float64_nle_unordered_signalling, float64_le_ordered_signalling, if_true,
      Bool.false_eq_true, if_false]
    generalize (cs a b s).1 = r
    cases r <;> simp [boolToInt]
  · refine ⟨true, fun r => (r != float_relation_unordered), fun cs cq a b s => ?_⟩
    have e : ((⟨0x07, by decide⟩ : Fin 32) ^^^ 4) = ⟨0x03, by decide⟩ := by decide
    simp only [e, float64_predicate, float64_ordered_quiet, float64_unordered_quiet, if_true,
      Bool.false_eq_true, if_false]
    generalize (cq a b s).1 = r
    cases r <;> simp [boolToInt]
  · refine ⟨true, fun r => (r == float_relation_equal) || (r == float_relation_unordered), fun cs cq a b s => ?_⟩
    have e : ((⟨0x08, by decide⟩ : Fin 32) ^^^ 4) = ⟨0x0c, by decide⟩ := by decide
    simp only [e, float64_predicate, float64_eq_unordered_quiet, float64_neq_ordered_quiet, if_true,
      Bool.false_eq_true, if_false]
    generalize (cq a b s).1 = r
    cases r <;> simp [boolToInt]
  · refine ⟨false, fun r => (r == float_relation_less) || (r == float_relation_unordered), fun cs cq a b s => ?_⟩
    have e : ((⟨0x09, by decide⟩ : Fin 32) ^^^ 4) = ⟨0x0d, by decide⟩ := by decide
    simp only [e, float64_predicate, float64_nge_unordered_signalling, float64_ge_ordered_signalling, if_true,
      Bool.false_eq_true, if_false]
    generalize (cs a b s).1 = r
    cases r <;> simp [boolToInt]
  · refine ⟨false, fun r => (r != float_relation_greater), fun cs cq a b s => ?_⟩
    have e : ((⟨0x0a, by decide⟩ : Fin 32) ^^^ 4) = ⟨0x0e, by decide⟩ := by decide
    simp only [e, float64_predicate, float64_ngt_unordered_signalling, float64_gt_ordered_signalling, if_true,
      Bool.false_eq_true, if_false]
    generalize (cs a b s).1 = r
    cases r <;> simp [boolToInt]
  · refine ⟨true, fun r => false, fun cs cq a b s => ?_⟩
    have e : ((⟨0x0b, by decide⟩ : Fin 32) ^^^ 4) = ⟨0x0f, by decide⟩ := by decide
    simp only [e, float64_predicate, float64_false_quiet, float64_true_quiet, if_true,
      Bool.false_eq_true, if_false]
    generalize (cq a b s).1 = r
    cases r <;> exact ⟨rfl, rfl⟩
  · refine ⟨true, fun r => (r != float_relation_equal) && (r != float_relation_unordered), fun cs cq a b s => ?_⟩
    have e : ((⟨0x0c, by decide⟩ : Fin 32) ^^^ 4) = ⟨0x08, by decide⟩ := by decide
    simp only [e, float64_predicate, float64_neq_ordered_quiet, float64_eq_unordered_quiet, if_true,
      Bool.false_eq_true, if_false]
    generalize (cq a b s).1 = r
    cases r <;> simp [boolToInt]
  · refine ⟨false, fun r => (r == float_relation_greater) || (r == float_relation_equal), fun cs cq a b s => ?_⟩
    have e : ((⟨0x0d, by decide⟩ : Fin 32) ^^^ 4) = ⟨0x09, by decide⟩ := by decide
    simp only [e, float64_predicate, float64_ge_ordered_signalling, float64_nge_unordered_signalling, if_true,
      Bool.false_eq_true, if_false]
    generalize (cs a b s).1 = r
    cases r <;> simp [boolToInt]
  · refine ⟨false, fun r => (r == float_relation_greater), fun cs cq a b s => ?_⟩
    have e : ((⟨0x0e, by decide⟩ : Fin 32) ^^^ 4) = ⟨0x0a, by decide⟩ := by decide
    simp only [e, float64_predicate, float64_gt_ordered_signalling, float64_ngt_unordered_signalling, if_true,
      Bool.false_eq_true, if_false]
    generalize (cs a b s).1 = r
    cases r <;> simp [boolToInt]
  · refine ⟨true, fun r => true, fun cs cq a b s => ?_⟩
    have e : ((⟨0x0f, by decide⟩ : Fin 32) ^^^ 4) = ⟨0x0b, by decide⟩ := by decide
    simp only [e, float64_predicate, float64_true_quiet, float64_false_quiet, if_true,
      Bool.false_eq_true, if_false]
    generalize (cq a b s).1 = r
    cases r <;> exact ⟨rfl, rfl⟩
  · refine ⟨false, fun r => (r == float_relation_equal), fun cs cq a b s => ?_⟩
    have e : ((⟨0x10, by decide⟩ : Fin 32) ^^^ 4) = ⟨0x14, by decide⟩ := by decide
    simp only [e, float64_predicate, float64_eq_ordered_signalling, float64_neq_unordered_signalling, if_true,
      Bool.false_eq_true, if_false]
    generalize (cs a b s).1 = r
    cases r <;> simp [boolToInt]
  · refine ⟨true, fun r => (r == float_relation_less), fun cs cq a b s => ?_⟩
    have e : ((⟨0x11, by decide⟩ : Fin 32) ^^^ 4) = ⟨0x15, by decide⟩ := by decide
    simp only [e, float64_predicate, float64_lt_ordered_quiet, float64_nlt_unordered_quiet, if_true,
      Bool.false_eq_true, if_false]
    generalize (cq a b s).1 = r
    cases r <;> simp [boolToInt]
  · refine ⟨true, fun r => (r == float_relation_less) || (r == float_relation_equal), fun cs cq a b s => ?_⟩
    have e : ((⟨0x12, by decide⟩ : Fin 32) ^^^ 4) = ⟨0x16, by decide⟩ := by decide
    simp only [e, float64_predicate, float64_le_ordered_quiet, float64_nle_unordered_quiet, if_true,
      Bool.false_eq_true, if_false]
    generalize (cq a b s).1 = r
    cases r <;> simp [boolToInt]
  · refine ⟨false, fun r => (r == float_relation_unordered), fun cs cq a b s => ?_⟩
    have e : ((⟨0x13, by decide⟩ : Fin 32) ^^^ 4) = ⟨0x17, by decide⟩ := by decide
    simp only [e, float64_predicate, float64_unordered_signalling, float64_ordered_signalling, if_true,
      Bool.false_eq_true, if_false]
    generalize (cs a b s).1 = r
    cases r <;> simp [boolToInt]
  · refine ⟨false, fun r => (r != float_relation_equal), fun cs cq a b s => ?_⟩
    have e : ((⟨0x14, by decide⟩ : Fin 32) ^^^ 4) = ⟨0x10, by decide⟩ := by decide
    simp only [e, float64_predicate, float64_neq_unordered_signalling, float64_eq_ordered_signalling, if_true,
      Bool.false_eq_true, if_false]
    generalize (cs a b s).1 = r
    cases r <;> simp [boolToInt]
  · refine ⟨true, fun r => (r != float_relation_less), fun cs cq a b s => ?_⟩
    have e : ((⟨0x15, by decide⟩ : Fin 32) ^^^ 4) = ⟨0x11, by decide⟩ := by decide
    simp only [e, float64_predicate, float64_nlt_unordered_quiet, float64_lt_ordered_quiet, if_true,
      Bool.false_eq_true, if_false]
    generalize (cq a b s).1 = r
    cases r <;> simp [boolToInt]
  · refine ⟨true, fun r => (r != float_relation_less) && (r != float_relation_equal), fun cs cq a b s => ?_⟩
    have e : ((⟨0x16, by decide⟩ : Fin 32) ^^^ 4) = ⟨0x12, by decide⟩ := by decide
    simp only [e, float64_predicate, float64_nle_unordered_quiet, float64_le_ordered_quiet, if_true,
      Bool.false_eq_true, if_false]
    generalize (cq a b s).1 = r
    cases r <;> simp [boolToInt]
  · refine ⟨false, fun r => (r != float_relation_unordered), fun cs cq a b s => ?_⟩
    have e : ((⟨0x17, by decide⟩ : Fin 32) ^^^ 4) = ⟨0x13, by decide⟩ := by decide
    simp only [e, float64_predicate, float64_ordered_signalling, float64_unordered_signalling, if_true,
      Bool.false_eq_true, if_false]
    generalize (cs a b s).1 = r
    cases r <;> simp [boolToInt]
  · refine ⟨false, fun r => (r == float_relation_equal) || (r == float_relation_unordered), fun cs cq a b s => ?_⟩
    have e : ((⟨0x18, by decide⟩ : Fin 32) ^^^ 4) = ⟨0x1c, by decide⟩ := by decide
    simp only [e, float64_predicate, float64_eq_unordered_signalling, float64_neq_ordered_signalling, if_true,
      Bool.false_eq_true, if_false]
    generalize (cs a b s).1 = r
    cases r <;> simp [boolToInt]
  · refine ⟨true, fun r => (r == float_relation_less) || (r == float_relation_unordered), fun cs cq a b s => ?_⟩
    have e : ((⟨0x19, by decide⟩ : Fin 32) ^^^ 4) = ⟨0x1d, by decide⟩ := by decide
    simp only [e, float64_predicate, float64_nge_unordered_quiet, float64_ge_ordered_quiet, if_true,
      Bool.false_eq_true, if_false]
    generalize (cq a b s).1 = r
    cases r <;> simp [boolToInt]
  · refine ⟨true, fun r => (r != float_relation_greater), fun cs cq a b s => ?_⟩
    have e : ((⟨0x1a, by decide⟩ : Fin 32) ^^^ 4) = ⟨0x1e, by decide⟩ := by decide
    simp only [e, float64_predicate, float64_ngt_unordered_quiet, float64_gt_ordered_quiet, if_true,
      Bool.false_eq_true, if_false]
    generalize (cq a b s).1 = r
    cases r <;> simp [boolToInt]
  · refine ⟨false, fun r => false, fun cs cq a b s => ?_⟩
    have e : ((⟨0x1b, by decide⟩ : Fin 32) ^^^ 4) = ⟨0x1f, by decide⟩ := by decide
    simp only [e, float64_predicate, float64_false_signalling, float64_true_signalling, if_true,
      Bool.false_eq_true, if_false]
    generalize (cs a b s).1 = r
    cases r <;> exact ⟨rfl, rfl⟩
  · refine ⟨false, fun r => (r != float_relation_equal) && (r != float_relation_unordered), fun cs cq a b s => ?_⟩
    have e : ((⟨0x1c, by decide⟩ : Fin 32) ^^^ 4) = ⟨0x18, by decide⟩ := by decide
    simp only [e, float64_predicate, float64_neq_ordered_signalling, float64_eq_unordered_signalling, if_true,
      Bool.false_eq_true, if_false]
    generalize (cs a b s).1 = r
    cases r <;> simp [boolToInt]
  · refine ⟨true, fun r => (r == float_relation_greater) || (r == float_relation_equal), fun cs cq a b s => ?_⟩
    have e : ((⟨0x1d, by decide⟩ : Fin 32) ^^^ 4) = ⟨0x19, by decide⟩ := by decide
    simp only [e, float64_predicate, float64_ge_ordered_quiet, float64_nge_unordered_quiet, if_true,
      Bool.false_eq_true, if_false]
    generalize (cq a b s).1 = r
    cases r <;> simp [boolToInt]
  · refine ⟨true, fun r => (r == float_relation_greater), fun cs cq a b s => ?_⟩
    have e : ((⟨0x1e, by decide⟩ : Fin 32) ^^^ 4) = ⟨0x1a, by decide⟩ := by decide
    simp only [e, float64_predicate, float64_gt_ordered_quiet, float64_ngt_unordered_quiet, if_true,
      Bool.false_eq_true, if_false]
    generalize (cq a b s).1 = r
    cases r <;> simp [boolToInt]
  · refine ⟨false, fun r => true, fun cs cq a b s => ?_⟩
    have e : ((⟨0x1f, by decide⟩ : Fin 32) ^^^ 4) = ⟨0x1b, by decide⟩ := by decide
    simp only [e, float64_predicate, float64_true_signalling, float64_false_signalling, if_true,
      Bool.false_eq_true, if_false]
    generalize (cs a b s).1 = r
    cases r <;> exact ⟨rfl, rfl⟩

/-- C25: the predicate table is closed under complement.  For every code `i` in
0x00..0x1f and for both formats, the predicate numbered `i XOR 4` calls the same
base compare as the predicate numbered `i` (the quiet one or the signalling one,
fixed by `i`), leaves that compare's status, and returns the logical negation
of predicate `i`: there is a set of relations `p` such that predicate `i`
returns whether the relation lies in `p` and predicate `i XOR 4` whether it
does not, on every pair of base compares, operand pair and status. -/
theorem predicate_table_closed_under_complement (i : Fin 32) :
    (i ^^^ 4).val = i.val ^^^ 4 ∧
    (∃ (quiet : Bool) (p : float_relation → Bool),
      ∀ (cs cq : float32_base_compare) (a b : float32) (s : float_status_t),
        float32_predicate i cs cq a b s =
          (boolToInt (p ((if quiet then cq else cs) a b s).1),
            ((if quiet then cq else cs) a b s).2) ∧
        float32_predicate (i ^^^ 4) cs cq a b s =
          (boolToInt (!p ((if quiet then cq else cs) a b s).1),
            ((if quiet then cq else cs) a b s).2)) ∧
    (∃ (quiet : Bool) (p : float_relation → Bool),
      ∀ (cs cq : float64_base_compare) (a b : float64) (s : float_status_t),
        float64_predicate i cs cq a b s =
          (boolToInt (p ((if quiet then cq else cs) a b s).1),
            ((if quiet then cq else cs) a b s).2) ∧
        float64_predicate (i ^^^ 4) cs cq a b s =
          (boolToInt (!p ((if quiet then cq else cs) a b s).1),
            ((if quiet then cq else cs) a b s).2)) :=
  ⟨by fin_cases i <;> rfl, float32_predicate_complement i, float64_predicate_complement i⟩

end SoftFloat

namespace CPU_X86

/-! ## Theorems: memory thunks -/

/-- C15: each of the six memory thunks performs `CheckSegmentAccess` on its own
(segment, address) with the access size of its operand (1, 2, 4 bytes) and the
access type of its direction before the memory operation: when the check
raises a fault the thunk ends with that very outcome, fault and CPU state as
the check left them, so no memory operation is applied; when the check returns,
the thunk is the memory operation at the linear address computed on entry. -/
theorem thunks_check_segment_before_memory {S F : Type} (cpu : CPU S F)
    (segment : Segment) (address : VirtualMemoryAddress) (value : Nat) (s : S) :
    ((∀ f s', cpu.CheckSegmentAccess 1 AccessType.Read segment address true s =
          Outcome.unwound f s' →
        Thunks.ReadSegmentMemoryByte cpu segment address s = Outcome.unwound f s') ∧
      (∀ v s', cpu.CheckSegmentAccess 1 AccessType.Read segment address true s =
          Outcome.returned v s' →
        Thunks.ReadSegmentMemoryByte cpu segment address s =
          cpu.ReadMemoryByte (cpu.CalculateLinearAddress s segment address) s')) ∧
    ((∀ f s', cpu.CheckSegmentAccess 2 AccessType.Read segment address true s =
          Outcome.unwound f s' →
        Thunks.ReadSegmentMemoryWord cpu segment address s = Outcome.unwound f s') ∧
      (∀ v s', cpu.CheckSegmentAccess 2 AccessType.Read segment address true s =
          Outcome.returned v s' →
        Thunks.ReadSegmentMemoryWord cpu segment address s =
          cpu.ReadMemoryWord (cpu.CalculateLinearAddress s segment address) s')) ∧
    ((∀ f s', cpu.CheckSegmentAccess 4 AccessType.Read segment address true s =
          Outcome.unwound f s' →
        Thunks.ReadSegmentMemoryDWord cpu segment address s = Outcome.unwound f s') ∧
      (∀ v s', cpu.CheckSegmentAccess 4 AccessType.Read segment address true s =
          Outcome.returned v s' →
        Thunks.ReadSegmentMemoryDWord cpu segment address s =
          cpu.ReadMemoryDWord (cpu.CalculateLinearAddress s segment address) s')) ∧
    ((∀ f s', cpu.CheckSegmentAccess 1 AccessType.Write segment address true s =
          Outcome.unwound f s' →
        Thunks.WriteSegmentMemoryByte cpu segment address value s = Outcome.unwound f s') ∧
      (∀ v s', cpu.CheckSegmentAccess 1 AccessType.Write segment address true s =
          Outcome.returned v s' →
        Thunks.WriteSegmentMemoryByte cpu segment address value s =
          cpu.WriteMemoryByte (cpu.CalculateLinearAddress s segment address) value s')) ∧
    ((∀ f s', cpu.CheckSegmentAccess 2 AccessType.Write segment address true s =
          Outcome.unwound f s' →
        Thunks.WriteSegmentMemoryWord cpu segment address value s = Outcome.unwound f s') ∧
      (∀ v s', cpu.CheckSegmentAccess 2 AccessType.Write segment address true s =
          Outcome.returned v s' →
        Thunks.WriteSegmentMemoryWord cpu segment address value s =
          cpu.WriteMemoryWord (cpu.CalculateLinearAddress s segment address) value s')) ∧
    ((∀ f s', cpu.CheckSegmentAccess 4 AccessType.Write segment address true s =
          Outcome.unwound f s' →
        Thunks.WriteSegmentMemoryDWord cpu segment address value s = Outcome.unwound f s') ∧
      (∀ v s', cpu.CheckSegmentAccess 4 AccessType.Write segment address true s =
          Outcome.returned v s' →
        Thunks.WriteSegmentMemoryDWord cpu segment address value s =
          cpu.WriteMemoryDWord (cpu.CalculateLinearAddress s segment address) value s')) := by
  refine ⟨⟨?_, ?_⟩, ⟨?_, ?_⟩, ⟨?_, ?_⟩, ⟨?_, ?_⟩, ⟨?_, ?_⟩, ⟨?_, ?_⟩⟩ <;>
    intro x s' h <;>
    simp only [Thunks.ReadSegmentMemoryByte, Thunks.ReadSegmentMemoryWord,
      Thunks.ReadSegmentMemoryDWord, Thunks.WriteSegmentMemoryByte,
      Thunks.WriteSegmentMemoryWord, Thunks.WriteSegmentMemoryDWord, h, Outcome.andThen]

/-- Witness for C15: a word write that crosses the segment limit of the sample
machine faults in the segment check; memory and access record are untouched,
although the memory operation itself would have faulted differently. -/
theorem thunks_check_segment_before_memory_witness :
    (sampleCPU 3).CheckSegmentAccess 2 AccessType.Write 0 3 true ⟨[1, 2, 3, 4], []⟩ =
      Outcome.unwound 13 ⟨[1, 2, 3, 4], []⟩ ∧
    Thunks.WriteSegmentMemoryWord (sampleCPU 3) 0 3 0xBEEF ⟨[1, 2, 3, 4], []⟩ =
      Outcome.unwound 13 ⟨[1, 2, 3, 4], []⟩ :=
  ⟨rfl,
   (thunks_check_segment_before_memory (sampleCPU 3) 0 3 0xBEEF ⟨[1, 2, 3, 4], []⟩).2.2.2.2.1.1
     13 ⟨[1, 2, 3, 4], []⟩ rfl⟩

end CPU_X86

namespace HW

/-! ## Theorems: VGABase::LoadState -/

theorem CRTCTimingChanged_m_latch (t : VGABase) : t.CRTCTimingChanged.m_latch = t.m_latch := by
  simp only [VGABase.CRTCTimingChanged]
  split_ifs <;> rfl

theorem CRTCTimingChanged_flag (t : VGABase) :
    t.CRTCTimingChanged.m_crtc_timing_changed = true := by
  simp only [VGABase.CRTCTimingChanged]

/-- C16: `VGABase::LoadState` rejects a stream with the wrong tag: when the first
32-bit word read from the stream differs from `SERIALIZATION_ID` it returns
false and the device is as it was before the call. -/
theorem LoadState_rejects_wrong_tag {R : Type} (rd : BinaryReader R)
    (SERIALIZATION_ID : Nat) (reader : R) (this : VGABase)
    (htag : (rd.ReadUInt32 reader).1 ≠ SERIALIZATION_ID) :
    (VGABase.LoadState rd SERIALIZATION_ID reader this).1 = false ∧
    (VGABase.LoadState rd SERIALIZATION_ID reader this).2.1 = this := by
  have hb : ((rd.ReadUInt32 reader).1 != SERIALIZATION_ID) = true := by
    simpa using htag
  simp only [VGABase.LoadState, hb, if_true, and_self]

/-- Witness for C16: a stream that starts with another tag. -/
theorem LoadState_rejects_wrong_tag_witness :
    (streamReader.ReadUInt32 ⟨[0x02, 0x56, 0x47, 0x41, 0x78, 0x56, 0x34, 0x12], false⟩).1 ≠
      0x41475601 ∧
    (VGABase.LoadState streamReader 0x41475601
      ⟨[0x02, 0x56, 0x47, 0x41, 0x78, 0x56, 0x34, 0x12], false⟩ sampleVGA).2.1 = sampleVGA :=
  ⟨by decide,
   (LoadState_rejects_wrong_tag streamReader 0x41475601
      ⟨[0x02, 0x56, 0x47, 0x41, 0x78, 0x56, 0x34, 0x12], false⟩ sampleVGA (by decide)).2⟩

set_option maxRecDepth 8000 in
/-- C17, as stated, fails: a stream with the right tag that ends after the latch
makes `LoadState` return false, yet the latch holds the value from the stream
and not the value it had before the call. -/
theorem LoadState_failure_keeps_partial_reads :
    (VGABase.LoadState streamReader 0x41475601
      ⟨[0x01, 0x56, 0x47, 0x41, 0x78, 0x56, 0x34, 0x12], false⟩ sampleVGA).1 = false ∧
    (VGABase.LoadState streamReader 0x41475601
      ⟨[0x01, 0x56, 0x47, 0x41, 0x78, 0x56, 0x34, 0x12], false⟩ sampleVGA).2.1.m_latch =
      0x12345678 ∧
    sampleVGA.m_latch = 0 ∧
    (VGABase.LoadState streamReader 0x41475601
      ⟨[0x01, 0x56, 0x47, 0x41, 0x78, 0x56, 0x34, 0x12], false⟩ sampleVGA).2.1 ≠ sampleVGA := by
  decide

theorem CRTCTimingChanged_eq (t : VGABase) :
    t.CRTCTimingChanged =
      { t with
        m_crtc_timing_changed := true
        m_display_event_active := true
        m_display_event_frequency :=
          if t.m_display_event_active then t.m_display_event_frequency else 60 } := by
  obtain ⟨_, _, _, _, _, _, _, _, _, _, _, _, _, _, _, _, _, _, _, _, _, _, _, _, _, _, _, _,
    active, _⟩ := t
  cases active <;> rfl

/-- C17, amended: a failed load leaves the device untouched when it fails on the
tag.  When the tag matches, every field is assigned as the reads proceed and
nothing is restored, whatever `LoadState` returns: each of the 25 fields holds
what its read delivered, the read having received the field as it was before
the call and the reader as the reads before it left it; the VRAM size and mask
are as before; the timing change is recorded and the display event is active
(at 60 Hz when it was not active before); and the result is false exactly when
the reader ends in its error state. -/
theorem LoadState_effects {R : Type} (rd : BinaryReader R)
    (SERIALIZATION_ID : Nat) (reader : R) (this : VGABase) :
    ((rd.ReadUInt32 reader).1 ≠ SERIALIZATION_ID →
      (VGABase.LoadState rd SERIALIZATION_ID reader this).1 = false ∧
      (VGABase.LoadState rd SERIALIZATION_ID reader this).2.1 = this) ∧
    ((rd.ReadUInt32 reader).1 = SERIALIZATION_ID →
      let r0 := (rd.ReadUInt32 reader).2
      let x1 := rd.SafeReadUInt32 r0 this.m_latch
      let x2 := rd.SafeReadBytes x1.2 this.m_vram this.m_vram_size
      let x3 := rd.SafeReadBytes x2.2 this.m_crtc_registers (this.m_crtc_registers.length % 2 ^ 32)
      let x4 := rd.SafeReadBytes x3.2 this.m_crtc_register_mask
        (this.m_crtc_register_mask.length % 2 ^ 32)
      let x5 := rd.SafeReadUInt8 x4.2 this.m_crtc_index_register
      let x6 := rd.SafeReadBytes x5.2 this.m_graphics_registers
        (this.m_graphics_registers.length % 2 ^ 32)
      let x7 := rd.SafeReadBytes x6.2 this.m_graphics_register_mask
        (this.m_graphics_register_mask.length % 2 ^ 32)
      let x8 := rd.SafeReadUInt8 x7.2 this.m_graphics_index_register
      let x9 := rd.SafeReadUInt8 x8.2 this.m_misc_output_register
      let x10 := rd.SafeReadUInt8 x9.2 this.m_feature_control_register
      let x11 := rd.SafeReadBytes x10.2 this.m_attribute_registers
        (this.m_attribute_registers.length % 2 ^ 32)
      let x12 := rd.SafeReadBytes x11.2 this.m_attribute_register_mask
        (this.m_attribute_register_mask.length % 2 ^ 32)
      let x13 := rd.SafeReadUInt8 x12.2 this.m_attribute_index_register
      let x14 := rd.SafeReadBool x13.2 this.m_attribute_register_flipflop
      let x15 := rd.SafeReadBytes x14.2 this.m_sequencer_registers
        (this.m_sequencer_registers.length % 2 ^ 32)
      let x16 := rd.SafeReadBytes x15.2 this.m_sequencer_register_mask
        (this.m_sequencer_register_mask.length % 2 ^ 32)
      let x17 := rd.SafeReadUInt8 x16.2 this.m_sequencer_index_register
      let x18 := rd.SafeReadBytes x17.2 this.m_dac_palette (Truncate32 this.m_dac_palette.length)
      let x19 := rd.SafeReadUInt8 x18.2 this.m_dac_state_register
      let x20 := rd.SafeReadUInt8 x19.2 this.m_dac_write_address
      let x21 := rd.SafeReadUInt8 x20.2 this.m_dac_read_address
      let x22 := rd.SafeReadUInt8 x21.2 this.m_dac_color_index
      let x23 := rd.SafeReadBytes x22.2 this.m_output_palette
        (Truncate32 this.m_output_palette.length)
      let x24 := rd.SafeReadUInt8 x23.2 this.m_cursor_counter
      let x25 := rd.SafeReadBool x24.2 this.m_cursor_state
      VGABase.LoadState rd SERIALIZATION_ID reader this =
        (!rd.GetErrorState x25.2,
         { m_latch := x1.1
           m_vram := x2.1
           m_vram_size := this.m_vram_size
           m_vram_mask := this.m_vram_mask
           m_crtc_registers := x3.1
           m_crtc_register_mask := x4.1
           m_crtc_index_register := x5.1
           m_graphics_registers := x6.1
           m_graphics_register_mask := x7.1
           m_graphics_index_register := x8.1
           m_misc_output_register := x9.1
           m_feature_control_register := x10.1
           m_attribute_registers := x11.1
           m_attribute_register_mask := x12.1
           m_attribute_index_register := x13.1
           m_attribute_register_flipflop := x14.1
           m_sequencer_registers := x15.1
           m_sequencer_register_mask := x16.1
           m_sequencer_index_register := x17.1
           m_dac_palette := x18.1
           m_dac_state_register := x19.1
           m_dac_write_address := x20.1
           m_dac_read_address := x21.1
           m_dac_color_index := x22.1
           m_output_palette := x23.1
           m_cursor_counter := x24.1
           m_cursor_state := x25.1
           m_crtc_timing_changed := true
           m_display_event_active := true
           m_display_event_frequency :=
             if this.m_display_event_active then this.m_display_event_frequency else 60 },
         x25.2)) := by
  constructor
  · intro htag
    have hb : ((rd.ReadUInt32 reader).1 != SERIALIZATION_ID) = true := by
      simpa using htag
    simp only [VGABase.LoadState, hb, if_true, and_self]
  · intro htag
    have hb : ((rd.ReadUInt32 reader).1 != SERIALIZATION_ID) = false := by
      simpa using htag
    intro r0 x1 x2 x3 x4 x5 x6 x7 x8 x9 x10 x11 x12 x13 x14 x15 x16 x17 x18 x19 x20 x21 x22 x23
      x24 x25
    simp only [VGABase.LoadState, hb, Bool.false_eq_true, if_false, CRTCTimingChanged_eq]
    rfl

set_option maxRecDepth 8000 in
/-- Witness for the amended C17: a stream with the right tag that ends after
the CRTC registers.  The load returns false; the latch, the VRAM and the CRTC
registers hold the bytes of the stream, every later field is as before. -/
theorem LoadState_effects_witness :
    (streamReader.ReadUInt32
      ⟨[0x01, 0x56, 0x47, 0x41, 0x78, 0x56, 0x34, 0x12, 0xAA, 0xBB, 0xCC], false⟩).1 =
      0x41475601 ∧
    VGABase.LoadState streamReader 0x41475601
      ⟨[0x01, 0x56, 0x47, 0x41, 0x78, 0x56, 0x34, 0x12, 0xAA, 0xBB, 0xCC], false⟩ sampleVGA =
      (false,
       { sampleVGA with
         m_latch := 0x12345678
         m_vram := [0xAA, 0xBB]
         m_crtc_registers := [0xCC]
         m_crtc_timing_changed := true },
       ⟨[], true⟩) :=
  ⟨by decide,
   (LoadState_effects streamReader 0x41475601
      ⟨[0x01, 0x56, 0x47, 0x41, 0x78, 0x56, 0x34, 0x12, 0xAA, 0xBB, 0xCC], false⟩ sampleVGA).2
      (by decide)⟩

/-! ## Theorems: the register data ports -/

/-- C26: a write to the graphics data port with an in-range index stores the
byte written as it is, not the masked combination that the function computes
in `new_value`: the register file afterwards is the old one with `value` at the
index.  After `Reset`, with index 0 (write mask 0x0F, register 0), a write of
0xFF stores 0xFF; the same write to the sequencer data port (write mask 0x03)
stores 0x03. -/
theorem IOGraphicsRegisterWrite_stores_unmasked_value (h : VGAHelpers) (this : VGABase)
    (value : Nat) :
    (this.IOGraphicsRegisterWrite h value).m_graphics_registers =
      (if this.m_graphics_index_register ≥ h.NUM_GRAPHICS_REGISTERS then
        this.m_graphics_registers
       else this.m_graphics_registers.set this.m_graphics_index_register value) ∧
    byteAt (constructedVGA.Reset vgaHelpers (fun _ => none)).m_graphics_register_mask 0 = 0x0F ∧
    byteAt (constructedVGA.Reset vgaHelpers (fun _ => none)).m_graphics_registers 0 = 0 ∧
    (constructedVGA.Reset vgaHelpers (fun _ => none)).m_graphics_index_register = 0 ∧
    byteAt ((constructedVGA.Reset vgaHelpers (fun _ => none)).IOGraphicsRegisterWrite
      vgaHelpers 0xFF).m_graphics_registers 0 = 0xFF ∧
    byteAt ((constructedVGA.Reset vgaHelpers (fun _ => none)).IOSequencerDataRegisterWrite
      vgaHelpers 0xFF).m_sequencer_registers 0 = 0x03 := by
  refine ⟨?_, by decide, by decide, by decide, by decide, by decide⟩
  simp only [VGABase.IOGraphicsRegisterWrite, VGABase.UpdateVGAMemoryMapping]
  split_ifs <;> rfl

/-- The latch after a read on the planar path (chain-4 off, odd/even
addressing of the graphics controller off): the four bytes at
`(segment_base + ((segment_base + offset) << 2)) AND vram_mask`. -/
theorem HandleVGAVRAMRead_planar_latch (h : VGAHelpers) (this : VGABase)
    (segment_base offset : Nat)
    (hchain : h.SEQUENCER_REGISTER_MEMORY_MODE_CHAIN_4
      (byteAt this.m_sequencer_registers h.SEQUENCER_REGISTER_MEMORY_MODE) = false)
    (hodd : h.GRAPHICS_REGISTER_MISCELLANEOUS_CHAIN_ODD_EVEN_ENABLE
      (byteAt this.m_graphics_registers h.GRAPHICS_REGISTER_MISCELLANEOUS) = false) :
    (this.HandleVGAVRAMRead h segment_base offset).2.m_latch =
      loadLE32 this.m_vram
        (((segment_base + (((segment_base + offset) % 2 ^ 32) <<< 2) % 2 ^ 32) % 2 ^ 32) &&&
          this.m_vram_mask) := by
  simp only [VGABase.HandleVGAVRAMRead, hchain, hodd, Bool.false_eq_true, if_false, Bool.not_false,
    if_true]
  split_ifs <;> rfl

/-- The VRAM after a write on the planar path (chain-4 off, host odd/even
addressing off): four bytes stored at
`(segment_base + (offset << 2)) AND vram_mask`, the rest as before. -/
theorem HandleVGAVRAMWrite_planar_vram (h : VGAHelpers) (this : VGABase)
    (segment_base offset value : Nat)
    (hchain : h.SEQUENCER_REGISTER_MEMORY_MODE_CHAIN_4
      (byteAt this.m_sequencer_registers h.SEQUENCER_REGISTER_MEMORY_MODE) = false)
    (hhost : h.SEQUENCER_REGISTER_MEMORY_MODE_HOST_ODD_EVEN
      (byteAt this.m_sequencer_registers h.SEQUENCER_REGISTER_MEMORY_MODE) = true) :
    ∃ all_planes_value,
      (this.HandleVGAVRAMWrite h segment_base offset value).m_vram =
        storeLE32 this.m_vram
          (((segment_base + (offset <<< 2) % 2 ^ 32) % 2 ^ 32) &&& this.m_vram_mask)
          all_planes_value := by
  simp only [VGABase.HandleVGAVRAMWrite, hchain, hhost, Bool.false_eq_true, if_false,
    Bool.not_true]
  exact ⟨_, rfl⟩

set_option maxRecDepth 8000 in
/-- C28: with both handlers on their planar path, in write mode 0 with all
planes enabled, bit mask 0xFF, no set/reset, no rotate and logic op 0, and read
mode 0, a write of 0xAB at `segment_base` 4, `offset` 0 stores 0xAB in the four
bytes at 4 = (4 + 4*0) AND mask, but the read at the same place loads the latch
from the four bytes at 20 = (4 + ((4 + 0) << 2)) AND mask and returns 0x11, the
byte that was there, not 0xAB.  With `segment_base` 0 the two addresses agree
and the read returns the byte written. -/
theorem planar_read_adds_segment_base_twice :
    planarVGA.m_vram_mask = 63 ∧
    loadLE32 planarVGA.m_vram 4 = 0 ∧ loadLE32 planarVGA.m_vram 20 = 0x44332211 ∧
    loadLE32 (planarVGA.HandleVGAVRAMWrite vgaHelpers 4 0 0xAB).m_vram 4 = 0xABABABAB ∧
    loadLE32 (planarVGA.HandleVGAVRAMWrite vgaHelpers 4 0 0xAB).m_vram 20 = 0x44332211 ∧
    ((planarVGA.HandleVGAVRAMWrite vgaHelpers 4 0 0xAB).HandleVGAVRAMRead vgaHelpers 4 0).2.m_latch =
      0x44332211 ∧
    ((planarVGA.HandleVGAVRAMWrite vgaHelpers 4 0 0xAB).HandleVGAVRAMRead vgaHelpers 4 0).1 =
      0x11 ∧
    ((planarVGA.HandleVGAVRAMWrite vgaHelpers 0 5 0xAB).HandleVGAVRAMRead vgaHelpers 0 5).1 =
      0xAB := by
  refine ⟨by decide, by decide, by decide, by decide, by decide, by decide, by decide, by decide⟩

end HW

namespace CPU_X86

open CYCLE_GROUP

/-! ## Theorems: CYCLE_GROUP -/

/-- C18, as stated, fails: the register group of MOV to a segment register is
two places after its memory group, their protected-mode variants lying in
between. -/
theorem sreg_register_group_is_two_after_memory_group :
    CYCLES_MOV_SREG_RM_MEM.index = 6 ∧ CYCLES_MOV_SREG_RM_REG.index = 8 ∧
    CYCLES_MOV_SREG_RM_REG.index ≠ CYCLES_MOV_SREG_RM_MEM.index + 1 := by
  decide

/-- The MOVZX groups are listed register first, against the order stated at the
head of the enumeration and followed by MOVSX. -/
theorem movzx_register_group_precedes_memory_group :
    movzxGroupPair.2.index + 1 = movzxGroupPair.1.index ∧
    CYCLES_MOVSX_REG_RM_REG.index = CYCLES_MOVSX_REG_RM_MEM.index + 1 := by
  decide

/-- C18, amended: for every pair of a memory-operand and a register-operand
r/m group other than the MOVZX pair, the register group's index is the memory
group's index plus one, except for the MOV to segment register groups, which
are listed as memory, memory in protected mode, register, register in
protected mode, so that there the register group's index is the memory group's
index plus two. -/
theorem register_group_follows_memory_group :
    (∀ p ∈ rmGroupPairs, p ∉ sregGroupPairs → p ≠ movzxGroupPair →
      p.2.index = p.1.index + 1) ∧
    (∀ p ∈ sregGroupPairs, p.2.index = p.1.index + 2) ∧
    CYCLES_MOV_SREG_RM_MEM_PMODE.index = CYCLES_MOV_SREG_RM_MEM.index + 1 ∧
    CYCLES_MOV_SREG_RM_REG_PMODE.index = CYCLES_MOV_SREG_RM_REG.index + 1 ∧
    (∀ p ∈ sregGroupPairs, p ∈ rmGroupPairs) ∧ movzxGroupPair ∈ rmGroupPairs ∧
    rmGroupPairs.length = 53 := by
  decide

/-- Witness for the amended C18 at the first pair of the enumeration. -/
theorem register_group_follows_memory_group_witness :
    (CYCLES_MOV_RM_MEM_REG, CYCLES_MOV_RM_REG_REG) ∈ rmGroupPairs ∧
    CYCLES_MOV_RM_REG_REG.index = CYCLES_MOV_RM_MEM_REG.index + 1 :=
  ⟨by decide,
   register_group_follows_memory_group.1 (CYCLES_MOV_RM_MEM_REG, CYCLES_MOV_RM_REG_REG)
     (by decide) (by decide) (by decide)⟩

end CPU_X86

namespace Systems

/-! ## Theorems: IBMXT::Initialize -/

/-- C19: `IBMXT::Initialize` fails for an invalid RAM size: with a configured RAM
size below 64 KiB it returns false, and the only call it has made is the one to
the error log: the base system is not initialised, no physical memory is
allocated, no BIOS ROM is loaded and no I/O port is connected. -/
theorem Initialize_rejects_small_ram {S : Type} (m : IBMXT.Methods S) (this : IBMXT S)
    (hram : this.m_ram_size < 65536) :
    IBMXT.Initialize m this = (false, m.Log_ErrorPrintf this) := by
  have h : this.m_ram_size < 64 * 1024 := hram
  simp only [IBMXT.Initialize, h, if_true]

/-- Witness for C19: 32 KiB of RAM, with methods that record themselves. -/
theorem Initialize_rejects_small_ram_witness :
    (⟨32768, []⟩ : IBMXT (List InitStep)).m_ram_size < 65536 ∧
    IBMXT.Initialize recordingMethods ⟨32768, []⟩ = (false, ⟨32768, [InitStep.LogError]⟩) :=
  ⟨by decide, Initialize_rejects_small_ram recordingMethods ⟨32768, []⟩ (by decide)⟩

end Systems
